import Mathlib

/-!
# Entanglement device-mapper target

A shallow embedding of `dm_ent/utils.h` and `dm_ent/target.c`: the CRC-32
helper, the write path (`process_write_bio`, `flush_metadata`), the repair
engine (`repair_block_rec`, `repair_block`, `repair_corrupted_blocks`), the
metadata journal (`load_entanglement_and_checksums`,
`store_entanglement_and_checksums`), the corruption scanner (`check_corruption`),
the constructor (`entanglement_tgt_ctr`) and the read path (`process_read_bio`);
and of the layout computation of the command line tool `user_app/main.c`.

Conventions of the embedding

* A byte buffer (`char *`, a mapped page) is a `List Nat`, one entry per byte.
  Reading index `i` of a buffer is `getD i 0`.
* The C structure `struct entanglement_device` becomes the record
  `entanglement_device`; everything that belongs to the surrounding kernel
  (the underlying block device, the outcome of allocations and I/O requests,
  the content of memory that the code reads without having written it) is
  gathered in the record `kernel`.
* A pointer to a node of the list `ent_dev->entanglement` is its position in
  the chain; the list head is the position `entanglement.length`.
* Every kernel service that the code checks for failure (allocation, lock,
  synchronous I/O) consumes one entry of the oracle `kernel.fault`; entry `0`
  means success.
* Two functions are embedded a second time with the memory accesses that end
  them: `flush_metadata_end` and `repair_block_rec_end`.
-/

namespace DmEnt

/-! ## Constants (`utils.h`, `target.c` lines 11-24) -/

/-- The macro `ENT_BLOCK_SIZE`. -/
def ENT_BLOCK_SIZE : Nat := 4096

/-- The macro `ENT_DEV_SECTOR_SCALE`: 4096 / 512. -/
def ENT_DEV_SECTOR_SCALE : Nat := 8

/-- The macro `DEFAULT_SECTOR_VALUE`. -/
def DEFAULT_SECTOR_VALUE : Nat := 0xFFFFFFFFFFFFFFFF

/-- The macro `DEFAULT_CHECKSUM_VALUE`. -/
def DEFAULT_CHECKSUM_VALUE : Nat := 0xFFFFFFFF

/-- The value of `sizeof(char *)` on the 64-bit kernel the module is built for
(`sector_t` is 8 bytes, `NUMBER_OF_SECTORS_IN_BLOCK` is 512). -/
def SIZEOF_POINTER : Nat := 8

/-- The value of `sizeof(sector_t)`. -/
def SIZEOF_SECTOR_T : Nat := 8

/-- The value of `sizeof(uint)`. -/
def SIZEOF_UINT : Nat := 4

/-- The errno value `ENOMEM`. -/
def ENOMEM : Int := 12

/-- The errno value `EINTR`. -/
def EINTR : Int := 4

/-- The errno value `EINVAL`. -/
def EINVAL : Int := 22

/-! ## Byte buffers -/

/-- The first `n` bytes of the memory at `src`, as `memcpy` reads them. -/
def read_bytes (src : List Nat) (n : Nat) : List Nat :=
  (List.range n).map (fun i => src.getD i 0)

/-- The call `memcpy(dst + off, src, n)`: the result is the buffer `dst` afterwards. -/
def memcpy (dst : List Nat) (off : Nat) (src : List Nat) (n : Nat) : List Nat :=
  dst.take off ++ read_bytes src n ++ dst.drop (off + n)

/-- The object representation of the `w`-byte unsigned integer `v` (little endian),
that is the `w` bytes found at `&v`. -/
def le_bytes (v w : Nat) : List Nat :=
  (List.range w).map (fun j => (v / 256 ^ j) % 256)

/-- The loop `for (i = 0; i < n; i++) out[i] = a[i] ^ b[i];`. -/
def xor_bytes (a b : List Nat) (n : Nat) : List Nat :=
  (List.range n).map (fun i => a.getD i 0 ^^^ b.getD i 0)

/-! ## `utils.h`: `crc32b` and `is_buffer_empty` -/

/-- One pass of the inner loop of `crc32b`:
`mask = -(crc & 1); crc = (crc >> 1) ^ (0xEDB88320 & mask);` on 32-bit unsigned values. -/
def crc32b_bit (crc : Nat) : Nat :=
  let mask := (2 ^ 32 - (crc &&& 1)) % 2 ^ 32
  (crc >>> 1) ^^^ (0xEDB88320 &&& mask)

/-- The body of the `while` loop of `crc32b` for one byte:
`crc = crc ^ byte;` followed by the eight passes of the inner loop. -/
def crc32b_byte (crc byte : Nat) : Nat :=
  crc32b_bit (crc32b_bit (crc32b_bit (crc32b_bit
    (crc32b_bit (crc32b_bit (crc32b_bit (crc32b_bit (crc ^^^ byte))))))))

/-- The `while (message[i] != 0)` loop of `crc32b`, started with register `crc` on the
bytes that remain.  The loop stops at the first zero byte.  The function has no length
argument: the list stands for the bytes found in memory from `message` on, the buffer
and what lies behind it.  For a list that holds a zero byte the value is the one of the
code.  For a list without a zero byte the code reads on behind the listed bytes; the
value given here, the loop ending with the list, is the one it gets when the byte that
follows them is zero. -/
def crc32b_loop : Nat → List Nat → Nat
  | crc, [] => crc
  | crc, byte :: rest => if byte = 0 then crc else crc32b_loop (crc32b_byte crc byte) rest

/-- The function `crc32b` of `utils.h`: `crc = 0xFFFFFFFF`, the loop, `return ~crc`. -/
def crc32b (message : List Nat) : Nat :=
  0xFFFFFFFF - crc32b_loop 0xFFFFFFFF message

/-- The function `is_buffer_empty` of `utils.h`: `1` when the first `size` bytes of
`arr` are all zero and `0` as soon as one of them is not. -/
def is_buffer_empty (arr : List Nat) (size : Nat) : Int :=
  if (List.range size).all (fun i => arr.getD i 0 == 0) then 1 else 0

/-- The checksum that the specification asks for, written from its words: the standard
CRC-32 (reflected polynomial 0xEDB88320, initial value 0xFFFFFFFF, final complement)
taken over every byte of the block, whatever the value of the byte. -/
def crc32_register : Nat → List Nat → Nat
  | crc, [] => crc
  | crc, byte :: rest => crc32_register (crc32b_byte crc byte) rest

/-- The standard CRC-32 of all the bytes of `block`. -/
def crc32_standard (block : List Nat) : Nat :=
  0xFFFFFFFF - crc32_register 0xFFFFFFFF block

/-- The register of `crc32_register`, brought to a numeral after every byte; it
computes the same value and is used to evaluate the standard CRC-32 of a whole block. -/
def crc32_register_strict : Nat → List Nat → Nat
  | crc, [] => crc
  | crc, byte :: rest =>
    match crc32b_byte crc byte with
    | 0 => crc32_register_strict 0 rest
    | n + 1 => crc32_register_strict (n + 1) rest

/-! ## State: `device.h`, and the kernel around the module -/

/-- The structure `struct entangled_block` of `target.c` (without its list node). -/
structure entangled_block where
  block_sector : Nat
  block_checksum : Nat
deriving DecidableEq, Repr

/-- The structure `struct entanglement_device` of `device.h`.  The field `dev` (the
underlying device) lives in `kernel`; the three mutexes have no content. -/
structure entanglement_device where
  dev_size : Nat
  metadata_size : Nat
  metadata_sector_size : Nat
  metadata_checksum_size : Nat
  metadata_start_sector : Nat
  write_sector_scale : Nat
  entanglement : List entangled_block
  corrupted_blocks : Nat → Bool
  sector_checksum_map : Nat → Nat
  last_entangled_block : List Nat
  next_sector : Nat
  next_checksum : Nat
  block_sector_buffer : List Nat
  block_checksum_buffer : List Nat
  sector_buffer_size : Nat
  checksum_buffer_size : Nat

/-- What the module sees of the kernel.

* `fault n` is the outcome of the `n`-th kernel service whose failure the code checks
  (`0`: success), `calls` counts the services used so far;
* `stale n i` is byte `i` of the page handed out by the `n`-th service when it is a
  `mempool_alloc` (pool pages are not cleared), `stale_bits n i` is bit `i` of the
  bitmap handed out when it is a `bitmap_alloc` (not cleared either);
* `memory a` is the byte found at the kernel address `a`, for the places where the
  code passes an integer where `memcpy` expects the address of its source;
* `head_entry` is what `list_entry` yields when it is applied to the list head
  `&ent_dev->entanglement` itself, which is not embedded in an `entangled_block`;
* `stack_int` is the value of an `int` local that is returned without being set;
* `disk a` is byte `a` of the underlying device and `wlog` lists the writes sent to
  it, oldest first, each with its 512-byte sector `bi_sector` and its payload. -/
structure kernel where
  fault : Nat → Int
  calls : Nat
  stale : Nat → Nat → Nat
  stale_bits : Nat → Nat → Bool
  memory : Nat → Nat
  head_entry : entangled_block
  stack_int : Int
  disk : Nat → Nat
  wlog : List (Nat × List Nat)

/-- A write request as `process_write_bio` receives it: `bio->bi_iter.bi_sector` and the
bytes found at `bio_data(bio)`.  `entanglement_tgt_map` hands over only requests that
carry data, so `bio_data` is never `NULL`. -/
structure bio where
  bi_sector : Nat
  data : List Nat

/-- The enumeration `enum BufferType`. -/
inductive BufferType where
  | SECTOR
  | CHECKSUM
deriving DecidableEq, Repr

/-- The enumeration `enum RepairDirection`. -/
inductive RepairDirection where
  | LEFT
  | RIGHT
deriving DecidableEq, Repr

/-- The enumeration `enum RepairState`. -/
inductive RepairState where
  | REPAIRED
  | IRRECOVERABLE
deriving DecidableEq, Repr

/-- The kernel constants `READ` and `WRITE`. -/
inductive rw_dir where
  | READ
  | WRITE
deriving DecidableEq, Repr

/-! ## Kernel services -/

/-- The outcome of the next checked kernel service. -/
def kernel.outcome (k : kernel) : Int := k.fault k.calls

/-- The kernel after one more checked service. -/
def kernel.tick (k : kernel) : kernel := { k with calls := k.calls + 1 }

/-- The page that a successful `mempool_alloc(page_pool, GFP_NOIO)` hands out as the
service number `k.calls`: 4096 bytes of stale content. -/
def kernel.fresh_page (k : kernel) : List Nat :=
  (List.range ENT_BLOCK_SIZE).map (fun i => k.stale k.calls i)

/-- The `n` bytes found at the kernel address `addr` (addresses are 64 bits wide). -/
def kernel.bytes_at (k : kernel) (addr n : Nat) : List Nat :=
  (List.range n).map (fun j => k.memory ((addr + j) % 2 ^ 64))

/-- The 4096 bytes of the underlying device that start at the 512-byte sector `bi_sector`. -/
def kernel.read_disk (k : kernel) (bi_sector : Nat) : List Nat :=
  (List.range ENT_BLOCK_SIZE).map (fun i => k.disk (512 * bi_sector + i))

/-- The underlying device after `payload` is written at the 512-byte sector `bi_sector`;
the write is also appended to `wlog`. -/
def kernel.write_disk (k : kernel) (bi_sector : Nat) (payload : List Nat) : kernel :=
  { k with
    disk := fun a =>
      if 512 * bi_sector ≤ a ∧ a < 512 * bi_sector + payload.length
      then payload.getD (a - 512 * bi_sector) 0 else k.disk a
    wlog := k.wlog ++ [(bi_sector, payload)] }

/-- The kernel function `submit_bio` for a write request: the request is handed to the
underlying device; its completion is modelled as immediate. -/
def submit_bio (k : kernel) (bi_sector : Nat) (payload : List Nat) : kernel :=
  k.write_disk bi_sector payload

/-- The function `ent_dev_rwSector` of `utils.h`: one synchronous 4096-byte transfer
between `page` and the sector `sector * ENT_DEV_SECTOR_SCALE` of the underlying device.
Its three failure points (`bio_alloc_bioset`, `bio_add_page`, `submit_bio_wait`) are one
checked service.  Returns `err`, the page afterwards and the kernel afterwards. -/
def ent_dev_rwSector (k : kernel) (page : List Nat) (sector : Nat) (rw : rw_dir) :
    Int × List Nat × kernel :=
  if k.outcome ≠ 0 then (k.outcome, page, k.tick)
  else
    match rw with
    | rw_dir.READ => (0, k.read_disk (sector * ENT_DEV_SECTOR_SCALE), k.tick)
    | rw_dir.WRITE => (0, page, k.tick.write_disk (sector * ENT_DEV_SECTOR_SCALE) page)

/-! ## Write path: `flush_metadata` and `process_write_bio` -/

/-- The reset loop of `flush_metadata` for a buffer of `count` slots of `width` bytes:
`memcpy(buffer + i*width, VALUE, width)` for every `i`.  The second argument of `memcpy`
is the constant itself, not its address, so each slot receives the `width` bytes found
at the kernel address `VALUE`, here those that `kernel.memory` gives.  On the kernel that
address cannot be read; `flush_metadata_end` is the function with the fault of that
read. -/
def reset_buffer (k : kernel) (buffer : List Nat) (value width count : Nat) : List Nat :=
  (List.range count).foldl (fun b i => memcpy b (i * width) (k.bytes_at value width) width) buffer

/-- The function `flush_metadata` of `target.c`.  Returns `err`, the device and the
kernel.  After a successful write the reset loop reads its source bytes at the address
of the constant; this definition serves these reads from `kernel.memory` and goes on to
the end of the function.  `flush_metadata_end` is the function with the fault of these
reads; the two agree on every call that returns before the loop. -/
def flush_metadata (ent_dev : entanglement_device) (k : kernel) (type : BufferType) :
    Int × entanglement_device × kernel :=
  let buffer := if type = BufferType.SECTOR then ent_dev.block_sector_buffer
                else ent_dev.block_checksum_buffer
  let sector := if type = BufferType.SECTOR then ent_dev.next_sector else ent_dev.next_checksum
  -- page = mempool_alloc(page_pool, GFP_NOIO)
  if k.outcome ≠ 0 then (-ENOMEM, ent_dev, k.tick)
  else
    let k1 := k.tick
    -- memcpy(page_ptr, buffer, ENT_BLOCK_SIZE)
    let page := memcpy k.fresh_page 0 buffer ENT_BLOCK_SIZE
    let io := ent_dev_rwSector k1 page sector rw_dir.WRITE
    if io.1 ≠ 0 then (io.1, ent_dev, io.2.2)
    else
      match type with
      | BufferType.SECTOR =>
        (0, { ent_dev with
              block_sector_buffer :=
                reset_buffer io.2.2 buffer DEFAULT_SECTOR_VALUE SIZEOF_SECTOR_T
                  (ENT_BLOCK_SIZE / SIZEOF_SECTOR_T)
              sector_buffer_size := 0
              next_sector := ent_dev.next_sector + 1 }, io.2.2)
      | BufferType.CHECKSUM =>
        (0, { ent_dev with
              block_checksum_buffer :=
                reset_buffer io.2.2 buffer DEFAULT_CHECKSUM_VALUE SIZEOF_UINT
                  (ENT_BLOCK_SIZE / SIZEOF_UINT)
              checksum_buffer_size := 0
              next_checksum := ent_dev.next_checksum + 1 }, io.2.2)

/-- Lines 947-953 of `process_write_bio`: the content of `parity_buffer` for the data
found at `data_buffer` and the cached chain tail `last_entangled_block`. -/
def parity_buffer_of (data_buffer last_entangled_block : List Nat) : List Nat :=
  if is_buffer_empty last_entangled_block ENT_BLOCK_SIZE ≠ 0 then
    read_bytes data_buffer ENT_BLOCK_SIZE
  else
    xor_bytes data_buffer last_entangled_block ENT_BLOCK_SIZE

/-- Line 968 of `process_write_bio`: `memcpy(parity_page_ptr, parity_buffer,
sizeof(parity_buffer))` where `parity_buffer` is a `char *`; the result is the content
of the parity page. -/
def parity_page_of (parity_page parity_buffer : List Nat) : List Nat :=
  memcpy parity_page 0 parity_buffer SIZEOF_POINTER

/-- Lines 1031-1045 of `process_write_bio`: the data sector goes to the sector buffer. -/
def append_data_sector (ent_dev : entanglement_device) (k : kernel) (data_sector : Nat) :
    Int × entanglement_device × kernel :=
  if ent_dev.sector_buffer_size + SIZEOF_SECTOR_T < ENT_BLOCK_SIZE then
    (0, { ent_dev with
          block_sector_buffer := memcpy ent_dev.block_sector_buffer ent_dev.sector_buffer_size
            (le_bytes data_sector SIZEOF_SECTOR_T) SIZEOF_SECTOR_T
          sector_buffer_size := ent_dev.sector_buffer_size + SIZEOF_SECTOR_T }, k)
  else
    let f := flush_metadata ent_dev k BufferType.SECTOR
    if f.1 ≠ 0 then f
    else
      (0, { f.2.1 with
            block_sector_buffer := memcpy f.2.1.block_sector_buffer f.2.1.sector_buffer_size
              (le_bytes data_sector SIZEOF_SECTOR_T) SIZEOF_SECTOR_T
            sector_buffer_size := f.2.1.sector_buffer_size + SIZEOF_SECTOR_T }, f.2.2)

/-- Lines 1048-1060 of `process_write_bio`: the data checksum goes to the checksum
buffer.  After a flush the source of the `memcpy` is `data_checksum` itself, not its
address: the slot receives the four bytes found at the kernel address `data_checksum`. -/
def append_data_checksum (ent_dev : entanglement_device) (k : kernel) (data_checksum : Nat) :
    Int × entanglement_device × kernel :=
  if ent_dev.checksum_buffer_size + SIZEOF_UINT < ENT_BLOCK_SIZE then
    (0, { ent_dev with
          block_checksum_buffer := memcpy ent_dev.block_checksum_buffer
            ent_dev.checksum_buffer_size (le_bytes data_checksum SIZEOF_UINT) SIZEOF_UINT
          checksum_buffer_size := ent_dev.checksum_buffer_size + SIZEOF_UINT }, k)
  else
    let f := flush_metadata ent_dev k BufferType.CHECKSUM
    if f.1 ≠ 0 then f
    else
      (0, { f.2.1 with
            block_checksum_buffer := memcpy f.2.1.block_checksum_buffer
              f.2.1.checksum_buffer_size (f.2.2.bytes_at data_checksum SIZEOF_UINT) SIZEOF_UINT
            checksum_buffer_size := f.2.1.checksum_buffer_size + SIZEOF_UINT }, f.2.2)

/-- Lines 1064-1075 of `process_write_bio`: the parity sector goes to the sector buffer. -/
def append_parity_sector (ent_dev : entanglement_device) (k : kernel) (parity_sector : Nat) :
    Int × entanglement_device × kernel :=
  if ent_dev.sector_buffer_size + SIZEOF_SECTOR_T < ENT_BLOCK_SIZE then
    (0, { ent_dev with
          block_sector_buffer := memcpy ent_dev.block_sector_buffer ent_dev.sector_buffer_size
            (le_bytes parity_sector SIZEOF_SECTOR_T) SIZEOF_SECTOR_T
          sector_buffer_size := ent_dev.sector_buffer_size + SIZEOF_SECTOR_T }, k)
  else
    let f := flush_metadata ent_dev k BufferType.SECTOR
    if f.1 ≠ 0 then f
    else
      (0, { f.2.1 with
            block_sector_buffer := memcpy f.2.1.block_sector_buffer f.2.1.sector_buffer_size
              (le_bytes parity_sector SIZEOF_SECTOR_T) SIZEOF_SECTOR_T
            sector_buffer_size := f.2.1.sector_buffer_size + SIZEOF_SECTOR_T }, f.2.2)

/-- Lines 1078-1090 of `process_write_bio`: the parity checksum goes to the checksum
buffer. -/
def append_parity_checksum (ent_dev : entanglement_device) (k : kernel)
    (parity_checksum : Nat) : Int × entanglement_device × kernel :=
  if ent_dev.checksum_buffer_size + SIZEOF_UINT < ENT_BLOCK_SIZE then
    (0, { ent_dev with
          block_checksum_buffer := memcpy ent_dev.block_checksum_buffer
            ent_dev.checksum_buffer_size (le_bytes parity_checksum SIZEOF_UINT) SIZEOF_UINT
          checksum_buffer_size := ent_dev.checksum_buffer_size + SIZEOF_UINT }, k)
  else
    let f := flush_metadata ent_dev k BufferType.CHECKSUM
    if f.1 ≠ 0 then f
    else
      (0, { f.2.1 with
            block_checksum_buffer := memcpy f.2.1.block_checksum_buffer
              f.2.1.checksum_buffer_size (le_bytes parity_checksum SIZEOF_UINT) SIZEOF_UINT
            checksum_buffer_size := f.2.1.checksum_buffer_size + SIZEOF_UINT }, f.2.2)

/-- Lines 1030-1091 of `process_write_bio`: the four appends in their order; the first
one that fails ends the sequence (`goto err_metadata_flush`) and its error is returned. -/
def append_metadata (ent_dev : entanglement_device) (k : kernel)
    (data_sector data_checksum parity_sector parity_checksum : Nat) :
    Int × entanglement_device × kernel :=
  let a1 := append_data_sector ent_dev k data_sector
  if a1.1 ≠ 0 then a1
  else
    let a2 := append_data_checksum a1.2.1 a1.2.2 data_checksum
    if a2.1 ≠ 0 then a2
    else
      let a3 := append_parity_sector a2.2.1 a2.2.2 parity_sector
      if a3.1 ≠ 0 then a3
      else append_parity_checksum a3.2.1 a3.2.2 parity_checksum

/-- The label `err_metadata_flush` of `process_write_bio`: `list_del` of the parity node,
then of the data node (the two nodes last appended), and the error is returned. -/
def err_metadata_flush (r : Int × entanglement_device × kernel) :
    Int × entanglement_device × kernel :=
  (r.1, { r.2.1 with entanglement := r.2.1.entanglement.dropLast.dropLast }, r.2.2)

/-- The function `process_write_bio` of `target.c`.  Returns `err`, the device and the
kernel afterwards.  Sector arithmetic is done on `sector_t`; the sectors of a request
and of its parity lie inside the device, far below 2^64, so no reduction is applied. -/
def process_write_bio (ent_dev : entanglement_device) (k : kernel) (b : bio) :
    Int × entanglement_device × kernel :=
  -- parity_page = mempool_alloc(page_pool, GFP_NOIO)
  if k.outcome ≠ 0 then (-ENOMEM, ent_dev, k.tick)
  else
    let k1 := k.tick
    -- mutex_lock_interruptible(&ent_dev->metadata_buffers_lock)
    if k1.outcome ≠ 0 then (-EINTR, ent_dev, k1.tick)
    else
      let k2 := k1.tick
      -- data_bio = bio_alloc_clone(...)
      if k2.outcome ≠ 0 then (-ENOMEM, ent_dev, k2.tick)
      else
        let k3 := k2.tick
        -- parity_bio = bio_alloc_bioset(...)
        if k3.outcome ≠ 0 then (-ENOMEM, ent_dev, k3.tick)
        else
          let k4 := k3.tick
          -- parity_buffer = kmalloc(ENT_BLOCK_SIZE, GFP_KERNEL)
          if k4.outcome ≠ 0 then (-ENOMEM, ent_dev, k4.tick)
          else
            let k5 := k4.tick
            let data_buffer := b.data
            let parity_buffer := parity_buffer_of data_buffer ent_dev.last_entangled_block
            let parity_page := parity_page_of k.fresh_page parity_buffer
            -- bio_add_page(parity_bio, parity_page, ENT_BLOCK_SIZE, 0)
            if k5.outcome ≠ 0 then (-EINVAL, ent_dev, k5.tick)
            else
              let k6 := k5.tick
              let data_sector := b.bi_sector
              let parity_sector := data_sector + ent_dev.write_sector_scale
              -- new_data_block = kmalloc(...)
              if k6.outcome ≠ 0 then (-ENOMEM, ent_dev, k6.tick)
              else
                let k7 := k6.tick
                -- new_parity_block = kmalloc(...)
                if k7.outcome ≠ 0 then (-ENOMEM, ent_dev, k7.tick)
                else
                  let k8 := k7.tick
                  let data_checksum := crc32b data_buffer
                  let parity_checksum := crc32b parity_buffer
                  let new_data_block : entangled_block := ⟨data_sector, data_checksum⟩
                  let new_parity_block : entangled_block := ⟨parity_sector, parity_checksum⟩
                  -- list_add_tail, twice
                  let dev0 := { ent_dev with
                    entanglement := (ent_dev.entanglement ++ [new_data_block])
                      ++ [new_parity_block] }
                  let m := append_metadata dev0 k8 data_sector data_checksum parity_sector
                    parity_checksum
                  if m.1 ≠ 0 then err_metadata_flush m
                  else
                    -- memcpy(ent_dev->last_entangled_block, parity_buffer, ENT_BLOCK_SIZE)
                    -- on the ENT_BLOCK_SIZE bytes of the cache, then the map
                    let dev5 := { m.2.1 with
                      last_entangled_block := read_bytes parity_buffer ENT_BLOCK_SIZE
                      sector_checksum_map := fun s =>
                        if s = parity_sector then parity_checksum
                        else if s = data_sector then data_checksum
                        else m.2.1.sector_checksum_map s }
                    -- submit_bio(data_bio); submit_bio(parity_bio)
                    (0, dev5,
                      submit_bio (submit_bio m.2.2 data_sector b.data) parity_sector parity_page)

/-- A sequence of write requests handled one after the other, whatever each returns:
the device and the kernel after the last one. -/
def process_write_bios (ent_dev : entanglement_device) (k : kernel) :
    List bio → entanglement_device × kernel
  | [] => (ent_dev, k)
  | b :: rest =>
    process_write_bios (process_write_bio ent_dev k b).2.1 (process_write_bio ent_dev k b).2.2 rest

/-- Whether every request of the sequence is handled successfully, that is whether
`process_write_bio` returns 0 for each of them. -/
def writes_succeed (ent_dev : entanglement_device) (k : kernel) : List bio → Bool
  | [] => true
  | b :: rest =>
    decide ((process_write_bio ent_dev k b).1 = 0) &&
      writes_succeed (process_write_bio ent_dev k b).2.1 (process_write_bio ent_dev k b).2.2 rest

/-! ## Repair engine: `repair_block_rec`, `repair_block`, `repair_corrupted_blocks` -/

/-- The kernel function `test_bit(nr, addr)`. -/
def test_bit (nr : Nat) (addr : Nat → Bool) : Bool := addr nr

/-- The kernel function `bitmap_set(map, start, 1)`. -/
def bitmap_set (map : Nat → Bool) (start : Nat) : Nat → Bool :=
  fun i => if i = start then true else map i

/-- The kernel function `bitmap_clear(map, start, 1)`. -/
def bitmap_clear (map : Nat → Bool) (start : Nat) : Nat → Bool :=
  fun i => if i = start then false else map i

/-- The list head `&ent_dev->entanglement`, as a position. -/
def list_head (ent_dev : entanglement_device) : Nat := ent_dev.entanglement.length

/-- The field `list_node.prev` of the node at position `pos` of the circular list. -/
def list_prev (ent_dev : entanglement_device) (pos : Nat) : Nat :=
  if pos = 0 then list_head ent_dev else pos - 1

/-- The field `list_node.next` of the node at position `pos` of the circular list. -/
def list_next (ent_dev : entanglement_device) (pos : Nat) : Nat :=
  if list_head ent_dev ≤ pos then 0 else pos + 1

/-- The macro `list_entry(node, struct entangled_block, list_node)` for the node at
position `pos`; at the list head it yields `kernel.head_entry`, the bytes of the device
structure in front of the list head taken as an entry.  `list_entry_checked` tells the
two cases apart, and `repair_block_rec_end` is `repair_block_rec` with that read marked. -/
def list_entry (ent_dev : entanglement_device) (k : kernel) (pos : Nat) : entangled_block :=
  ent_dev.entanglement.getD pos k.head_entry

/-- The result of the repair functions: the device, the kernel and the bitmap
`irrecoverable_blocks_bitmap` afterwards. -/
structure repair_result where
  ent_dev : entanglement_device
  k : kernel
  irrecoverable_blocks_bitmap : Nat → Bool

/-- Lines 316-377 of `repair_block_rec`: the pages are allocated, the data block and the
parity block are read, their XOR is written to the sector of `block`, whose bit is
cleared.  `result_state` is the value of the local at line 316; it is returned as it is
on every failure. -/
def repair_block_rec_write (ent_dev : entanglement_device) (k : kernel)
    (block next_data_block next_parity_block : entangled_block)
    (irrecoverable_blocks_bitmap : Nat → Bool) (result_state : RepairState) :
    RepairState × repair_result :=
  -- data_page = mempool_alloc(page_pool, GFP_NOIO)
  if k.outcome ≠ 0 then (result_state, ⟨ent_dev, k.tick, irrecoverable_blocks_bitmap⟩)
  else
    let k1 := k.tick
    -- parity_page = mempool_alloc(page_pool, GFP_NOIO)
    if k1.outcome ≠ 0 then (result_state, ⟨ent_dev, k1.tick, irrecoverable_blocks_bitmap⟩)
    else
      let k2 := k1.tick
      -- repaired_block_page = mempool_alloc(page_pool, GFP_NOIO)
      if k2.outcome ≠ 0 then (result_state, ⟨ent_dev, k2.tick, irrecoverable_blocks_bitmap⟩)
      else
        let k3 := k2.tick
        let rd := ent_dev_rwSector k3 k.fresh_page next_data_block.block_sector rw_dir.READ
        if rd.1 ≠ 0 then (result_state, ⟨ent_dev, rd.2.2, irrecoverable_blocks_bitmap⟩)
        else
          let rp := ent_dev_rwSector rd.2.2 k1.fresh_page next_parity_block.block_sector
            rw_dir.READ
          if rp.1 ≠ 0 then (result_state, ⟨ent_dev, rp.2.2, irrecoverable_blocks_bitmap⟩)
          else
            let repaired_block_page := xor_bytes rd.2.1 rp.2.1 ENT_BLOCK_SIZE
            let wr := ent_dev_rwSector rp.2.2 repaired_block_page block.block_sector
              rw_dir.WRITE
            if wr.1 ≠ 0 then (result_state, ⟨ent_dev, wr.2.2, irrecoverable_blocks_bitmap⟩)
            else
              (RepairState.REPAIRED,
                ⟨{ ent_dev with
                    corrupted_blocks := bitmap_clear ent_dev.corrupted_blocks block.block_sector },
                  wr.2.2, irrecoverable_blocks_bitmap⟩)

/-- The function `repair_block_rec` of `target.c`, for the node at position `block`.
The recursion follows the circular list and has no bound of its own, so it is given
`fuel`: the number of nested calls allowed; `none` means the fuel ran out. -/
def repair_block_rec : Nat → entanglement_device → kernel → Nat → (Nat → Bool) →
    RepairDirection → Option (RepairState × repair_result)
  | 0, _, _, _, _, _ => none
  | fuel + 1, ent_dev, k, block, irrecoverable_blocks_bitmap, direction =>
    let this_block := list_entry ent_dev k block
    -- enum RepairState result_state = IRRECOVERABLE;
    let result_state := RepairState.IRRECOVERABLE
    match direction with
    | RepairDirection.LEFT =>
      let next_data_block := list_prev ent_dev block
      if test_bit (list_entry ent_dev k next_data_block).block_sector ent_dev.corrupted_blocks then
        some (RepairState.IRRECOVERABLE,
          ⟨ent_dev, k, bitmap_set irrecoverable_blocks_bitmap this_block.block_sector⟩)
      else if list_prev ent_dev next_data_block = list_head ent_dev then
        some (RepairState.IRRECOVERABLE,
          ⟨ent_dev, k, bitmap_set irrecoverable_blocks_bitmap this_block.block_sector⟩)
      else
        let next_parity_block := list_prev ent_dev next_data_block
        let inner : Option (RepairState × repair_result) :=
          if test_bit (list_entry ent_dev k next_parity_block).block_sector
              ent_dev.corrupted_blocks then
            repair_block_rec fuel ent_dev k next_parity_block irrecoverable_blocks_bitmap
              direction
          else some (result_state, ⟨ent_dev, k, irrecoverable_blocks_bitmap⟩)
        match inner with
        | none => none
        | some r =>
          if r.1 = RepairState.IRRECOVERABLE then
            some (RepairState.IRRECOVERABLE,
              ⟨r.2.ent_dev, r.2.k,
                bitmap_set r.2.irrecoverable_blocks_bitmap this_block.block_sector⟩)
          else
            some (repair_block_rec_write r.2.ent_dev r.2.k this_block
              (list_entry ent_dev k next_data_block) (list_entry ent_dev k next_parity_block)
              r.2.irrecoverable_blocks_bitmap r.1)
    | RepairDirection.RIGHT =>
      if list_next ent_dev block = list_head ent_dev then
        some (RepairState.IRRECOVERABLE,
          ⟨ent_dev, k, bitmap_set irrecoverable_blocks_bitmap this_block.block_sector⟩)
      else
        let next_data_block := list_next ent_dev block
        if test_bit (list_entry ent_dev k next_data_block).block_sector
            ent_dev.corrupted_blocks then
          some (RepairState.IRRECOVERABLE,
            ⟨ent_dev, k, bitmap_set irrecoverable_blocks_bitmap this_block.block_sector⟩)
        else
          let next_parity_block := list_next ent_dev next_data_block
          let inner : Option (RepairState × repair_result) :=
            if test_bit (list_entry ent_dev k next_parity_block).block_sector
                ent_dev.corrupted_blocks then
              repair_block_rec fuel ent_dev k next_parity_block irrecoverable_blocks_bitmap
                direction
            else some (result_state, ⟨ent_dev, k, irrecoverable_blocks_bitmap⟩)
          match inner with
          | none => none
          | some r =>
            if r.1 = RepairState.IRRECOVERABLE then
              some (RepairState.IRRECOVERABLE,
                ⟨r.2.ent_dev, r.2.k,
                  bitmap_set r.2.irrecoverable_blocks_bitmap this_block.block_sector⟩)
            else
              some (repair_block_rec_write r.2.ent_dev r.2.k this_block
                (list_entry ent_dev k next_data_block) (list_entry ent_dev k next_parity_block)
                r.2.irrecoverable_blocks_bitmap r.1)

/-- The locals of `repair_block` at line 413: the two neighbour states, and the device,
kernel and bitmap after the neighbours were resolved. -/
structure neighbour_states where
  left_state : RepairState
  right_state : RepairState
  res : repair_result

/-- Lines 387-411 of `repair_block`: the left and the right neighbour of the node at
position `block` are resolved.  Both `left_block` and `right_block` are taken from
`block->list_node.prev`, as the source does. -/
def repair_block_neighbours (fuel : Nat) (ent_dev : entanglement_device) (k : kernel)
    (block : Nat) (irrecoverable_blocks_bitmap : Nat → Bool) : Option neighbour_states :=
  -- enum RepairState left_state = REPAIRED;
  let left : Option (RepairState × repair_result) :=
    if list_prev ent_dev block ≠ list_head ent_dev then
      let left_block := list_prev ent_dev block
      if test_bit (list_entry ent_dev k left_block).block_sector ent_dev.corrupted_blocks then
        repair_block_rec fuel ent_dev k left_block irrecoverable_blocks_bitmap
          RepairDirection.LEFT
      else some (RepairState.REPAIRED, ⟨ent_dev, k, irrecoverable_blocks_bitmap⟩)
    else some (RepairState.REPAIRED, ⟨ent_dev, k, irrecoverable_blocks_bitmap⟩)
  match left with
  | none => none
  | some l =>
    -- right_block = list_entry(block->list_node.prev, struct entangled_block, list_node);
    let right_block := list_prev ent_dev block
    -- enum RepairState right_state = REPAIRED;
    let right : Option (RepairState × repair_result) :=
      if test_bit (list_entry ent_dev k right_block).block_sector
          l.2.ent_dev.corrupted_blocks then
        repair_block_rec fuel l.2.ent_dev l.2.k right_block l.2.irrecoverable_blocks_bitmap
          RepairDirection.RIGHT
      else some (RepairState.REPAIRED, l.2)
    match right with
    | none => none
    | some r => some ⟨l.1, r.1, r.2⟩

/-- Lines 422-498 of `repair_block`: the block is rebuilt from its neighbours and written
back, and its bit is cleared.  `left_block` and `right_block` are the entries the two
locals point to; `first` tells whether `block->list_node.prev` is the list head. -/
def repair_block_write (ent_dev : entanglement_device) (k : kernel)
    (block left_block right_block : entangled_block) (first : Bool)
    (irrecoverable_blocks_bitmap : Nat → Bool) : repair_result :=
  -- repaired_block_page = mempool_alloc(page_pool, GFP_NOIO)
  if k.outcome ≠ 0 then ⟨ent_dev, k.tick, irrecoverable_blocks_bitmap⟩
  else
    let k1 := k.tick
    -- right_page = mempool_alloc(page_pool, GFP_NOIO)
    if k1.outcome ≠ 0 then ⟨ent_dev, k1.tick, irrecoverable_blocks_bitmap⟩
    else
      let k2 := k1.tick
      if first then
        let rd := ent_dev_rwSector k2 k1.fresh_page right_block.block_sector rw_dir.READ
        if rd.1 ≠ 0 then ⟨ent_dev, rd.2.2, irrecoverable_blocks_bitmap⟩
        else
          -- memcpy(repaired_block_page_ptr, right_page_ptr, ENT_BLOCK_SIZE)
          let repaired_block_page := memcpy k.fresh_page 0 rd.2.1 ENT_BLOCK_SIZE
          let wr := ent_dev_rwSector rd.2.2 repaired_block_page block.block_sector rw_dir.WRITE
          if wr.1 ≠ 0 then ⟨ent_dev, wr.2.2, irrecoverable_blocks_bitmap⟩
          else
            ⟨{ ent_dev with
                corrupted_blocks := bitmap_clear ent_dev.corrupted_blocks block.block_sector },
              wr.2.2, irrecoverable_blocks_bitmap⟩
      else
        -- left_page = mempool_alloc(page_pool, GFP_NOIO)
        if k2.outcome ≠ 0 then ⟨ent_dev, k2.tick, irrecoverable_blocks_bitmap⟩
        else
          let k3 := k2.tick
          let rl := ent_dev_rwSector k3 k2.fresh_page left_block.block_sector rw_dir.READ
          if rl.1 ≠ 0 then ⟨ent_dev, rl.2.2, irrecoverable_blocks_bitmap⟩
          else
            let rr := ent_dev_rwSector rl.2.2 k1.fresh_page right_block.block_sector rw_dir.READ
            if rr.1 ≠ 0 then ⟨ent_dev, rr.2.2, irrecoverable_blocks_bitmap⟩
            else
              let repaired_block_page := xor_bytes rl.2.1 rr.2.1 ENT_BLOCK_SIZE
              let wr := ent_dev_rwSector rr.2.2 repaired_block_page block.block_sector
                rw_dir.WRITE
              if wr.1 ≠ 0 then ⟨ent_dev, wr.2.2, irrecoverable_blocks_bitmap⟩
              else
                ⟨{ ent_dev with
                    corrupted_blocks :=
                      bitmap_clear ent_dev.corrupted_blocks block.block_sector },
                  wr.2.2, irrecoverable_blocks_bitmap⟩

/-- The function `repair_block` of `target.c`, for the node at position `block`;
`none` means that the fuel of a recursive resolution ran out. -/
def repair_block (fuel : Nat) (ent_dev : entanglement_device) (k : kernel) (block : Nat)
    (irrecoverable_blocks_bitmap : Nat → Bool) : Option repair_result :=
  match repair_block_neighbours fuel ent_dev k block irrecoverable_blocks_bitmap with
  | none => none
  | some n =>
    if n.left_state = RepairState.IRRECOVERABLE ∨ n.right_state = RepairState.IRRECOVERABLE then
      some ⟨n.res.ent_dev, n.res.k,
        bitmap_set n.res.irrecoverable_blocks_bitmap (list_entry ent_dev k block).block_sector⟩
    else
      some (repair_block_write n.res.ent_dev n.res.k (list_entry ent_dev k block)
        (list_entry ent_dev k (list_prev ent_dev block))
        (list_entry ent_dev k (list_prev ent_dev block))
        (decide (list_prev ent_dev block = list_head ent_dev))
        n.res.irrecoverable_blocks_bitmap)

/-- The condition under which the loop of `repair_corrupted_blocks` calls `repair_block`
on an entry (lines 516-518). -/
def repair_corrupted_blocks_cond (ent_dev : entanglement_device)
    (irrecoverable_blocks_bitmap : Nat → Bool) (block : entangled_block) : Bool :=
  test_bit block.block_sector ent_dev.corrupted_blocks &&
    !test_bit block.block_sector irrecoverable_blocks_bitmap &&
    block.block_sector % 2 == 0

/-- The result of `repair_corrupted_blocks`: the returned `err`, the state, and, for the
record, the positions of the entries on which `repair_block` was called, in call order. -/
structure repair_run where
  err : Int
  res : repair_result
  repaired_positions : List Nat

/-- The loop `list_for_each_entry(block, &ent_dev->entanglement, list_node)` of
`repair_corrupted_blocks` over the positions that remain. -/
def repair_corrupted_blocks_loop (fuel : Nat) :
    List Nat → repair_result → List Nat → Option (repair_result × List Nat)
  | [], st, called => some (st, called)
  | block :: rest, st, called =>
    if repair_corrupted_blocks_cond st.ent_dev st.irrecoverable_blocks_bitmap
        (list_entry st.ent_dev st.k block) then
      match repair_block fuel st.ent_dev st.k block st.irrecoverable_blocks_bitmap with
      | none => none
      | some st1 => repair_corrupted_blocks_loop fuel rest st1 (called ++ [block])
    else repair_corrupted_blocks_loop fuel rest st called

/-- The function `repair_corrupted_blocks` of `target.c`.  The bitmap comes from
`bitmap_alloc` and is not cleared; the returned `err` is a local that is never set.
The bitmap of the result is the one that is freed at the end. -/
def repair_corrupted_blocks (fuel : Nat) (ent_dev : entanglement_device) (k : kernel) :
    Option repair_run :=
  -- irrecoverable_blocks_bitmap = bitmap_alloc(ent_dev->dev_size, GFP_KERNEL)
  if k.outcome ≠ 0 then some ⟨-ENOMEM, ⟨ent_dev, k.tick, k.stale_bits k.calls⟩, []⟩
  else
    match repair_corrupted_blocks_loop fuel (List.range ent_dev.entanglement.length)
        ⟨ent_dev, k.tick, k.stale_bits k.calls⟩ [] with
    | none => none
    | some r => some ⟨r.1.k.stack_int, r.1, r.2⟩

/-! ## Metadata journal: `load_entanglement_and_checksums`, `store_entanglement_and_checksums` -/

/-- The macro `NUMBER_OF_SECTORS_IN_BLOCK`: `4096 / sizeof(sector_t)`. -/
def NUMBER_OF_SECTORS_IN_BLOCK : Nat := 4096 / SIZEOF_SECTOR_T

/-- The value of `page_ptr[i]` for a `u8 *page_ptr`: one byte of the mapped page. -/
def u8_at (page_ptr : List Nat) (i : Nat) : Nat := page_ptr.getD i 0 % 256

/-- How a loop of `load_entanglement_and_checksums` was left: its condition became
false (`next`), `goto end_loop`, or `goto out` with the value of `err`. -/
inductive load_exit where
  | next
  | end_loop
  | out (err : Int)
deriving DecidableEq, Repr

/-- The locals of `load_entanglement_and_checksums` together with the device and the
kernel. -/
structure load_state where
  ent_dev : entanglement_device
  k : kernel
  sector_page : List Nat
  checksum_page : List Nat
  sector : Nat
  checksum_sector : Nat
  last_entangled_block_sector : Nat

/-- The inner loop of `load_entanglement_and_checksums` (lines 116-149) for the journal
block number `i`, from slot `j` on, with `remaining` slots to go.  The end test compares
the `u8` found at `checksum_page_ptr[j * sizeof(uint)]` with `DEFAULT_SECTOR_VALUE`; the
address and the checksum of the new link are the `u8` values `sector_page_ptr[j *
sizeof(sector_t)]` and `checksum_page_ptr[...]`. -/
def load_slots (i : Nat) : Nat → Nat → load_state → load_exit × load_state
  | 0, _, st => (load_exit.next, st)
  | remaining + 1, j, st =>
    if u8_at st.checksum_page (j * SIZEOF_UINT) = DEFAULT_SECTOR_VALUE then
      (load_exit.end_loop, st)
    -- new_block = kmalloc(sizeof(struct entangled_block), GFP_KERNEL)
    else if st.k.outcome ≠ 0 then (load_exit.out (-ENOMEM), { st with k := st.k.tick })
    else
      let entangled_block_checksum :=
        if i % 2 = 0 then u8_at st.checksum_page (j * SIZEOF_UINT)
        else u8_at st.checksum_page ((j + 512) * SIZEOF_UINT)
      let entangled_block_sector := u8_at st.sector_page (j * SIZEOF_SECTOR_T)
      load_slots i remaining (j + 1)
        { st with
          k := st.k.tick
          last_entangled_block_sector := entangled_block_sector
          ent_dev := { st.ent_dev with
            entanglement := st.ent_dev.entanglement ++
              [⟨entangled_block_sector, entangled_block_checksum⟩] } }

/-- The body of the outer loop of `load_entanglement_and_checksums` for the journal
block number `i` (lines 97-149): the address block is read, for every second block a
checksum block is read, then the slots are scanned. -/
def load_block (i : Nat) (st : load_state) : load_exit × load_state :=
  let rs := ent_dev_rwSector st.k st.sector_page st.sector rw_dir.READ
  if rs.1 ≠ 0 then (load_exit.out rs.1, { st with k := rs.2.2 })
  else
    let st1 := { st with sector_page := rs.2.1, k := rs.2.2 }
    if i % 2 = 0 then
      let rc := ent_dev_rwSector st1.k st1.checksum_page st1.checksum_sector rw_dir.READ
      if rc.1 ≠ 0 then (load_exit.out rc.1, { st1 with k := rc.2.2 })
      else
        load_slots i NUMBER_OF_SECTORS_IN_BLOCK 0
          { st1 with checksum_page := rc.2.1, k := rc.2.2,
                     checksum_sector := st1.checksum_sector + 1 }
    else load_slots i NUMBER_OF_SECTORS_IN_BLOCK 0 st1

/-- The outer loop of `load_entanglement_and_checksums` (lines 96-152), from the journal
block number `i` on, with `remaining` blocks to go. -/
def load_blocks : Nat → Nat → load_state → load_exit × load_state
  | 0, _, st => (load_exit.next, st)
  | remaining + 1, i, st =>
    match load_block i st with
    | (load_exit.next, st1) => load_blocks remaining (i + 1) { st1 with sector := st1.sector + 1 }
    | (load_exit.end_loop, st1) => (load_exit.end_loop, st1)
    | (load_exit.out err, st1) => (load_exit.out err, st1)

/-- The function `load_entanglement_and_checksums` of `target.c`.  Returns `err`, the
device and the kernel.  The local `last_entangled_block_sector` is not initialised; as
long as no slot was read it holds the stale value `k.stack_int.toNat`. -/
def load_entanglement_and_checksums (ent_dev : entanglement_device) (k : kernel) :
    Int × entanglement_device × kernel :=
  -- sector_page = mempool_alloc(page_pool, GFP_NOIO)
  if k.outcome ≠ 0 then (-ENOMEM, ent_dev, k.tick)
  else
    let k1 := k.tick
    -- checksum_page = mempool_alloc(page_pool, GFP_NOIO)
    if k1.outcome ≠ 0 then (-ENOMEM, ent_dev, k1.tick)
    else
      let k2 := k1.tick
      -- mutex_lock_interruptible(&ent_dev->entanglement_lock)
      if k2.outcome ≠ 0 then (-EINTR, ent_dev, k2.tick)
      else
        let st0 : load_state :=
          { ent_dev := ent_dev, k := k2.tick, sector_page := k.fresh_page,
            checksum_page := k1.fresh_page, sector := ent_dev.metadata_start_sector,
            checksum_sector := ent_dev.metadata_sector_size,
            last_entangled_block_sector := k.stack_int.toNat }
        let l := load_blocks ent_dev.metadata_sector_size 0 st0
        match l.1 with
        | load_exit.out err => (err, l.2.ent_dev, l.2.k)
        | _ =>
          -- end_loop:
          let dev1 := { l.2.ent_dev with
            block_sector_buffer :=
              memcpy l.2.ent_dev.block_sector_buffer 0 l.2.sector_page ENT_BLOCK_SIZE
            block_checksum_buffer :=
              memcpy l.2.ent_dev.block_checksum_buffer 0 l.2.checksum_page ENT_BLOCK_SIZE
            next_sector := l.2.sector
            next_checksum := l.2.checksum_sector }
          let rl := ent_dev_rwSector l.2.k l.2.sector_page l.2.last_entangled_block_sector
            rw_dir.READ
          if rl.1 ≠ 0 then (rl.1, dev1, rl.2.2)
          else
            -- memcpy(ent_dev->last_entangled_block, sector_page_ptr, ENT_BLOCK_SIZE)
            -- on the ENT_BLOCK_SIZE bytes of the cache
            (0, { dev1 with last_entangled_block := read_bytes rl.2.1 ENT_BLOCK_SIZE }, rl.2.2)

/-- The function `store_entanglement_and_checksums` of `target.c`.  Both `memcpy` calls
copy `sizeof(ent_dev->block_sector_buffer)` bytes, the size of a `char *`; the rest of
each page is the stale content of the pool page.  The loop at the end frees every link.
Returns `err`, the device and the kernel. -/
def store_entanglement_and_checksums (ent_dev : entanglement_device) (k : kernel) :
    Int × entanglement_device × kernel :=
  -- sector_page = mempool_alloc(page_pool, GFP_NOIO)
  if k.outcome ≠ 0 then (-ENOMEM, ent_dev, k.tick)
  else
    let k1 := k.tick
    -- checksum_page = mempool_alloc(page_pool, GFP_NOIO)
    if k1.outcome ≠ 0 then (-ENOMEM, ent_dev, k1.tick)
    else
      let k2 := k1.tick
      let sector_page := memcpy k.fresh_page 0 ent_dev.block_sector_buffer SIZEOF_POINTER
      let ws := ent_dev_rwSector k2 sector_page ent_dev.next_sector rw_dir.WRITE
      if ws.1 ≠ 0 then (ws.1, ent_dev, ws.2.2)
      else
        let checksum_page :=
          memcpy k1.fresh_page 0 ent_dev.block_checksum_buffer SIZEOF_POINTER
        let wc := ent_dev_rwSector ws.2.2 checksum_page ent_dev.next_checksum rw_dir.WRITE
        if wc.1 ≠ 0 then (wc.1, ent_dev, wc.2.2)
        -- mutex_lock_interruptible(&ent_dev->entanglement_lock)
        else if wc.2.2.outcome ≠ 0 then (-EINTR, ent_dev, wc.2.2.tick)
        else (0, { ent_dev with entanglement := [] }, wc.2.2.tick)

/-! ## Corruption scanner: `check_corruption` -/

/-- The loop of `check_corruption` (lines 552-568) from `sector` on; `page` is the content
of the mapped page.  The loop variable is incremented in the body and in the loop
header.  The loop runs at most `dev_size` times, which is the fuel it is started with:
when the fuel is used up the loop condition is false.  Returns `err` (`0` when the loop
ran to its end), the device and the kernel. -/
def check_corruption_scan : Nat → entanglement_device → kernel → List Nat → Nat →
    Int × entanglement_device × kernel
  | 0, ent_dev, k, _, _ => (0, ent_dev, k)
  | fuel + 1, ent_dev, k, page, sector =>
    if sector < ent_dev.dev_size then
      if ent_dev.sector_checksum_map sector ≠ 0 then
        let rd := ent_dev_rwSector k page sector rw_dir.READ
        if rd.1 ≠ 0 then (rd.1, ent_dev, rd.2.2)
        else
          let checksum := crc32b rd.2.1
          if checksum ≠ ent_dev.sector_checksum_map sector then
            check_corruption_scan fuel
              { ent_dev with corrupted_blocks := bitmap_set ent_dev.corrupted_blocks sector }
              rd.2.2 rd.2.1 (sector + 1 + 1)
          else check_corruption_scan fuel ent_dev rd.2.2 rd.2.1 (sector + 1 + 1)
      else check_corruption_scan fuel ent_dev k page (sector + 1 + 1)
    else (0, ent_dev, k)

/-- The function `check_corruption` of `target.c` up to the call of
`repair_corrupted_blocks` (lines 538-568): the page, the lock and the scan, which starts
at the sector `metadata_size`.  Returns `err`, the device and the kernel. -/
def check_corruption_before_repair (ent_dev : entanglement_device) (k : kernel) :
    Int × entanglement_device × kernel :=
  -- page = mempool_alloc(page_pool, GFP_NOIO)
  if k.outcome ≠ 0 then (-ENOMEM, ent_dev, k.tick)
  else
    let k1 := k.tick
    -- mutex_lock_interruptible(&ent_dev->corrupted_blocks_lock)
    if k1.outcome ≠ 0 then (-EINTR, ent_dev, k1.tick)
    else
      check_corruption_scan ent_dev.dev_size ent_dev k1.tick k.fresh_page
        ent_dev.metadata_size

/-- The function `check_corruption` of `target.c`; `none` means that the fuel of a
recursive repair ran out.  Returns `err`, the device and the kernel. -/
def check_corruption (fuel : Nat) (ent_dev : entanglement_device) (k : kernel) :
    Option (Int × entanglement_device × kernel) :=
  let s := check_corruption_before_repair ent_dev k
  if s.1 ≠ 0 then some s
  else
    match repair_corrupted_blocks fuel s.2.1 s.2.2 with
    | none => none
    | some r => some (r.err, r.res.ent_dev, r.res.k)

/-! ## Constructor: `entanglement_tgt_ctr` -/

/-- The value of an `unsigned int` expression: reduction modulo 2^32. -/
def uint (n : Nat) : Nat := n % 2 ^ 32

/-- The structure that `kzalloc(sizeof(struct entanglement_device), GFP_KERNEL)` hands
out: every field zero, no buffer, an empty bitmap pointer. -/
def zeroed_device : entanglement_device where
  dev_size := 0
  metadata_size := 0
  metadata_sector_size := 0
  metadata_checksum_size := 0
  metadata_start_sector := 0
  write_sector_scale := 0
  entanglement := []
  corrupted_blocks := fun _ => false
  sector_checksum_map := fun _ => 0
  last_entangled_block := []
  next_sector := 0
  next_checksum := 0
  block_sector_buffer := []
  block_checksum_buffer := []
  sector_buffer_size := 0
  checksum_buffer_size := 0

/-- Lines 605-618 of `entanglement_tgt_ctr`: the layout computed from `dev_size`, the
`unsigned int` read from the second argument, in `unsigned int` arithmetic, and the empty
chain.  The field `dev_size` is an `int`; it is kept here as the unsigned value, which is
the same number below 2^31. -/
def entanglement_tgt_ctr_layout (dev_size : Nat) : entanglement_device :=
  let metadata_size := uint (uint dev_size * 3) >>> 10
  { zeroed_device with
    dev_size := uint dev_size
    metadata_size := metadata_size
    metadata_sector_size := uint (metadata_size * 2) / 3
    metadata_checksum_size := uint (metadata_size * 1) / 3
    metadata_start_sector := uint (uint dev_size + 2 ^ 32 - metadata_size) / 2 / 8 * 8
    write_sector_scale :=
      uint (uint (uint dev_size + 2 ^ 32 - metadata_size) / 2 / 8 * 8 + metadata_size)
    entanglement := [] }

/-- The function `entanglement_tgt_ctr` of `target.c` for `argc` arguments, the device
path, and the numbers `dev_size` and `redundancy_flag` read from the second
and third argument.  The buffers obtained from `kmalloc` and the bitmap obtained from
`bitmap_alloc` hold stale content.  `none` means that the fuel of a recursive repair ran
out.  Returns `err`, the device (`ti->private` when `err` is 0) and the kernel. -/
def entanglement_tgt_ctr (fuel : Nat) (k : kernel) (argc : Nat) (_dev_path : String)
    (dev_size : Nat) (redundancy_flag : Int) :
    Option (Int × entanglement_device × kernel) :=
  if argc ≠ 3 then some (-EINVAL, zeroed_device, k)
  -- ent_dev = kzalloc(sizeof(struct entanglement_device), GFP_KERNEL)
  else if k.outcome ≠ 0 then some (-ENOMEM, zeroed_device, k.tick)
  else
    let k1 := k.tick
    let dev0 := entanglement_tgt_ctr_layout dev_size
    -- dm_get_device(ti, dev_path, ...)
    if k1.outcome ≠ 0 then some (k1.outcome, dev0, k1.tick)
    else
      let k2 := k1.tick
      -- ent_dev->corrupted_blocks = bitmap_alloc(dev_size, GFP_KERNEL)
      if k2.outcome ≠ 0 then some (-ENOMEM, dev0, k2.tick)
      else
        let k3 := k2.tick
        -- ent_dev->sector_checksum_map = kzalloc(dev_size * sizeof(uint), GFP_KERNEL)
        if k3.outcome ≠ 0 then some (-ENOMEM, dev0, k3.tick)
        else
          let k4 := k3.tick
          -- ent_dev->last_entangled_block = kzalloc(ENT_BLOCK_SIZE, GFP_KERNEL)
          if k4.outcome ≠ 0 then some (-ENOMEM, dev0, k4.tick)
          else
            let k5 := k4.tick
            -- ent_dev->block_sector_buffer = kmalloc(ENT_BLOCK_SIZE, GFP_KERNEL)
            if k5.outcome ≠ 0 then some (-ENOMEM, dev0, k5.tick)
            else
              let k6 := k5.tick
              -- ent_dev->block_checksum_buffer = kmalloc(ENT_BLOCK_SIZE, GFP_KERNEL)
              if k6.outcome ≠ 0 then some (-ENOMEM, dev0, k6.tick)
              else
                let k7 := k6.tick
                let dev1 := { dev0 with
                  corrupted_blocks := k2.stale_bits k2.calls
                  sector_checksum_map := fun _ => 0
                  last_entangled_block := List.replicate ENT_BLOCK_SIZE 0
                  block_sector_buffer := k5.fresh_page
                  sector_buffer_size := 0
                  block_checksum_buffer := k6.fresh_page
                  checksum_buffer_size := 0 }
                if redundancy_flag ≠ 0 then
                  let l := load_entanglement_and_checksums dev1 k7
                  if l.1 ≠ 0 then some l
                  else check_corruption fuel l.2.1 l.2.2
                else some (0, dev1, k7)

/-- The device layout of a device: `dev_size`, `metadata_size`, `metadata_sector_size`,
`metadata_checksum_size`, `metadata_start_sector` and `write_sector_scale`. -/
def device_layout (ent_dev : entanglement_device) : Nat × Nat × Nat × Nat × Nat × Nat :=
  (ent_dev.dev_size, ent_dev.metadata_size, ent_dev.metadata_sector_size,
    ent_dev.metadata_checksum_size, ent_dev.metadata_start_sector, ent_dev.write_sector_scale)

/-! ## Read path: `process_read_bio` -/

/-- The function `process_read_bio` of `target.c` for the read request `b`.  Returns
`err`, the sector `bi_iter.bi_sector` of the clone that is handed to `submit_bio` (`none`
when no request is submitted) and the kernel. -/
def process_read_bio (_ent_dev : entanglement_device) (k : kernel) (b : bio) :
    Int × Option Nat × kernel :=
  -- cloned_bio = bio_alloc_clone(ent_dev->dev->bdev, bio, GFP_NOIO, &bioset)
  if k.outcome ≠ 0 then (-ENOMEM, none, k.tick)
  else
    let cloned_bi_sector := if b.bi_sector % 2 ≠ 0 then b.bi_sector - 1 else b.bi_sector
    (0, some cloned_bi_sector, k.tick)

/-! ## Command line tool: `user_app/main.c` -/

/-- The macro `ENT_BLK_SIZE` of `main.c`. -/
def ENT_BLK_SIZE : Nat := 4096

/-- Line 344 of `main`: `metadata_size = (disk_size * 3U) >> 10`, computed on `int64_t`
and stored in the `unsigned int` global.  `disk_size` is the number of 4096-byte blocks
that `get_disk_size` returned, taken non-negative and far below 2^61. -/
def main_metadata_size (disk_size : Nat) : Nat := uint ((disk_size * 3) >>> 10)

/-- Line 348 of `main`: `virtual_device_size = (((disk_size-metadata_size)*8) / 2) / 8 * 8`,
computed on `int64_t` and stored in an `unsigned int`. -/
def main_virtual_device_size (disk_size : Nat) : Nat :=
  uint ((disk_size - main_metadata_size disk_size) * 8 / 2 / 8 * 8)

/-- The byte offset at which `ent_disk_writeSector(bdev_path, sector, buf)` writes its
4096 bytes: `lseek(fd, sector * ENT_BLK_SIZE, SEEK_CUR)` on the file just opened. -/
def ent_disk_writeSector_offset (sector : Nat) : Nat := (sector * ENT_BLK_SIZE) % 2 ^ 64

/-- The command `init` of `main` (lines 354-357): the index of the 4096-byte block that
receives the buffer of 4096 bytes `0xFF`, as it is handed to `ent_disk_writeSector`. -/
def main_init_sector (disk_size : Nat) : Nat := main_virtual_device_size disk_size

/-! ## Properties of states -/

/-- The bounds on the pending journal buffers: `sector_buffer_size` is a multiple of 8
that leaves room for one more address, `checksum_buffer_size` is a multiple of 4 that
leaves room for one more checksum, and both buffers have `ENT_BLOCK_SIZE` bytes. -/
def buffer_sizes_in_range (ent_dev : entanglement_device) : Prop :=
  ent_dev.sector_buffer_size % SIZEOF_SECTOR_T = 0 ∧
  ent_dev.sector_buffer_size + SIZEOF_SECTOR_T ≤ ENT_BLOCK_SIZE ∧
  ent_dev.checksum_buffer_size % SIZEOF_UINT = 0 ∧
  ent_dev.checksum_buffer_size + SIZEOF_UINT ≤ ENT_BLOCK_SIZE ∧
  ent_dev.block_sector_buffer.length = ENT_BLOCK_SIZE ∧
  ent_dev.block_checksum_buffer.length = ENT_BLOCK_SIZE

instance (ent_dev : entanglement_device) : Decidable (buffer_sizes_in_range ent_dev) := by
  unfold buffer_sizes_in_range
  infer_instance

/-- The byte-wise, block-sized XOR of the payloads `d_1, ..., d_n`, taken from the left
and started from the all-zero block. -/
def xor_of_payloads (payloads : List (List Nat)) : List Nat :=
  payloads.foldl (fun acc d => xor_bytes d acc ENT_BLOCK_SIZE) (List.replicate ENT_BLOCK_SIZE 0)

/-- A bound on the number of recursive calls that `repair_block_rec` makes in the
direction `LEFT` from the node at position `pos` of a chain of `2 * m` links: from a
parity link (odd position) the walk visits the parity links on its left; from a data
link (even position) it visits the data links on its left, reads the list head as a
link and goes on through the parity links from the end of the chain. -/
def left_calls_bound (m pos : Nat) : Nat :=
  if pos % 2 = 1 then pos / 2 else pos / 2 + m

/-- A bound on the number of recursive calls that `repair_block_rec` makes in the
direction `RIGHT` from the node at position `pos` of a chain of `2 * m` links (the list
head is the position `2 * m`). -/
def right_calls_bound (m pos : Nat) : Nat :=
  if pos % 2 = 1 then (2 * m - 1 - pos) / 2 else (2 * m - pos) / 2 + m

/-! ## Invalid memory accesses: `flush_metadata` and `repair_block_rec` with their faults -/

/-- How a call of `flush_metadata` ends: it returns `err`, or it is stopped by a fault
at a memory access; then nothing is returned, and the device and the kernel are those at
the access. -/
inductive flush_end where
  | returned (err : Int) (ent_dev : entanglement_device) (k : kernel)
  | fault (ent_dev : entanglement_device) (k : kernel)

/-- The function `flush_metadata` of `target.c` (lines 810-862) with the fault of its
reset loop.  The page is obtained, the pending buffer is copied to it and written to the
device; a failure of one of these returns.  After a successful write the reset loop
starts with `memcpy(buffer, DEFAULT_SECTOR_VALUE, 8)` (line 838) or
`memcpy(buffer, DEFAULT_CHECKSUM_VALUE, 4)` (line 847): the source operand is the
constant itself, so the bytes are read at the address `0xFFFFFFFFFFFFFFFF`, in the last
page of the address space, or `0xFFFFFFFF`, in the user half.  The kernel has neither
mapped, the read faults, and the call ends there: no byte of the buffer, no size and no
pointer has been changed.  (`flush_metadata` above goes on instead with the bytes that
`kernel.memory` gives for that address.) -/
def flush_metadata_end (ent_dev : entanglement_device) (k : kernel) (type : BufferType) :
    flush_end :=
  let buffer := if type = BufferType.SECTOR then ent_dev.block_sector_buffer
                else ent_dev.block_checksum_buffer
  let sector := if type = BufferType.SECTOR then ent_dev.next_sector else ent_dev.next_checksum
  -- page = mempool_alloc(page_pool, GFP_NOIO)
  if k.outcome ≠ 0 then flush_end.returned (-ENOMEM) ent_dev k.tick
  else
    let k1 := k.tick
    -- memcpy(page_ptr, buffer, ENT_BLOCK_SIZE)
    let page := memcpy k.fresh_page 0 buffer ENT_BLOCK_SIZE
    let io := ent_dev_rwSector k1 page sector rw_dir.WRITE
    if io.1 ≠ 0 then flush_end.returned io.1 ent_dev io.2.2
    -- i = 0: memcpy(buffer, DEFAULT_SECTOR_VALUE, ...) or memcpy(buffer, DEFAULT_CHECKSUM_VALUE, ...)
    else flush_end.fault ent_dev io.2.2

/-- The macro `list_entry(node, struct entangled_block, list_node)` for the node at
position `pos` when the node is a link of the chain.  The list head
`&ent_dev->entanglement` is embedded in `struct entanglement_device`, not in a
`struct entangled_block`: there the macro yields a pointer into the device structure and
no entry (`none`). -/
def list_entry_checked (ent_dev : entanglement_device) (pos : Nat) : Option entangled_block :=
  ent_dev.entanglement[pos]?

/-- How a call of `repair_block_rec` ends: it returns its state (with the device, the
kernel and the bitmap afterwards), or it reads the field `block_sector` through a pointer
that `list_entry` made from the list head (`head_read`), or the fuel of the model ran
out. -/
inductive rec_end where
  | returned (r : RepairState × repair_result)
  | head_read
  | no_fuel

/-- The function `repair_block_rec` of `target.c` (lines 247-378) for the node at position
`block`, with the reads of `block_sector` checked: the walk is the one of
`repair_block_rec` above, and wherever a `block_sector` is read through `list_entry` of
the list head the call ends as `head_read`.  In the source that read gives eight bytes of
`ent_dev->entanglement_lock`, which `test_bit` then takes as an index into the bitmap of
`dev_size` bits.  A call for the list head itself is counted as such a read at once. -/
def repair_block_rec_end : Nat → entanglement_device → kernel → Nat → (Nat → Bool) →
    RepairDirection → rec_end
  | 0, _, _, _, _, _ => rec_end.no_fuel
  | fuel + 1, ent_dev, k, block, irrecoverable_blocks_bitmap, direction =>
    match list_entry_checked ent_dev block with
    | none => rec_end.head_read
    | some this_block =>
      -- enum RepairState result_state = IRRECOVERABLE;
      let result_state := RepairState.IRRECOVERABLE
      match direction with
      | RepairDirection.LEFT =>
        -- test_bit(next_data_block->block_sector, ent_dev->corrupted_blocks)
        match list_entry_checked ent_dev (list_prev ent_dev block) with
        | none => rec_end.head_read
        | some next_data_block =>
          if test_bit next_data_block.block_sector ent_dev.corrupted_blocks then
            rec_end.returned (RepairState.IRRECOVERABLE,
              ⟨ent_dev, k, bitmap_set irrecoverable_blocks_bitmap this_block.block_sector⟩)
          else if list_prev ent_dev (list_prev ent_dev block) = list_head ent_dev then
            rec_end.returned (RepairState.IRRECOVERABLE,
              ⟨ent_dev, k, bitmap_set irrecoverable_blocks_bitmap this_block.block_sector⟩)
          else
            match list_entry_checked ent_dev (list_prev ent_dev (list_prev ent_dev block)) with
            | none => rec_end.head_read
            | some next_parity_block =>
              let inner : rec_end :=
                if test_bit next_parity_block.block_sector ent_dev.corrupted_blocks then
                  repair_block_rec_end fuel ent_dev k (list_prev ent_dev (list_prev ent_dev block))
                    irrecoverable_blocks_bitmap direction
                else rec_end.returned (result_state, ⟨ent_dev, k, irrecoverable_blocks_bitmap⟩)
              match inner with
              | rec_end.returned r =>
                if r.1 = RepairState.IRRECOVERABLE then
                  rec_end.returned (RepairState.IRRECOVERABLE,
                    ⟨r.2.ent_dev, r.2.k,
                      bitmap_set r.2.irrecoverable_blocks_bitmap this_block.block_sector⟩)
                else
                  rec_end.returned (repair_block_rec_write r.2.ent_dev r.2.k this_block
                    next_data_block next_parity_block r.2.irrecoverable_blocks_bitmap r.1)
              | rec_end.head_read => rec_end.head_read
              | rec_end.no_fuel => rec_end.no_fuel
      | RepairDirection.RIGHT =>
        if list_next ent_dev block = list_head ent_dev then
          rec_end.returned (RepairState.IRRECOVERABLE,
            ⟨ent_dev, k, bitmap_set irrecoverable_blocks_bitmap this_block.block_sector⟩)
        else
          -- test_bit(next_data_block->block_sector, ent_dev->corrupted_blocks)
          match list_entry_checked ent_dev (list_next ent_dev block) with
          | none => rec_end.head_read
          | some next_data_block =>
            if test_bit next_data_block.block_sector ent_dev.corrupted_blocks then
              rec_end.returned (RepairState.IRRECOVERABLE,
                ⟨ent_dev, k, bitmap_set irrecoverable_blocks_bitmap this_block.block_sector⟩)
            else
              -- test_bit(next_parity_block->block_sector, ent_dev->corrupted_blocks)
              match list_entry_checked ent_dev (list_next ent_dev (list_next ent_dev block)) with
              | none => rec_end.head_read
              | some next_parity_block =>
                let inner : rec_end :=
                  if test_bit next_parity_block.block_sector ent_dev.corrupted_blocks then
                    repair_block_rec_end fuel ent_dev k
                      (list_next ent_dev (list_next ent_dev block))
                      irrecoverable_blocks_bitmap direction
                  else rec_end.returned (result_state, ⟨ent_dev, k, irrecoverable_blocks_bitmap⟩)
                match inner with
                | rec_end.returned r =>
                  if r.1 = RepairState.IRRECOVERABLE then
                    rec_end.returned (RepairState.IRRECOVERABLE,
                      ⟨r.2.ent_dev, r.2.k,
                        bitmap_set r.2.irrecoverable_blocks_bitmap this_block.block_sector⟩)
                  else
                    rec_end.returned (repair_block_rec_write r.2.ent_dev r.2.k this_block
                      next_data_block next_parity_block r.2.irrecoverable_blocks_bitmap r.1)
                | rec_end.head_read => rec_end.head_read
                | rec_end.no_fuel => rec_end.no_fuel

/-- The end of a call of `repair_block_rec` that read no list head, from the result of
the unchecked function: its result, or `no_fuel` when the fuel ran out. -/
def rec_end_of_result : Option (RepairState × repair_result) → rec_end
  | some r => rec_end.returned r
  | none => rec_end.no_fuel

/-! ## Concrete states used to instantiate the theorems -/

/-- A block whose 4096 bytes all have the value `v`. -/
def fill_block (v : Nat) : List Nat := List.replicate ENT_BLOCK_SIZE v

/-- A kernel in which every checked service succeeds, every stale page, stale bitmap and
stray memory byte is zero, and the underlying device holds zeros. -/
def quiet_kernel : kernel where
  fault := fun _ => 0
  calls := 0
  stale := fun _ _ => 0
  stale_bits := fun _ _ => false
  memory := fun _ => 0
  head_entry := ⟨0, 0⟩
  stack_int := 0
  disk := fun _ => 0
  wlog := []

/-- The device that `entanglement_tgt_ctr` builds for `dev_size = 1024` without the
redundancy flag: the layout of lines 605-615, an empty chain, a zeroed chain-tail cache
and checksum map (`kzalloc`), pointers and sizes at zero. -/
def device_1024 : entanglement_device where
  dev_size := 1024
  metadata_size := 3
  metadata_sector_size := 2
  metadata_checksum_size := 1
  metadata_start_sector := 504
  write_sector_scale := 507
  entanglement := []
  corrupted_blocks := fun _ => false
  sector_checksum_map := fun _ => 0
  last_entangled_block := fill_block 0
  next_sector := 0
  next_checksum := 0
  block_sector_buffer := fill_block 0
  block_checksum_buffer := fill_block 0
  sector_buffer_size := 0
  checksum_buffer_size := 0

/-- A block whose first byte is `v` and whose other 4095 bytes are zero. -/
def lead_block (v : Nat) : List Nat := v :: List.replicate (ENT_BLOCK_SIZE - 1) 0

/-- The device built for 1024 blocks after the writes of `lead_block 0x11` at sector 0
and of `lead_block 0x22` at sector 8: the parity of the first write is a copy of its
data, the parity of the second is `lead_block 0x33`; each link records the `crc32b` of
its payload.  The data link of the second write (sector 8) is marked corrupted. -/
def device_two_writes : entanglement_device :=
  { device_1024 with
    entanglement := [⟨0, 3098726271⟩, ⟨507, 3098726271⟩, ⟨8, 123907689⟩, ⟨515, 1842515611⟩]
    corrupted_blocks := fun s => s == 8
    last_entangled_block := lead_block 0x33
    sector_buffer_size := 32
    checksum_buffer_size := 16 }

/-- A kernel whose underlying device holds, at the places `ent_dev_rwSector` reads for
the sectors 0, 507 and 515, the payloads written for the links of `device_two_writes`,
and at the place it reads for sector 8 a damaged block; every service succeeds. -/
def kernel_two_writes : kernel :=
  { quiet_kernel with
    disk := fun a =>
      if a = 4096 * 0 then 0x11
      else if a = 4096 * 507 then 0x11
      else if a = 4096 * 8 then 0x99
      else if a = 4096 * 515 then 0x33
      else 0 }

/-- The device built for 1024 blocks after three writes, at the sectors 0, 8 and 16:
six links, data links at the sectors 0, 8, 16 and parity links at 507, 515, 523.  The
data links of the second and third write and the parity link between them (sectors 8,
515 and 16) are marked corrupted. -/
def device_three_writes : entanglement_device :=
  { device_1024 with
    entanglement := [⟨0, 3098726271⟩, ⟨507, 3098726271⟩, ⟨8, 123907689⟩, ⟨515, 1842515611⟩,
      ⟨16, 3098726271⟩, ⟨523, 123907689⟩]
    corrupted_blocks := fun s => s == 8 || s == 515 || s == 16
    last_entangled_block := lead_block 0x22
    sector_buffer_size := 48
    checksum_buffer_size := 24 }

/-- The device of `device_three_writes` with only the parity link of the first write
(sector 507) marked corrupted. -/
def device_parity_corrupted : entanglement_device :=
  { device_three_writes with corrupted_blocks := fun s => s == 507 }

/-- The device that `entanglement_tgt_ctr` builds for `dev_size = 2048` (metadata_size 6,
metadata_start_sector 1016, write_sector_scale 1022) after one write at sector 0: the
data link at sector 0 and the parity link at sector 1022.  The parity link is marked
corrupted. -/
def device_2048_one_write : entanglement_device :=
  { device_1024 with
    dev_size := 2048
    metadata_size := 6
    metadata_sector_size := 4
    metadata_checksum_size := 2
    metadata_start_sector := 1016
    write_sector_scale := 1022
    entanglement := [⟨0, 3098726271⟩, ⟨1022, 3098726271⟩]
    corrupted_blocks := fun s => s == 1022
    last_entangled_block := lead_block 0x11
    sector_buffer_size := 16
    checksum_buffer_size := 8 }

/-- The device of `device_two_writes` as the scanner finds it: no bit set in the
corrupted bitmap, and the checksum map holding, for the sector of each of the four
links, the checksum recorded in the link. -/
def device_before_scan : entanglement_device :=
  { device_two_writes with
    corrupted_blocks := fun _ => false
    sector_checksum_map := fun s =>
      if s = 0 then 3098726271
      else if s = 507 then 3098726271
      else if s = 8 then 123907689
      else if s = 515 then 1842515611
      else 0 }

/-- A kernel in which every checked service succeeds and every byte of the underlying
device is `0xFF`: every slot of the journal holds the sentinel. -/
def kernel_sentinel : kernel :=
  { quiet_kernel with disk := fun _ => 0xFF }

/-- The device built for 1024 blocks with 16 bytes pending in the address buffer and
4092 bytes pending in the checksum buffer, as after 1023 writes. -/
def device_checksum_buffer_full : entanglement_device :=
  { device_1024 with
    sector_buffer_size := 16
    checksum_buffer_size := 4092 }

/-- A kernel like `quiet_kernel` in which the checked service number 9 fails with the
error -5; in `process_write_bio` the services 0 to 7 are those before the appends, so
here the service 9 is the device write of the first `flush_metadata`. -/
def kernel_flush_write_fails : kernel :=
  { quiet_kernel with fault := fun n => if n = 9 then -5 else 0 }

/-- The device built for 1024 blocks as `flush_metadata(SECTOR)` finds it inside the
256th write: 4088 bytes pending in the address buffer, 2044 bytes pending in the checksum
buffer. -/
def device_sector_buffer_full : entanglement_device :=
  { device_1024 with
    sector_buffer_size := 4088
    checksum_buffer_size := 2044 }

/-- The device that `entanglement_tgt_ctr` builds for `dev_size = 8` without the
redundancy flag: `metadata_size`, `metadata_start_sector` and `write_sector_scale` are
all 0, so the parity address of a write is its data address. -/
def device_8 : entanglement_device :=
  { device_1024 with
    dev_size := 8
    metadata_size := 0
    metadata_sector_size := 0
    metadata_checksum_size := 0
    metadata_start_sector := 0
    write_sector_scale := 0 }

/-! ## Byte buffer lemmas -/

theorem read_bytes_length (src : List Nat) (n : Nat) : (read_bytes src n).length = n := by
  simp [read_bytes]

theorem read_bytes_of_length (src : List Nat) (n : Nat) (h : src.length = n) :
    read_bytes src n = src := by
  apply List.ext_getElem
  · simp [read_bytes, h]
  · intro i h1 h2
    simp [read_bytes, List.getD_eq_getElem?_getD, List.getElem?_eq_getElem h2]

theorem xor_bytes_length (a b : List Nat) (n : Nat) : (xor_bytes a b n).length = n := by
  simp [xor_bytes]

theorem xor_bytes_getD (a b : List Nat) (n i : Nat) (h : i < n) :
    (xor_bytes a b n).getD i 0 = a.getD i 0 ^^^ b.getD i 0 := by
  simp [xor_bytes, List.getD_eq_getElem?_getD, List.getElem?_map, List.getElem?_range h]

theorem xor_bytes_self (a : List Nat) (n : Nat) : xor_bytes a a n = List.replicate n 0 := by
  apply List.ext_getElem
  · simp [xor_bytes]
  · intro i h1 h2
    simp [xor_bytes]

theorem is_buffer_empty_ne_zero_iff (arr : List Nat) (size : Nat) :
    is_buffer_empty arr size ≠ 0 ↔ ∀ i, i < size → arr.getD i 0 = 0 := by
  unfold is_buffer_empty
  split
  · next h =>
    have h1 : ∀ i, i < size → arr.getD i 0 = 0 := by simpa [List.all_eq_true] using h
    exact ⟨fun _ => h1, fun _ => by decide⟩
  · next h =>
    have h1 : ¬ ∀ i, i < size → arr.getD i 0 = 0 := by simpa [List.all_eq_true] using h
    exact ⟨fun hc => absurd rfl hc, fun hc => absurd hc h1⟩

theorem parity_buffer_of_length (d t : List Nat) :
    (parity_buffer_of d t).length = ENT_BLOCK_SIZE := by
  unfold parity_buffer_of
  split <;> simp [read_bytes_length, xor_bytes_length]

theorem fill_block_length (v : Nat) : (fill_block v).length = ENT_BLOCK_SIZE := by
  unfold fill_block
  exact List.length_replicate _ _

theorem fill_block_getD (v i : Nat) (h : i < ENT_BLOCK_SIZE) : (fill_block v).getD i 0 = v := by
  unfold fill_block
  rw [List.getD_eq_getElem?_getD, List.getElem?_replicate, if_pos h]
  rfl

theorem read_bytes_getD (src : List Nat) (n i : Nat) (h : i < n) :
    (read_bytes src n).getD i 0 = src.getD i 0 := by
  simp [read_bytes, List.getD_eq_getElem?_getD, List.getElem?_map, List.getElem?_range h]

theorem fresh_page_getD (k : kernel) (i : Nat) (h : i < ENT_BLOCK_SIZE) :
    k.fresh_page.getD i 0 = k.stale k.calls i := by
  simp [kernel.fresh_page, List.getD_eq_getElem?_getD, List.getElem?_map,
    List.getElem?_range h]

theorem parity_page_of_getD (parity_page parity_buffer : List Nat) (i : Nat) :
    (parity_page_of parity_page parity_buffer).getD i 0 =
      if i < SIZEOF_POINTER then parity_buffer.getD i 0 else parity_page.getD i 0 := by
  unfold parity_page_of memcpy
  simp only [List.take_zero, List.nil_append, Nat.zero_add]
  split
  · next h =>
    rw [List.getD_eq_getElem?_getD, List.getElem?_append_left (by simpa [read_bytes] using h),
      ← List.getD_eq_getElem?_getD, read_bytes_getD _ _ _ h]
  · next h =>
    rw [List.getD_eq_getElem?_getD,
      List.getElem?_append_right (by simpa [read_bytes] using h), read_bytes_length,
      List.getElem?_drop, ← List.getD_eq_getElem?_getD]
    congr 1
    omega

/-! ## Write path lemmas -/

theorem flush_metadata_chain (ent_dev : entanglement_device) (k : kernel) (type : BufferType) :
    (flush_metadata ent_dev k type).2.1.entanglement = ent_dev.entanglement ∧
    (flush_metadata ent_dev k type).2.1.write_sector_scale = ent_dev.write_sector_scale := by
  unfold flush_metadata
  cases type <;> simp only [] <;> split_ifs <;> simp

theorem append_data_sector_chain (ent_dev : entanglement_device) (k : kernel) (v : Nat) :
    (append_data_sector ent_dev k v).2.1.entanglement = ent_dev.entanglement ∧
    (append_data_sector ent_dev k v).2.1.write_sector_scale = ent_dev.write_sector_scale := by
  unfold append_data_sector
  have h := flush_metadata_chain ent_dev k BufferType.SECTOR
  simp only []
  split_ifs <;> simp [h.1, h.2]

theorem append_parity_sector_chain (ent_dev : entanglement_device) (k : kernel) (v : Nat) :
    (append_parity_sector ent_dev k v).2.1.entanglement = ent_dev.entanglement ∧
    (append_parity_sector ent_dev k v).2.1.write_sector_scale = ent_dev.write_sector_scale := by
  unfold append_parity_sector
  have h := flush_metadata_chain ent_dev k BufferType.SECTOR
  simp only []
  split_ifs <;> simp [h.1, h.2]

theorem append_data_checksum_chain (ent_dev : entanglement_device) (k : kernel) (v : Nat) :
    (append_data_checksum ent_dev k v).2.1.entanglement = ent_dev.entanglement ∧
    (append_data_checksum ent_dev k v).2.1.write_sector_scale = ent_dev.write_sector_scale := by
  unfold append_data_checksum
  have h := flush_metadata_chain ent_dev k BufferType.CHECKSUM
  simp only []
  split_ifs <;> simp [h.1, h.2]

theorem append_parity_checksum_chain (ent_dev : entanglement_device) (k : kernel) (v : Nat) :
    (append_parity_checksum ent_dev k v).2.1.entanglement = ent_dev.entanglement ∧
    (append_parity_checksum ent_dev k v).2.1.write_sector_scale = ent_dev.write_sector_scale := by
  unfold append_parity_checksum
  have h := flush_metadata_chain ent_dev k BufferType.CHECKSUM
  simp only []
  split_ifs <;> simp [h.1, h.2]

theorem append_metadata_chain (ent_dev : entanglement_device) (k : kernel)
    (ds dc ps pc : Nat) :
    (append_metadata ent_dev k ds dc ps pc).2.1.entanglement = ent_dev.entanglement ∧
    (append_metadata ent_dev k ds dc ps pc).2.1.write_sector_scale =
      ent_dev.write_sector_scale := by
  unfold append_metadata
  simp only []
  have h1 := append_data_sector_chain ent_dev k ds
  generalize append_data_sector ent_dev k ds = a1 at h1 ⊢
  have h2 := append_data_checksum_chain a1.2.1 a1.2.2 dc
  generalize append_data_checksum a1.2.1 a1.2.2 dc = a2 at h2 ⊢
  have h3 := append_parity_sector_chain a2.2.1 a2.2.2 ps
  generalize append_parity_sector a2.2.1 a2.2.2 ps = a3 at h3 ⊢
  have h4 := append_parity_checksum_chain a3.2.1 a3.2.2 pc
  generalize append_parity_checksum a3.2.1 a3.2.2 pc = a4 at h4 ⊢
  split_ifs
  · exact h1
  · exact ⟨h2.1.trans h1.1, h2.2.trans h1.2⟩
  · exact ⟨h3.1.trans (h2.1.trans h1.1), h3.2.trans (h2.2.trans h1.2)⟩
  · exact ⟨h4.1.trans (h3.1.trans (h2.1.trans h1.1)), h4.2.trans (h3.2.trans (h2.2.trans h1.2))⟩

theorem process_write_bio_success (ent_dev : entanglement_device) (k : kernel) (b : bio)
    (h : (process_write_bio ent_dev k b).1 = 0) :
    (process_write_bio ent_dev k b).2.1.entanglement =
      ent_dev.entanglement ++
        [⟨b.bi_sector, crc32b b.data⟩,
         ⟨b.bi_sector + ent_dev.write_sector_scale,
           crc32b (parity_buffer_of b.data ent_dev.last_entangled_block)⟩] ∧
    (process_write_bio ent_dev k b).2.1.last_entangled_block =
      parity_buffer_of b.data ent_dev.last_entangled_block ∧
    (process_write_bio ent_dev k b).2.1.write_sector_scale = ent_dev.write_sector_scale ∧
    ∃ w, (process_write_bio ent_dev k b).2.2.wlog =
      w ++ [(b.bi_sector, b.data),
        (b.bi_sector + ent_dev.write_sector_scale,
          parity_page_of k.fresh_page (parity_buffer_of b.data ent_dev.last_entangled_block))] := by
  unfold process_write_bio at h ⊢
  simp only [] at h ⊢
  by_cases c1 : k.outcome ≠ 0
  · rw [if_pos c1] at h; exact absurd h (by simp [ENOMEM])
  rw [if_neg c1] at h ⊢
  by_cases c2 : k.tick.outcome ≠ 0
  · rw [if_pos c2] at h; exact absurd h (by simp [EINTR])
  rw [if_neg c2] at h ⊢
  by_cases c3 : k.tick.tick.outcome ≠ 0
  · rw [if_pos c3] at h; exact absurd h (by simp [ENOMEM])
  rw [if_neg c3] at h ⊢
  by_cases c4 : k.tick.tick.tick.outcome ≠ 0
  · rw [if_pos c4] at h; exact absurd h (by simp [ENOMEM])
  rw [if_neg c4] at h ⊢
  by_cases c5 : k.tick.tick.tick.tick.outcome ≠ 0
  · rw [if_pos c5] at h; exact absurd h (by simp [ENOMEM])
  rw [if_neg c5] at h ⊢
  by_cases c6 : k.tick.tick.tick.tick.tick.outcome ≠ 0
  · rw [if_pos c6] at h; exact absurd h (by simp [EINVAL])
  rw [if_neg c6] at h ⊢
  by_cases c7 : k.tick.tick.tick.tick.tick.tick.outcome ≠ 0
  · rw [if_pos c7] at h; exact absurd h (by simp [ENOMEM])
  rw [if_neg c7] at h ⊢
  by_cases c8 : k.tick.tick.tick.tick.tick.tick.tick.outcome ≠ 0
  · rw [if_pos c8] at h; exact absurd h (by simp [ENOMEM])
  rw [if_neg c8] at h ⊢
  have hm := append_metadata_chain
    { ent_dev with
      entanglement := (ent_dev.entanglement ++ [⟨b.bi_sector, crc32b b.data⟩]) ++
        [⟨b.bi_sector + ent_dev.write_sector_scale,
          crc32b (parity_buffer_of b.data ent_dev.last_entangled_block)⟩] }
    k.tick.tick.tick.tick.tick.tick.tick.tick b.bi_sector (crc32b b.data)
    (b.bi_sector + ent_dev.write_sector_scale)
    (crc32b (parity_buffer_of b.data ent_dev.last_entangled_block))
  generalize append_metadata _ _ _ _ _ _ = m at h hm ⊢
  by_cases c9 : m.1 ≠ 0
  · rw [if_pos c9] at h; exact absurd h c9
  rw [if_neg c9]
  refine ⟨?_, ?_, ?_, ?_⟩
  · simpa using hm.1
  · dsimp only
    exact read_bytes_of_length _ _ (parity_buffer_of_length _ _)
  · exact hm.2
  · exact ⟨m.2.2.wlog, by simp [submit_bio, kernel.write_disk]⟩

theorem process_write_bios_append (bios : List bio) (b : bio) :
    ∀ (ent_dev : entanglement_device) (k : kernel),
      process_write_bios ent_dev k (bios ++ [b]) =
        ((process_write_bio (process_write_bios ent_dev k bios).1
            (process_write_bios ent_dev k bios).2 b).2.1,
         (process_write_bio (process_write_bios ent_dev k bios).1
            (process_write_bios ent_dev k bios).2 b).2.2) := by
  induction bios with
  | nil => intro ent_dev k; rfl
  | cons c rest ih =>
    intro ent_dev k
    simp only [List.cons_append, process_write_bios]
    exact ih _ _

theorem writes_chain (bios : List bio) :
    ∀ (ent_dev : entanglement_device) (k : kernel),
      writes_succeed ent_dev k bios = true →
      ∃ L : List entangled_block,
        (process_write_bios ent_dev k bios).1.entanglement = ent_dev.entanglement ++ L ∧
        L.length = 2 * bios.length ∧
        ∀ n b, bios[n]? = some b →
          L[2 * n]? = some ⟨b.bi_sector, crc32b b.data⟩ ∧
          (L[2 * n + 1]?).map entangled_block.block_sector =
            some (b.bi_sector + ent_dev.write_sector_scale) := by
  induction bios with
  | nil =>
    intro ent_dev k _
    exact ⟨[], by simp [process_write_bios], by simp, by simp⟩
  | cons c rest ih =>
    intro ent_dev k h
    simp only [writes_succeed, Bool.and_eq_true, decide_eq_true_eq] at h
    obtain ⟨hc, hrest⟩ := h
    obtain ⟨hchain, _, hwss, _⟩ := process_write_bio_success ent_dev k c hc
    obtain ⟨L, hL, hlen, hidx⟩ := ih _ _ hrest
    refine ⟨⟨c.bi_sector, crc32b c.data⟩ ::
      ⟨c.bi_sector + ent_dev.write_sector_scale,
        crc32b (parity_buffer_of c.data ent_dev.last_entangled_block)⟩ :: L, ?_, ?_, ?_⟩
    · simp only [process_write_bios]
      rw [hL, hchain]
      simp
    · simp [hlen]; omega
    · intro n b hb
      cases n with
      | zero =>
        simp only [List.getElem?_cons_zero, Option.some.injEq] at hb
        subst hb
        simp
      | succ m =>
        simp only [List.getElem?_cons_succ] at hb
        have := hidx m b hb
        rw [hwss] at this
        have e1 : 2 * (m + 1) = (2 * m + 1) + 1 := by omega
        rw [e1]
        simpa [List.getElem?_cons_succ] using this

theorem parity_buffer_of_zero_tail (d t : List Nat) (hd : d.length = ENT_BLOCK_SIZE)
    (ht : ∀ i, i < ENT_BLOCK_SIZE → t.getD i 0 = 0) : parity_buffer_of d t = d := by
  unfold parity_buffer_of
  rw [if_pos ((is_buffer_empty_ne_zero_iff t ENT_BLOCK_SIZE).2 ht)]
  exact read_bytes_of_length d ENT_BLOCK_SIZE hd

theorem crc32_register_strict_eq (crc : Nat) (block : List Nat) :
    crc32_register_strict crc block = crc32_register crc block := by
  induction block generalizing crc with
  | nil => rfl
  | cons byte rest ih =>
    simp only [crc32_register_strict, crc32_register]
    split
    · next h => rw [ih, h]
    · next n h => rw [ih, h]

theorem crc32_standard_of_register (block : List Nat) (r v : Nat)
    (h : crc32_register_strict 0xFFFFFFFF block = r) (hv : 0xFFFFFFFF - r = v) :
    crc32_standard block = v := by
  unfold crc32_standard
  rw [← crc32_register_strict_eq, h, hv]

/-! ## Repair engine lemmas -/

theorem repair_block_rec_irrecoverable (fuel : Nat) :
    ∀ (ent_dev : entanglement_device) (k : kernel) (block : Nat) (irr : Nat → Bool)
      (direction : RepairDirection) (r : RepairState × repair_result),
      repair_block_rec fuel ent_dev k block irr direction = some r →
      r.1 = RepairState.IRRECOVERABLE ∧ r.2.ent_dev = ent_dev ∧ r.2.k = k := by
  induction fuel with
  | zero =>
    intro ent_dev k block irr direction r h
    simp [repair_block_rec] at h
  | succ fuel ih =>
    intro ent_dev k block irr direction r h
    cases direction with
    | LEFT =>
      simp only [repair_block_rec] at h
      split_ifs at h with h1 h2 h3
      · cases h; exact ⟨rfl, rfl, rfl⟩
      · cases h; exact ⟨rfl, rfl, rfl⟩
      · cases hrec : repair_block_rec fuel ent_dev k (list_prev ent_dev (list_prev ent_dev block))
            irr RepairDirection.LEFT with
        | none => rw [hrec] at h; simp at h
        | some r1 =>
          rw [hrec] at h
          obtain ⟨e1, e2, e3⟩ := ih _ _ _ _ _ _ hrec
          simp only [e1, if_true, Option.some.injEq] at h
          subst h
          exact ⟨rfl, e2, e3⟩
      · simp only [if_true, Option.some.injEq] at h
        subst h
        exact ⟨rfl, rfl, rfl⟩
    | RIGHT =>
      simp only [repair_block_rec] at h
      split_ifs at h with h1 h2 h3
      · cases h; exact ⟨rfl, rfl, rfl⟩
      · cases h; exact ⟨rfl, rfl, rfl⟩
      · cases hrec : repair_block_rec fuel ent_dev k (list_next ent_dev (list_next ent_dev block))
            irr RepairDirection.RIGHT with
        | none => rw [hrec] at h; simp at h
        | some r1 =>
          rw [hrec] at h
          obtain ⟨e1, e2, e3⟩ := ih _ _ _ _ _ _ hrec
          simp only [e1, if_true, Option.some.injEq] at h
          subst h
          exact ⟨rfl, e2, e3⟩
      · simp only [if_true, Option.some.injEq] at h
        subst h
        exact ⟨rfl, rfl, rfl⟩

theorem repair_block_neighbours_frame (fuel : Nat) (ent_dev : entanglement_device)
    (k : kernel) (block : Nat) (irr : Nat → Bool) (n : neighbour_states)
    (h : repair_block_neighbours fuel ent_dev k block irr = some n) :
    n.res.ent_dev = ent_dev ∧ n.res.k = k := by
  unfold repair_block_neighbours at h
  simp only [] at h
  split at h
  · simp at h
  · next l hl =>
    have hl2 : l.2.ent_dev = ent_dev ∧ l.2.k = k := by
      split_ifs at hl with c1 c2
      · exact (repair_block_rec_irrecoverable _ _ _ _ _ _ _ hl).2
      · cases hl; exact ⟨rfl, rfl⟩
      · cases hl; exact ⟨rfl, rfl⟩
    split at h
    · simp at h
    · next r hr =>
      have hr2 : r.2.ent_dev = ent_dev ∧ r.2.k = k := by
        split_ifs at hr with c1
        · have := (repair_block_rec_irrecoverable _ _ _ _ _ _ _ hr).2
          exact ⟨this.1.trans hl2.1, this.2.trans hl2.2⟩
        · cases hr; exact hl2
      cases h
      exact hr2

/-! ## Journal lemmas -/

theorem u8_at_ne_sentinel (page_ptr : List Nat) (i : Nat) :
    u8_at page_ptr i ≠ DEFAULT_SECTOR_VALUE := by
  unfold u8_at DEFAULT_SECTOR_VALUE
  omega

theorem ent_dev_rwSector_kernel (k : kernel) (page : List Nat) (sector : Nat) (rw : rw_dir) :
    (ent_dev_rwSector k page sector rw).2.2.fault = k.fault ∧
    ((∀ n, k.fault n = 0) → (ent_dev_rwSector k page sector rw).1 = 0) := by
  unfold ent_dev_rwSector
  refine ⟨?_, ?_⟩
  · split_ifs
    · rfl
    · cases rw <;> rfl
  · intro hq
    have h0 : k.outcome = 0 := hq _
    rw [if_neg (by simp [h0])]
    cases rw <;> rfl

theorem ent_dev_rwSector_read_ok (k : kernel) (page : List Nat) (sector : Nat)
    (h : (ent_dev_rwSector k page sector rw_dir.READ).1 = 0) :
    (ent_dev_rwSector k page sector rw_dir.READ).2.1 =
      k.read_disk (sector * ENT_DEV_SECTOR_SCALE) ∧
    (ent_dev_rwSector k page sector rw_dir.READ).2.2 = k.tick := by
  unfold ent_dev_rwSector at h ⊢
  by_cases h0 : k.outcome ≠ 0
  · rw [if_pos h0] at h
    exact absurd h h0
  · rw [if_neg h0]
    dsimp only
    exact ⟨rfl, rfl⟩

theorem read_disk_tick (k : kernel) (bi_sector : Nat) :
    k.tick.read_disk bi_sector = k.read_disk bi_sector := by
  unfold kernel.read_disk kernel.tick
  dsimp only

theorem load_slots_spec (i : Nat) : ∀ (remaining j : Nat) (st : load_state),
    (load_slots i remaining j st).1 ≠ load_exit.end_loop ∧
    (∀ e, (load_slots i remaining j st).1 = load_exit.out e → e ≠ 0) ∧
    (load_slots i remaining j st).2.sector_page = st.sector_page ∧
    (load_slots i remaining j st).2.checksum_page = st.checksum_page ∧
    (load_slots i remaining j st).2.sector = st.sector ∧
    (load_slots i remaining j st).2.checksum_sector = st.checksum_sector ∧
    (load_slots i remaining j st).2.k.fault = st.k.fault ∧
    (load_slots i remaining j st).2.ent_dev =
      { st.ent_dev with
        entanglement := (load_slots i remaining j st).2.ent_dev.entanglement } ∧
    ((∀ n, st.k.fault n = 0) → (load_slots i remaining j st).1 = load_exit.next) ∧
    ∃ L : List entangled_block,
      (load_slots i remaining j st).2.ent_dev.entanglement = st.ent_dev.entanglement ++ L ∧
      ((load_slots i remaining j st).1 = load_exit.next →
        L.length = remaining ∧
        (0 < remaining → L.head? =
          some ⟨u8_at st.sector_page (j * SIZEOF_SECTOR_T),
            if i % 2 = 0 then u8_at st.checksum_page (j * SIZEOF_UINT)
            else u8_at st.checksum_page ((j + 512) * SIZEOF_UINT)⟩)) := by
  intro remaining
  induction remaining with
  | zero =>
    intro j st
    exact ⟨by simp [load_slots], by simp [load_slots], rfl, rfl, rfl, rfl, rfl, rfl,
      fun _ => rfl, [], by simp [load_slots], by simp [load_slots]⟩
  | succ n ih =>
    intro j st
    simp only [load_slots]
    rw [if_neg (u8_at_ne_sentinel _ _)]
    by_cases hk : st.k.outcome ≠ 0
    · rw [if_pos hk]
      refine ⟨by simp, by simp [ENOMEM], rfl, rfl, rfl, rfl, rfl, rfl, ?_, [], by simp,
        by simp⟩
      intro hq
      exact absurd (hq _) hk
    · rw [if_neg hk]
      obtain ⟨h1, h0, h2, h3, h4, h5, h6, h7, h8, L, hL, hnext⟩ := ih (j + 1)
        { st with
          k := st.k.tick
          last_entangled_block_sector := u8_at st.sector_page (j * SIZEOF_SECTOR_T)
          ent_dev := { st.ent_dev with
            entanglement := st.ent_dev.entanglement ++
              [⟨u8_at st.sector_page (j * SIZEOF_SECTOR_T),
                if i % 2 = 0 then u8_at st.checksum_page (j * SIZEOF_UINT)
                else u8_at st.checksum_page ((j + 512) * SIZEOF_UINT)⟩] } }
      refine ⟨h1, h0, h2, h3, h4, h5, h6, ?_, ?_, ?_⟩
      · rw [h7]
      · intro hq
        exact h8 hq
      · refine ⟨⟨u8_at st.sector_page (j * SIZEOF_SECTOR_T),
            if i % 2 = 0 then u8_at st.checksum_page (j * SIZEOF_UINT)
            else u8_at st.checksum_page ((j + 512) * SIZEOF_UINT)⟩ :: L, ?_, ?_⟩
        · rw [hL]
          simp
        · intro hn
          obtain ⟨hlen, _⟩ := hnext hn
          exact ⟨by simp [hlen], fun _ => by simp⟩

theorem load_block_spec (i : Nat) (st : load_state) :
    (load_block i st).1 ≠ load_exit.end_loop ∧
    (∀ e, (load_block i st).1 = load_exit.out e → e ≠ 0) ∧
    (load_block i st).2.k.fault = st.k.fault ∧
    (load_block i st).2.ent_dev =
      { st.ent_dev with entanglement := (load_block i st).2.ent_dev.entanglement } ∧
    ((∀ n, st.k.fault n = 0) → (load_block i st).1 = load_exit.next) ∧
    ((load_block i st).1 = load_exit.next → (load_block i st).2.sector = st.sector) ∧
    ∃ L : List entangled_block,
      (load_block i st).2.ent_dev.entanglement = st.ent_dev.entanglement ++ L ∧
      ((load_block i st).1 = load_exit.next →
        L.length = NUMBER_OF_SECTORS_IN_BLOCK ∧
        (i % 2 = 0 → L.head? =
          some ⟨u8_at (st.k.read_disk (st.sector * ENT_DEV_SECTOR_SCALE)) 0,
            u8_at (st.k.read_disk (st.checksum_sector * ENT_DEV_SECTOR_SCALE)) 0⟩)) := by
  unfold load_block
  simp only []
  have hrs := ent_dev_rwSector_kernel st.k st.sector_page st.sector rw_dir.READ
  by_cases c1 : (ent_dev_rwSector st.k st.sector_page st.sector rw_dir.READ).1 ≠ 0
  · rw [if_pos c1]
    refine ⟨by simp, ?_, hrs.1, rfl, fun hq => absurd (hrs.2 hq) c1, by simp, [], by simp,
      by simp⟩
    intro e he
    simp only [load_exit.out.injEq] at he
    exact he ▸ c1
  · rw [if_neg c1]
    obtain ⟨hpage, hk1⟩ := ent_dev_rwSector_read_ok st.k st.sector_page st.sector
      (not_not.mp c1)
    by_cases c2 : i % 2 = 0
    · rw [if_pos c2]
      have hrc := ent_dev_rwSector_kernel
        (ent_dev_rwSector st.k st.sector_page st.sector rw_dir.READ).2.2 st.checksum_page
        st.checksum_sector rw_dir.READ
      by_cases c3 : (ent_dev_rwSector
          (ent_dev_rwSector st.k st.sector_page st.sector rw_dir.READ).2.2 st.checksum_page
          st.checksum_sector rw_dir.READ).1 ≠ 0
      · rw [if_pos c3]
        refine ⟨by simp, ?_, hrc.1.trans hrs.1, rfl, ?_, by simp, [], by simp, by simp⟩
        · intro e he
          simp only [load_exit.out.injEq] at he
          exact he ▸ c3
        · intro hq
          exact absurd (hrc.2 (fun n => by rw [hrs.1]; exact hq n)) c3
      · rw [if_neg c3]
        obtain ⟨hcpage, hk2⟩ := ent_dev_rwSector_read_ok
          (ent_dev_rwSector st.k st.sector_page st.sector rw_dir.READ).2.2 st.checksum_page
          st.checksum_sector (not_not.mp c3)
        obtain ⟨h1, h0, h2, h3, h4, h5, h6, h7, h8, L, hL, hnext⟩ :=
          load_slots_spec i NUMBER_OF_SECTORS_IN_BLOCK 0
            { st with
              sector_page := (ent_dev_rwSector st.k st.sector_page st.sector rw_dir.READ).2.1
              checksum_page := (ent_dev_rwSector
                (ent_dev_rwSector st.k st.sector_page st.sector rw_dir.READ).2.2
                st.checksum_page st.checksum_sector rw_dir.READ).2.1
              k := (ent_dev_rwSector
                (ent_dev_rwSector st.k st.sector_page st.sector rw_dir.READ).2.2
                st.checksum_page st.checksum_sector rw_dir.READ).2.2
              checksum_sector := st.checksum_sector + 1 }
        refine ⟨h1, h0, h6.trans (hrc.1.trans hrs.1), h7, ?_, fun _ => h4, L, hL, ?_⟩
        · intro hq
          exact h8 (fun n => by
            show (ent_dev_rwSector _ _ _ _).2.2.fault n = 0
            rw [hrc.1, hrs.1]; exact hq n)
        · intro hn
          obtain ⟨hlen, hhead⟩ := hnext hn
          refine ⟨hlen, fun _ => ?_⟩
          rw [hhead (by decide)]
          simp only [if_pos c2, Nat.zero_mul]
          rw [hpage, hcpage, hk1, read_disk_tick]
    · rw [if_neg c2]
      obtain ⟨h1, h0, h2, h3, h4, h5, h6, h7, h8, L, hL, hnext⟩ :=
        load_slots_spec i NUMBER_OF_SECTORS_IN_BLOCK 0
          { st with
            sector_page := (ent_dev_rwSector st.k st.sector_page st.sector rw_dir.READ).2.1
            k := (ent_dev_rwSector st.k st.sector_page st.sector rw_dir.READ).2.2 }
      refine ⟨h1, h0, h6.trans hrs.1, h7, ?_, fun _ => h4, L, hL, ?_⟩
      · intro hq
        exact h8 (fun n => by
          show (ent_dev_rwSector _ _ _ _).2.2.fault n = 0
          rw [hrs.1]; exact hq n)
      · intro hn
        exact ⟨(hnext hn).1, fun hc => absurd hc c2⟩

theorem load_blocks_spec : ∀ (remaining i : Nat) (st : load_state),
    (load_blocks remaining i st).1 ≠ load_exit.end_loop ∧
    (∀ e, (load_blocks remaining i st).1 = load_exit.out e → e ≠ 0) ∧
    (load_blocks remaining i st).2.k.fault = st.k.fault ∧
    (load_blocks remaining i st).2.ent_dev =
      { st.ent_dev with entanglement := (load_blocks remaining i st).2.ent_dev.entanglement } ∧
    ((∀ n, st.k.fault n = 0) → (load_blocks remaining i st).1 = load_exit.next) ∧
    ((load_blocks remaining i st).1 = load_exit.next →
      (load_blocks remaining i st).2.sector = st.sector + remaining) ∧
    ∃ L : List entangled_block,
      (load_blocks remaining i st).2.ent_dev.entanglement = st.ent_dev.entanglement ++ L ∧
      ((load_blocks remaining i st).1 = load_exit.next →
        L.length = NUMBER_OF_SECTORS_IN_BLOCK * remaining ∧
        (0 < remaining → i % 2 = 0 → L.head? =
          some ⟨u8_at (st.k.read_disk (st.sector * ENT_DEV_SECTOR_SCALE)) 0,
            u8_at (st.k.read_disk (st.checksum_sector * ENT_DEV_SECTOR_SCALE)) 0⟩)) := by
  intro remaining
  induction remaining with
  | zero =>
    intro i st
    exact ⟨by simp [load_blocks], by simp [load_blocks], rfl, rfl, fun _ => rfl,
      fun _ => rfl, [], by simp [load_blocks], by simp [load_blocks]⟩
  | succ n ih =>
    intro i st
    obtain ⟨b1, b0, b2, b3, b4, b5, Lb, hLb, hbnext⟩ := load_block_spec i st
    rcases hb : load_block i st with ⟨ex, st1⟩
    rw [hb] at b1 b0 b2 b3 b4 b5 hLb hbnext
    simp only [load_blocks, hb]
    cases ex with
    | end_loop => exact absurd rfl b1
    | out err =>
      refine ⟨by simp, ?_, b2, b3, ?_, by simp, Lb, hLb, by simp⟩
      · intro e he
        simp only [load_exit.out.injEq] at he
        exact b0 e (by rw [he])
      · intro hq
        have := b4 hq
        simp at this
    | next =>
      simp only at b2 b3 b5 hLb hbnext ⊢
      obtain ⟨hlen, hhead⟩ := hbnext trivial
      obtain ⟨h1, h0, h2, h3, h4, h5, L, hL, hnext⟩ :=
        ih (i + 1) { st1 with sector := st1.sector + 1 }
      refine ⟨h1, h0, h2.trans b2, ?_, ?_, ?_, Lb ++ L, ?_, ?_⟩
      · rw [h3]
        simp only []
        rw [b3]
      · intro hq
        exact h4 (fun m => by
          show st1.k.fault m = 0
          rw [b2]; exact hq m)
      · intro hn
        rw [h5 hn]
        simp only []
        rw [b5 trivial]
        omega
      · rw [hL]
        simp only []
        rw [hLb, List.append_assoc]
      · intro hn
        obtain ⟨hlen2, _⟩ := hnext hn
        refine ⟨by rw [List.length_append, hlen, hlen2]; ring, fun _ hi => ?_⟩
        have hne : Lb ≠ [] := by
          intro hc
          rw [hc] at hlen
          simp [NUMBER_OF_SECTORS_IN_BLOCK, SIZEOF_SECTOR_T] at hlen
        rw [List.head?_append_of_ne_nil _ hne]
        exact hhead hi

theorem load_spec (ent_dev : entanglement_device) (k : kernel) :
    (load_entanglement_and_checksums ent_dev k).2.1 =
      { ent_dev with
        entanglement := (load_entanglement_and_checksums ent_dev k).2.1.entanglement
        block_sector_buffer :=
          (load_entanglement_and_checksums ent_dev k).2.1.block_sector_buffer
        block_checksum_buffer :=
          (load_entanglement_and_checksums ent_dev k).2.1.block_checksum_buffer
        next_sector := (load_entanglement_and_checksums ent_dev k).2.1.next_sector
        next_checksum := (load_entanglement_and_checksums ent_dev k).2.1.next_checksum
        last_entangled_block :=
          (load_entanglement_and_checksums ent_dev k).2.1.last_entangled_block } ∧
    (load_entanglement_and_checksums ent_dev k).2.2.fault = k.fault ∧
    ((∀ n, k.fault n = 0) → (load_entanglement_and_checksums ent_dev k).1 = 0) ∧
    ((load_entanglement_and_checksums ent_dev k).1 = 0 →
      (load_entanglement_and_checksums ent_dev k).2.1.entanglement.length =
        ent_dev.entanglement.length +
          NUMBER_OF_SECTORS_IN_BLOCK * ent_dev.metadata_sector_size ∧
      (load_entanglement_and_checksums ent_dev k).2.1.next_sector =
        ent_dev.metadata_start_sector + ent_dev.metadata_sector_size ∧
      (ent_dev.entanglement = [] → 0 < ent_dev.metadata_sector_size →
        (load_entanglement_and_checksums ent_dev k).2.1.entanglement.head? =
          some ⟨u8_at (k.read_disk (ent_dev.metadata_start_sector * ENT_DEV_SECTOR_SCALE)) 0,
            u8_at (k.read_disk (ent_dev.metadata_sector_size * ENT_DEV_SECTOR_SCALE)) 0⟩)) := by
  unfold load_entanglement_and_checksums
  simp only []
  by_cases c1 : k.outcome ≠ 0
  · rw [if_pos c1]
    exact ⟨rfl, rfl, fun hq => absurd (hq _) c1, fun h => absurd h (by simp [ENOMEM])⟩
  rw [if_neg c1]
  by_cases c2 : k.tick.outcome ≠ 0
  · rw [if_pos c2]
    exact ⟨rfl, rfl, fun hq => absurd (hq _) c2, fun h => absurd h (by simp [ENOMEM])⟩
  rw [if_neg c2]
  by_cases c3 : k.tick.tick.outcome ≠ 0
  · rw [if_pos c3]
    exact ⟨rfl, rfl, fun hq => absurd (hq _) c3, fun h => absurd h (by simp [EINTR])⟩
  rw [if_neg c3]
  obtain ⟨h1, h0, h2, h3, h4, h5, L, hL, hnext⟩ :=
    load_blocks_spec ent_dev.metadata_sector_size 0
    { ent_dev := ent_dev, k := k.tick.tick.tick, sector_page := k.fresh_page,
      checksum_page := k.tick.fresh_page, sector := ent_dev.metadata_start_sector,
      checksum_sector := ent_dev.metadata_sector_size,
      last_entangled_block_sector := k.stack_int.toNat }
  generalize load_blocks ent_dev.metadata_sector_size 0 _ = l at h1 h0 h2 h3 h4 h5 hL hnext ⊢
  rcases l with ⟨ex, stl⟩
  simp only at h1 h0 h2 h3 h4 h5 hL hnext
  have hio := ent_dev_rwSector_kernel stl.k stl.sector_page stl.last_entangled_block_sector
    rw_dir.READ
  cases ex with
  | end_loop => exact absurd rfl h1
  | out err =>
    simp only []
    refine ⟨?_, h2, ?_, ?_⟩
    · rw [h3]
    · intro hq
      have := h4 hq
      simp at this
    · intro h
      exact absurd h (h0 err rfl)
  | next =>
    simp only []
    by_cases c4 : (ent_dev_rwSector stl.k stl.sector_page stl.last_entangled_block_sector
        rw_dir.READ).1 ≠ 0
    · rw [if_pos c4]
      refine ⟨?_, hio.1.trans h2, ?_, fun h => absurd h c4⟩
      · simp only []
        rw [h3]
      · intro hq
        exact absurd (hio.2 (fun n => by rw [h2]; exact hq n)) c4
    · rw [if_neg c4]
      obtain ⟨hlen, hhead⟩ := hnext rfl
      refine ⟨?_, hio.1.trans h2, fun _ => rfl, fun _ => ⟨?_, ?_, ?_⟩⟩
      · simp only []
        rw [h3]
      · simp only []
        rw [hL, List.length_append, hlen]
      · simp only []
        rw [h5 rfl]
      · intro hempty hpos
        simp only []
        rw [hL, hempty, List.nil_append, hhead hpos trivial]
        simp only [read_disk_tick]

/-! ## Scanner and constructor lemmas -/

theorem repair_block_write_frame (ent_dev : entanglement_device) (k : kernel)
    (block left_block right_block : entangled_block) (first : Bool) (irr : Nat → Bool) :
    (repair_block_write ent_dev k block left_block right_block first irr).ent_dev =
      { ent_dev with
        corrupted_blocks :=
          (repair_block_write ent_dev k block left_block right_block first
            irr).ent_dev.corrupted_blocks } := by
  unfold repair_block_write
  simp only []
  split_ifs <;> rfl

theorem repair_block_frame (fuel : Nat) (ent_dev : entanglement_device) (k : kernel)
    (block : Nat) (irr : Nat → Bool) (r : repair_result)
    (h : repair_block fuel ent_dev k block irr = some r) :
    r.ent_dev = { ent_dev with corrupted_blocks := r.ent_dev.corrupted_blocks } := by
  unfold repair_block at h
  split at h
  · simp at h
  · next n hn =>
    obtain ⟨e1, _⟩ := repair_block_neighbours_frame fuel ent_dev k block irr n hn
    split_ifs at h
    · cases h
      simp only []
      rw [e1]
    · cases h
      rw [repair_block_write_frame, e1]

theorem repair_corrupted_blocks_loop_frame (fuel : Nat) :
    ∀ (positions : List Nat) (st : repair_result) (called : List Nat)
      (r : repair_result × List Nat),
      repair_corrupted_blocks_loop fuel positions st called = some r →
      r.1.ent_dev = { st.ent_dev with corrupted_blocks := r.1.ent_dev.corrupted_blocks } := by
  intro positions
  induction positions with
  | nil =>
    intro st called r h
    simp only [repair_corrupted_blocks_loop, Option.some.injEq] at h
    subst h
    rfl
  | cons block rest ih =>
    intro st called r h
    simp only [repair_corrupted_blocks_loop] at h
    split_ifs at h
    · split at h
      · simp at h
      · next st1 h1 =>
        have e1 := repair_block_frame fuel _ _ _ _ _ h1
        have e2 := ih _ _ _ h
        rw [e2, e1]
    · exact ih _ _ _ h

theorem repair_corrupted_blocks_frame (fuel : Nat) (ent_dev : entanglement_device)
    (k : kernel) (r : repair_run) (h : repair_corrupted_blocks fuel ent_dev k = some r) :
    r.res.ent_dev = { ent_dev with corrupted_blocks := r.res.ent_dev.corrupted_blocks } := by
  unfold repair_corrupted_blocks at h
  split_ifs at h
  · cases h
    rfl
  · split at h
    · simp at h
    · next r1 h1 =>
      cases h
      exact repair_corrupted_blocks_loop_frame fuel _ _ _ _ h1

theorem check_corruption_scan_frame : ∀ (fuel : Nat) (ent_dev : entanglement_device)
    (k : kernel) (page : List Nat) (sector : Nat),
    (check_corruption_scan fuel ent_dev k page sector).2.1 =
      { ent_dev with
        corrupted_blocks :=
          (check_corruption_scan fuel ent_dev k page sector).2.1.corrupted_blocks } := by
  intro fuel
  induction fuel with
  | zero => intro ent_dev k page sector; rfl
  | succ n ih =>
    intro ent_dev k page sector
    simp only [check_corruption_scan]
    split_ifs
    · rfl
    · rw [ih]
    · exact ih _ _ _ _
    · exact ih _ _ _ _
    · rfl

theorem check_corruption_frame (fuel : Nat) (ent_dev : entanglement_device) (k : kernel)
    (r : Int × entanglement_device × kernel) (h : check_corruption fuel ent_dev k = some r) :
    r.2.1 = { ent_dev with corrupted_blocks := r.2.1.corrupted_blocks } := by
  have hs : (check_corruption_before_repair ent_dev k).2.1 =
      { ent_dev with
        corrupted_blocks := (check_corruption_before_repair ent_dev k).2.1.corrupted_blocks } := by
    unfold check_corruption_before_repair
    simp only []
    split_ifs
    · rfl
    · rfl
    · exact check_corruption_scan_frame _ _ _ _ _
  unfold check_corruption at h
  simp only [] at h
  split_ifs at h
  · cases h
    exact hs
  · split at h
    · simp at h
    · next r1 h1 =>
      cases h
      have e := repair_corrupted_blocks_frame fuel _ _ _ h1
      simp only []
      rw [e, hs]

theorem entanglement_tgt_ctr_layout_kept (fuel : Nat) (k : kernel) (dev_path : String)
    (dev_size : Nat) (redundancy_flag : Int) (r : Int × entanglement_device × kernel)
    (h : entanglement_tgt_ctr fuel k 3 dev_path dev_size redundancy_flag = some r)
    (h0 : r.1 = 0) :
    device_layout r.2.1 = device_layout (entanglement_tgt_ctr_layout dev_size) := by
  unfold entanglement_tgt_ctr at h
  simp only [] at h
  rw [if_neg (by decide)] at h
  by_cases c1 : k.outcome ≠ 0
  · rw [if_pos c1] at h; cases h; exact absurd h0 (by simp [ENOMEM])
  rw [if_neg c1] at h
  by_cases c2 : k.tick.outcome ≠ 0
  · rw [if_pos c2] at h; cases h; exact absurd h0 c2
  rw [if_neg c2] at h
  by_cases c3 : k.tick.tick.outcome ≠ 0
  · rw [if_pos c3] at h; cases h; exact absurd h0 (by simp [ENOMEM])
  rw [if_neg c3] at h
  by_cases c4 : k.tick.tick.tick.outcome ≠ 0
  · rw [if_pos c4] at h; cases h; exact absurd h0 (by simp [ENOMEM])
  rw [if_neg c4] at h
  by_cases c5 : k.tick.tick.tick.tick.outcome ≠ 0
  · rw [if_pos c5] at h; cases h; exact absurd h0 (by simp [ENOMEM])
  rw [if_neg c5] at h
  by_cases c6 : k.tick.tick.tick.tick.tick.outcome ≠ 0
  · rw [if_pos c6] at h; cases h; exact absurd h0 (by simp [ENOMEM])
  rw [if_neg c6] at h
  by_cases c7 : k.tick.tick.tick.tick.tick.tick.outcome ≠ 0
  · rw [if_pos c7] at h; cases h; exact absurd h0 (by simp [ENOMEM])
  rw [if_neg c7] at h
  by_cases c8 : redundancy_flag ≠ 0
  · rw [if_pos c8] at h
    have el := (load_spec
      { entanglement_tgt_ctr_layout dev_size with
        corrupted_blocks := k.tick.tick.stale_bits k.tick.tick.calls
        sector_checksum_map := fun _ => 0
        last_entangled_block := List.replicate ENT_BLOCK_SIZE 0
        block_sector_buffer := k.tick.tick.tick.tick.tick.fresh_page
        sector_buffer_size := 0
        block_checksum_buffer := k.tick.tick.tick.tick.tick.tick.fresh_page
        checksum_buffer_size := 0 } k.tick.tick.tick.tick.tick.tick.tick).1
    generalize load_entanglement_and_checksums _ _ = l at h el
    by_cases c9 : l.1 ≠ 0
    · rw [if_pos c9] at h; cases h; exact absurd h0 c9
    rw [if_neg c9] at h
    have e := check_corruption_frame fuel _ _ _ h
    rw [e, el]
    rfl
  · rw [if_neg c8] at h
    cases h
    rfl

/-! ## Write path lemmas: what a failed write leaves -/

theorem flush_metadata_cache (ent_dev : entanglement_device) (k : kernel) (type : BufferType) :
    (flush_metadata ent_dev k type).2.1.last_entangled_block = ent_dev.last_entangled_block ∧
    (flush_metadata ent_dev k type).2.1.sector_checksum_map = ent_dev.sector_checksum_map := by
  unfold flush_metadata
  cases type <;> simp only [] <;> split_ifs <;> simp

theorem append_data_sector_cache (ent_dev : entanglement_device) (k : kernel) (v : Nat) :
    (append_data_sector ent_dev k v).2.1.last_entangled_block = ent_dev.last_entangled_block ∧
    (append_data_sector ent_dev k v).2.1.sector_checksum_map = ent_dev.sector_checksum_map := by
  unfold append_data_sector
  have h := flush_metadata_cache ent_dev k BufferType.SECTOR
  simp only []
  split_ifs <;> simp [h.1, h.2]

theorem append_parity_sector_cache (ent_dev : entanglement_device) (k : kernel) (v : Nat) :
    (append_parity_sector ent_dev k v).2.1.last_entangled_block =
      ent_dev.last_entangled_block ∧
    (append_parity_sector ent_dev k v).2.1.sector_checksum_map =
      ent_dev.sector_checksum_map := by
  unfold append_parity_sector
  have h := flush_metadata_cache ent_dev k BufferType.SECTOR
  simp only []
  split_ifs <;> simp [h.1, h.2]

theorem append_data_checksum_cache (ent_dev : entanglement_device) (k : kernel) (v : Nat) :
    (append_data_checksum ent_dev k v).2.1.last_entangled_block =
      ent_dev.last_entangled_block ∧
    (append_data_checksum ent_dev k v).2.1.sector_checksum_map =
      ent_dev.sector_checksum_map := by
  unfold append_data_checksum
  have h := flush_metadata_cache ent_dev k BufferType.CHECKSUM
  simp only []
  split_ifs <;> simp [h.1, h.2]

theorem append_parity_checksum_cache (ent_dev : entanglement_device) (k : kernel) (v : Nat) :
    (append_parity_checksum ent_dev k v).2.1.last_entangled_block =
      ent_dev.last_entangled_block ∧
    (append_parity_checksum ent_dev k v).2.1.sector_checksum_map =
      ent_dev.sector_checksum_map := by
  unfold append_parity_checksum
  have h := flush_metadata_cache ent_dev k BufferType.CHECKSUM
  simp only []
  split_ifs <;> simp [h.1, h.2]

theorem append_metadata_cache (ent_dev : entanglement_device) (k : kernel)
    (ds dc ps pc : Nat) :
    (append_metadata ent_dev k ds dc ps pc).2.1.last_entangled_block =
      ent_dev.last_entangled_block ∧
    (append_metadata ent_dev k ds dc ps pc).2.1.sector_checksum_map =
      ent_dev.sector_checksum_map := by
  unfold append_metadata
  simp only []
  have h1 := append_data_sector_cache ent_dev k ds
  generalize append_data_sector ent_dev k ds = a1 at h1 ⊢
  have h2 := append_data_checksum_cache a1.2.1 a1.2.2 dc
  generalize append_data_checksum a1.2.1 a1.2.2 dc = a2 at h2 ⊢
  have h3 := append_parity_sector_cache a2.2.1 a2.2.2 ps
  generalize append_parity_sector a2.2.1 a2.2.2 ps = a3 at h3 ⊢
  have h4 := append_parity_checksum_cache a3.2.1 a3.2.2 pc
  generalize append_parity_checksum a3.2.1 a3.2.2 pc = a4 at h4 ⊢
  split_ifs
  · exact h1
  · exact ⟨h2.1.trans h1.1, h2.2.trans h1.2⟩
  · exact ⟨h3.1.trans (h2.1.trans h1.1), h3.2.trans (h2.2.trans h1.2)⟩
  · exact ⟨h4.1.trans (h3.1.trans (h2.1.trans h1.1)), h4.2.trans (h3.2.trans (h2.2.trans h1.2))⟩

theorem entanglement_tgt_ctr_layout_small (dev_size : Nat) (h : dev_size * 3 < 2 ^ 32) :
    (entanglement_tgt_ctr_layout dev_size).dev_size = dev_size ∧
    (entanglement_tgt_ctr_layout dev_size).metadata_size = dev_size * 3 / 1024 ∧
    (entanglement_tgt_ctr_layout dev_size).metadata_sector_size =
      dev_size * 3 / 1024 * 2 / 3 ∧
    (entanglement_tgt_ctr_layout dev_size).metadata_checksum_size = dev_size * 3 / 1024 / 3 := by
  have h1 : dev_size % 2 ^ 32 = dev_size := Nat.mod_eq_of_lt (by omega)
  have h2 : dev_size * 3 % 2 ^ 32 = dev_size * 3 := Nat.mod_eq_of_lt h
  have h3 : dev_size * 3 / 1024 * 2 % 2 ^ 32 = dev_size * 3 / 1024 * 2 :=
    Nat.mod_eq_of_lt (by omega)
  have h4 : dev_size * 3 / 1024 * 1 % 2 ^ 32 = dev_size * 3 / 1024 :=
    by rw [Nat.mul_one]; exact Nat.mod_eq_of_lt (by omega)
  simp only [entanglement_tgt_ctr_layout, uint, Nat.shiftRight_eq_div_pow, h1, h2, h3, h4]
  norm_num

theorem entanglement_tgt_ctr_layout_start (dev_size : Nat) (h : dev_size < 2 ^ 32) :
    (entanglement_tgt_ctr_layout dev_size).metadata_size ≤ dev_size ∧
    (entanglement_tgt_ctr_layout dev_size).metadata_start_sector =
      8 * ((dev_size - (entanglement_tgt_ctr_layout dev_size).metadata_size) / 2 / 8) ∧
    (entanglement_tgt_ctr_layout dev_size).write_sector_scale =
      (entanglement_tgt_ctr_layout dev_size).metadata_start_sector +
        (entanglement_tgt_ctr_layout dev_size).metadata_size := by
  have h1 : dev_size % 2 ^ 32 = dev_size := Nat.mod_eq_of_lt h
  have hm : dev_size * 3 % 2 ^ 32 / 2 ^ 10 ≤ dev_size := by
    rcases Nat.lt_or_ge (dev_size * 3) (2 ^ 32) with hlt | hge
    · rw [Nat.mod_eq_of_lt hlt]
      omega
    · have : dev_size * 3 % 2 ^ 32 < 2 ^ 32 := Nat.mod_lt _ (by norm_num)
      omega
  have hm2 : dev_size * 3 % 2 ^ 32 / 2 ^ 10 < 2 ^ 22 := by
    have : dev_size * 3 % 2 ^ 32 < 2 ^ 32 := Nat.mod_lt _ (by norm_num)
    omega
  generalize hmdef : dev_size * 3 % 2 ^ 32 / 2 ^ 10 = m at hm hm2
  have h5 : (dev_size + 2 ^ 32 - m) % 2 ^ 32 = dev_size - m := by
    have e : dev_size + 2 ^ 32 - m = (dev_size - m) + 2 ^ 32 := by omega
    rw [e, Nat.add_mod_right]
    exact Nat.mod_eq_of_lt (by omega)
  have h6 : ((dev_size - m) / 2 / 8 * 8 + m) % 2 ^ 32 = (dev_size - m) / 2 / 8 * 8 + m :=
    Nat.mod_eq_of_lt (by omega)
  simp only [entanglement_tgt_ctr_layout, uint, Nat.shiftRight_eq_div_pow, h1, hmdef, h5, h6]
  refine ⟨hm, ?_, trivial⟩
  omega
/-! ## XOR lemmas -/

theorem eq_of_getD_eq (a b : List Nat) (n : Nat) (ha : a.length = n) (hb : b.length = n)
    (h : ∀ i, i < n → a.getD i 0 = b.getD i 0) : a = b := by
  apply List.ext_getElem (ha.trans hb.symm)
  intro i h1 h2
  have := h i (ha ▸ h1)
  simpa [List.getD_eq_getElem?_getD, List.getElem?_eq_getElem h1,
    List.getElem?_eq_getElem h2] using this

theorem parity_buffer_of_getD (d t : List Nat) (i : Nat) (h : i < ENT_BLOCK_SIZE) :
    (parity_buffer_of d t).getD i 0 = d.getD i 0 ^^^ t.getD i 0 := by
  unfold parity_buffer_of
  split
  · next hz =>
    rw [read_bytes_getD _ _ _ h, (is_buffer_empty_ne_zero_iff t ENT_BLOCK_SIZE).1 hz i h,
      Nat.xor_zero]
  · exact xor_bytes_getD _ _ _ _ h

theorem parity_buffer_of_eq_xor (d t : List Nat) :
    parity_buffer_of d t = xor_bytes d t ENT_BLOCK_SIZE := by
  apply eq_of_getD_eq _ _ ENT_BLOCK_SIZE (parity_buffer_of_length d t) (xor_bytes_length _ _ _)
  intro i h
  rw [parity_buffer_of_getD d t i h, xor_bytes_getD _ _ _ _ h]

theorem writes_tail (bios : List bio) :
    ∀ (ent_dev : entanglement_device) (k : kernel),
      writes_succeed ent_dev k bios = true →
      (process_write_bios ent_dev k bios).1.last_entangled_block =
        (bios.map bio.data).foldl (fun acc d => xor_bytes d acc ENT_BLOCK_SIZE)
          ent_dev.last_entangled_block := by
  induction bios with
  | nil => intro ent_dev k _; rfl
  | cons c rest ih =>
    intro ent_dev k h
    simp only [writes_succeed, Bool.and_eq_true, decide_eq_true_eq] at h
    obtain ⟨hc, hrest⟩ := h
    simp only [process_write_bios, List.map, List.foldl]
    rw [ih _ _ hrest, (process_write_bio_success ent_dev k c hc).2.1, parity_buffer_of_eq_xor]

theorem replicate_zero_getD (n i : Nat) : (List.replicate n 0).getD i 0 = 0 := by
  rw [List.getD_eq_getElem?_getD, List.getElem?_replicate]
  split <;> rfl

/-! ## Checksum lemmas -/

theorem crc32b_loop_until_zero (pre : List Nat) :
    ∀ (crc : Nat) (r1 r2 : List Nat),
      crc32b_loop crc (pre ++ 0 :: r1) = crc32b_loop crc (pre ++ 0 :: r2) := by
  induction pre with
  | nil => intro crc r1 r2; simp [crc32b_loop]
  | cons byte rest ih =>
    intro crc r1 r2
    simp only [List.cons_append, crc32b_loop]
    split
    · rfl
    · exact ih _ _ _

theorem process_write_bio_map (ent_dev : entanglement_device) (k : kernel) (b : bio)
    (h : (process_write_bio ent_dev k b).1 = 0) :
    (process_write_bio ent_dev k b).2.1.sector_checksum_map =
      fun s =>
        if s = b.bi_sector + ent_dev.write_sector_scale then
          crc32b (parity_buffer_of b.data ent_dev.last_entangled_block)
        else if s = b.bi_sector then crc32b b.data
        else ent_dev.sector_checksum_map s := by
  unfold process_write_bio at h ⊢
  simp only [] at h ⊢
  by_cases c1 : k.outcome ≠ 0
  · rw [if_pos c1] at h; exact absurd h (by simp [ENOMEM])
  rw [if_neg c1] at h ⊢
  by_cases c2 : k.tick.outcome ≠ 0
  · rw [if_pos c2] at h; exact absurd h (by simp [EINTR])
  rw [if_neg c2] at h ⊢
  by_cases c3 : k.tick.tick.outcome ≠ 0
  · rw [if_pos c3] at h; exact absurd h (by simp [ENOMEM])
  rw [if_neg c3] at h ⊢
  by_cases c4 : k.tick.tick.tick.outcome ≠ 0
  · rw [if_pos c4] at h; exact absurd h (by simp [ENOMEM])
  rw [if_neg c4] at h ⊢
  by_cases c5 : k.tick.tick.tick.tick.outcome ≠ 0
  · rw [if_pos c5] at h; exact absurd h (by simp [ENOMEM])
  rw [if_neg c5] at h ⊢
  by_cases c6 : k.tick.tick.tick.tick.tick.outcome ≠ 0
  · rw [if_pos c6] at h; exact absurd h (by simp [EINVAL])
  rw [if_neg c6] at h ⊢
  by_cases c7 : k.tick.tick.tick.tick.tick.tick.outcome ≠ 0
  · rw [if_pos c7] at h; exact absurd h (by simp [ENOMEM])
  rw [if_neg c7] at h ⊢
  by_cases c8 : k.tick.tick.tick.tick.tick.tick.tick.outcome ≠ 0
  · rw [if_pos c8] at h; exact absurd h (by simp [ENOMEM])
  rw [if_neg c8] at h ⊢
  have hc := append_metadata_cache
    { ent_dev with
      entanglement := (ent_dev.entanglement ++ [⟨b.bi_sector, crc32b b.data⟩]) ++
        [⟨b.bi_sector + ent_dev.write_sector_scale,
          crc32b (parity_buffer_of b.data ent_dev.last_entangled_block)⟩] }
    k.tick.tick.tick.tick.tick.tick.tick.tick b.bi_sector (crc32b b.data)
    (b.bi_sector + ent_dev.write_sector_scale)
    (crc32b (parity_buffer_of b.data ent_dev.last_entangled_block))
  generalize append_metadata _ _ _ _ _ _ = m at h hc ⊢
  by_cases c9 : m.1 ≠ 0
  · rw [if_pos c9] at h; exact absurd h c9
  rw [if_neg c9]
  dsimp only
  rw [hc.2]

theorem check_corruption_scan_zero_entry : ∀ (fuel : Nat) (ent_dev : entanglement_device)
    (k : kernel) (page : List Nat) (sector s : Nat),
    ent_dev.sector_checksum_map s = 0 →
    (check_corruption_scan fuel ent_dev k page sector).2.1.corrupted_blocks s =
      ent_dev.corrupted_blocks s := by
  intro fuel
  induction fuel with
  | zero => intro ent_dev k page sector s _; rfl
  | succ n ih =>
    intro ent_dev k page sector s hs
    simp only [check_corruption_scan]
    split_ifs with c1 c2 c3 c4
    · rfl
    · refine (ih { ent_dev with corrupted_blocks := bitmap_set ent_dev.corrupted_blocks sector }
        _ _ _ s hs).trans ?_
      simp only [bitmap_set]
      rw [if_neg]
      intro e
      rw [e] at hs
      exact c2 hs
    · exact ih _ _ _ _ _ hs
    · exact ih _ _ _ _ _ hs
    · rfl

theorem check_corruption_before_repair_zero_entry (ent_dev : entanglement_device) (k : kernel)
    (s : Nat) (hs : ent_dev.sector_checksum_map s = 0) :
    (check_corruption_before_repair ent_dev k).2.1.corrupted_blocks s =
      ent_dev.corrupted_blocks s := by
  unfold check_corruption_before_repair
  simp only []
  split_ifs
  · rfl
  · rfl
  · exact check_corruption_scan_zero_entry _ _ _ _ _ _ hs

theorem writes_same_payload_twice (ent_dev : entanglement_device) (k : kernel) (b1 b2 : bio)
    (hs : writes_succeed ent_dev k [b1, b2] = true) (hd : b1.data = b2.data)
    (ht : ∀ i, i < ENT_BLOCK_SIZE → ent_dev.last_entangled_block.getD i 0 = 0) :
    is_buffer_empty (process_write_bios ent_dev k [b1, b2]).1.last_entangled_block
      ENT_BLOCK_SIZE ≠ 0 := by
  rw [writes_tail _ _ _ hs]
  refine (is_buffer_empty_ne_zero_iff _ _).2 (fun i hi => ?_)
  simp only [List.map, List.foldl]
  rw [xor_bytes_getD _ _ _ _ hi, xor_bytes_getD _ _ _ _ hi, hd, ← Nat.xor_assoc, Nat.xor_self,
    Nat.zero_xor]
  exact ht i hi

/-! ## Repair engine lemmas: the recursion returns -/

theorem repair_block_rec_left_returns (ent_dev : entanglement_device) (k : kernel) (m : Nat)
    (hlen : ent_dev.entanglement.length = 2 * m) :
    ∀ (fuel pos : Nat) (irr : Nat → Bool), pos < 2 * m → left_calls_bound m pos < fuel →
      (repair_block_rec fuel ent_dev k pos irr RepairDirection.LEFT).isSome = true := by
  intro fuel
  induction fuel with
  | zero => intro pos irr _ h; exact absurd h (Nat.not_lt_zero _)
  | succ fuel ih =>
    intro pos irr hpos hd
    simp only [repair_block_rec]
    split_ifs with h1 h2 h3
    · rfl
    · rfl
    · have hp : list_prev ent_dev (list_prev ent_dev pos) < 2 * m ∧
          left_calls_bound m (list_prev ent_dev (list_prev ent_dev pos)) < fuel := by
        simp only [list_prev, list_head, hlen] at h2 ⊢
        unfold left_calls_bound at hd ⊢
        split_ifs at h2 hd ⊢ <;> omega
      obtain ⟨r1, hr1⟩ := Option.isSome_iff_exists.1 (ih _ irr hp.1 hp.2)
      rw [hr1]
      simp only []
      split_ifs <;> rfl
    · rfl

theorem repair_block_rec_right_returns (ent_dev : entanglement_device) (k : kernel) (m : Nat)
    (hlen : ent_dev.entanglement.length = 2 * m) :
    ∀ (fuel pos : Nat) (irr : Nat → Bool), pos ≤ 2 * m → right_calls_bound m pos < fuel →
      (repair_block_rec fuel ent_dev k pos irr RepairDirection.RIGHT).isSome = true := by
  intro fuel
  induction fuel with
  | zero => intro pos irr _ h; exact absurd h (Nat.not_lt_zero _)
  | succ fuel ih =>
    intro pos irr hpos hd
    simp only [repair_block_rec]
    split_ifs with h1 h2 h3
    · rfl
    · rfl
    · have hp : list_next ent_dev (list_next ent_dev pos) ≤ 2 * m ∧
          right_calls_bound m (list_next ent_dev (list_next ent_dev pos)) < fuel := by
        simp only [list_next, list_head, hlen] at h1 ⊢
        unfold right_calls_bound at hd ⊢
        split_ifs at h1 hd ⊢ <;> omega
      obtain ⟨r1, hr1⟩ := Option.isSome_iff_exists.1 (ih _ irr hp.1 hp.2)
      rw [hr1]
      simp only []
      split_ifs <;> rfl
    · rfl

theorem repair_block_rec_sets_bit (fuel : Nat) (ent_dev : entanglement_device) (k : kernel)
    (block : Nat) (irr : Nat → Bool) (direction : RepairDirection)
    (r : RepairState × repair_result)
    (h : repair_block_rec fuel ent_dev k block irr direction = some r) :
    r.2.irrecoverable_blocks_bitmap (list_entry ent_dev k block).block_sector = true := by
  cases fuel with
  | zero => simp [repair_block_rec] at h
  | succ fuel =>
    cases direction with
    | LEFT =>
      simp only [repair_block_rec] at h
      split_ifs at h with h1 h2 h3
      · cases h; simp [bitmap_set]
      · cases h; simp [bitmap_set]
      · cases hrec : repair_block_rec fuel ent_dev k (list_prev ent_dev (list_prev ent_dev block))
            irr RepairDirection.LEFT with
        | none => rw [hrec] at h; simp at h
        | some r1 =>
          rw [hrec] at h
          obtain ⟨e1, _, _⟩ := repair_block_rec_irrecoverable _ _ _ _ _ _ _ hrec
          simp only [e1, if_true, Option.some.injEq] at h
          subst h
          simp [bitmap_set]
      · simp only [if_true, Option.some.injEq] at h
        subst h
        simp [bitmap_set]
    | RIGHT =>
      simp only [repair_block_rec] at h
      split_ifs at h with h1 h2 h3
      · cases h; simp [bitmap_set]
      · cases h; simp [bitmap_set]
      · cases hrec : repair_block_rec fuel ent_dev k (list_next ent_dev (list_next ent_dev block))
            irr RepairDirection.RIGHT with
        | none => rw [hrec] at h; simp at h
        | some r1 =>
          rw [hrec] at h
          obtain ⟨e1, _, _⟩ := repair_block_rec_irrecoverable _ _ _ _ _ _ _ hrec
          simp only [e1, if_true, Option.some.injEq] at h
          subst h
          simp [bitmap_set]
      · simp only [if_true, Option.some.injEq] at h
        subst h
        simp [bitmap_set]

/-! ## Journal buffer lemmas -/

theorem memcpy_length (dst src : List Nat) (off n : Nat) (h : off + n ≤ dst.length) :
    (memcpy dst off src n).length = dst.length := by
  unfold memcpy
  simp only [List.length_append, List.length_take, List.length_drop, read_bytes_length]
  omega

theorem memcpy_drop (dst src : List Nat) (off n j : Nat) (h : off ≤ dst.length)
    (hj : off + n ≤ j) : (memcpy dst off src n).drop j = dst.drop j := by
  unfold memcpy
  have hl : (dst.take off ++ read_bytes src n).length = off + n := by
    simp only [List.length_append, List.length_take, read_bytes_length]
    omega
  rw [List.drop_append_eq_append_drop, List.drop_eq_nil_of_le (by omega), List.nil_append, hl,
    List.drop_drop]
  congr 1
  omega

theorem foldl_memcpy_length (src : List Nat) (width L : Nat) :
    ∀ (l : List Nat) (b : List Nat), (∀ i, i ∈ l → i * width + width ≤ L) → b.length = L →
      (l.foldl (fun b i => memcpy b (i * width) src width) b).length = L := by
  intro l
  induction l with
  | nil => intro b _ hb; exact hb
  | cons x rest ih =>
    intro b h hb
    simp only [List.foldl]
    apply ih
    · intro i hi
      exact h i (List.mem_cons_of_mem _ hi)
    · rw [memcpy_length _ _ _ _ (by rw [hb]; exact h x (List.mem_cons_self _ _))]
      exact hb

theorem reset_buffer_length (k : kernel) (buffer : List Nat) (value width count : Nat)
    (h : buffer.length = count * width) :
    (reset_buffer k buffer value width count).length = count * width := by
  unfold reset_buffer
  apply foldl_memcpy_length
  · intro i hi
    have hi2 : i < count := List.mem_range.1 hi
    calc i * width + width = (i + 1) * width := by rw [Nat.add_mul, Nat.one_mul]
      _ ≤ count * width := Nat.mul_le_mul_right _ hi2
  · exact h

theorem flush_metadata_sector_sizes (ent_dev : entanglement_device) (k : kernel)
    (h : buffer_sizes_in_range ent_dev) :
    buffer_sizes_in_range (flush_metadata ent_dev k BufferType.SECTOR).2.1 ∧
    ((flush_metadata ent_dev k BufferType.SECTOR).1 = 0 →
      (flush_metadata ent_dev k BufferType.SECTOR).2.1.sector_buffer_size = 0) := by
  obtain ⟨h1, h2, h3, h4, h5, h6⟩ := id h
  simp only [flush_metadata, if_true]
  by_cases c1 : k.outcome ≠ 0
  · rw [if_pos c1]
    exact ⟨h, fun e => absurd e (by simp [ENOMEM])⟩
  rw [if_neg c1]
  generalize ent_dev_rwSector k.tick _ _ rw_dir.WRITE = io
  by_cases c2 : io.1 ≠ 0
  · rw [if_pos c2]
    exact ⟨h, fun e => absurd e c2⟩
  rw [if_neg c2]
  refine ⟨⟨?_, ?_, h3, h4, ?_, h6⟩, fun _ => rfl⟩
  · rfl
  · dsimp only
    decide
  · dsimp only
    rw [reset_buffer_length _ _ _ _ _ (by rw [h5]; rfl)]
    rfl

theorem flush_metadata_checksum_sizes (ent_dev : entanglement_device) (k : kernel)
    (h : buffer_sizes_in_range ent_dev) :
    buffer_sizes_in_range (flush_metadata ent_dev k BufferType.CHECKSUM).2.1 ∧
    ((flush_metadata ent_dev k BufferType.CHECKSUM).1 = 0 →
      (flush_metadata ent_dev k BufferType.CHECKSUM).2.1.checksum_buffer_size = 0) := by
  obtain ⟨h1, h2, h3, h4, h5, h6⟩ := id h
  simp only [flush_metadata, reduceCtorEq, if_false]
  by_cases c1 : k.outcome ≠ 0
  · rw [if_pos c1]
    exact ⟨h, fun e => absurd e (by simp [ENOMEM])⟩
  rw [if_neg c1]
  generalize ent_dev_rwSector k.tick _ _ rw_dir.WRITE = io
  by_cases c2 : io.1 ≠ 0
  · rw [if_pos c2]
    exact ⟨h, fun e => absurd e c2⟩
  rw [if_neg c2]
  refine ⟨⟨h1, h2, ?_, ?_, h5, ?_⟩, fun _ => rfl⟩
  · rfl
  · dsimp only
    decide
  · dsimp only
    rw [reset_buffer_length _ _ _ _ _ (by rw [h6]; rfl)]
    rfl

theorem append_sector_sizes (dev : entanglement_device) (buffer : List Nat)
    (h : buffer_sizes_in_range dev) (hb : buffer.length = ENT_BLOCK_SIZE)
    (hs : dev.sector_buffer_size + SIZEOF_SECTOR_T < ENT_BLOCK_SIZE ∨ dev.sector_buffer_size = 0) :
    buffer_sizes_in_range { dev with
      block_sector_buffer := buffer
      sector_buffer_size := dev.sector_buffer_size + SIZEOF_SECTOR_T } := by
  obtain ⟨h1, h2, h3, h4, h5, h6⟩ := h
  refine ⟨?_, ?_, h3, h4, hb, h6⟩
  · simp only [SIZEOF_SECTOR_T] at h1 ⊢
    omega
  · simp only [SIZEOF_SECTOR_T, ENT_BLOCK_SIZE] at h1 hs ⊢
    omega

theorem append_checksum_sizes (dev : entanglement_device) (buffer : List Nat)
    (h : buffer_sizes_in_range dev) (hb : buffer.length = ENT_BLOCK_SIZE)
    (hs : dev.checksum_buffer_size + SIZEOF_UINT < ENT_BLOCK_SIZE ∨ dev.checksum_buffer_size = 0) :
    buffer_sizes_in_range { dev with
      block_checksum_buffer := buffer
      checksum_buffer_size := dev.checksum_buffer_size + SIZEOF_UINT } := by
  obtain ⟨h1, h2, h3, h4, h5, h6⟩ := h
  refine ⟨h1, h2, ?_, ?_, h5, hb⟩
  · simp only [SIZEOF_UINT] at h3 ⊢
    omega
  · simp only [SIZEOF_UINT, ENT_BLOCK_SIZE] at h3 hs ⊢
    omega

/-- What the four appends of `process_write_bio` have in common, stated for the append of
an address: the bounds are kept, the last slot of the buffer is the one of the buffer
before the append (or of the buffer the flush left), and the flush is made when the
buffer has no room for the entry plus one byte. -/
theorem append_data_sector_sizes (dev : entanglement_device) (k : kernel) (v : Nat)
    (h : buffer_sizes_in_range dev) :
    buffer_sizes_in_range (append_data_sector dev k v).2.1 ∧
    (append_data_sector dev k v).2.1.block_sector_buffer.drop (ENT_BLOCK_SIZE - SIZEOF_SECTOR_T) =
      (if dev.sector_buffer_size + SIZEOF_SECTOR_T < ENT_BLOCK_SIZE then dev
        else (flush_metadata dev k BufferType.SECTOR).2.1).block_sector_buffer.drop
          (ENT_BLOCK_SIZE - SIZEOF_SECTOR_T) ∧
    (ENT_BLOCK_SIZE ≤ dev.sector_buffer_size + SIZEOF_SECTOR_T →
      (append_data_sector dev k v).2.2 = (flush_metadata dev k BufferType.SECTOR).2.2) := by
  have hh := id h
  obtain ⟨h1, h2, h3, h4, h5, h6⟩ := hh
  unfold append_data_sector
  simp only []
  by_cases c : dev.sector_buffer_size + SIZEOF_SECTOR_T < ENT_BLOCK_SIZE
  · rw [if_pos c, if_pos c]
    have hle : dev.sector_buffer_size + SIZEOF_SECTOR_T ≤ dev.block_sector_buffer.length := by
      rw [h5]; exact h2
    refine ⟨?_, ?_, fun hc => absurd c (by omega)⟩
    · exact append_sector_sizes dev _ h (by rw [memcpy_length _ _ _ _ hle]; exact h5) (Or.inl c)
    · dsimp only
      apply memcpy_drop _ _ _ _ _ (by omega)
      simp only [SIZEOF_SECTOR_T, ENT_BLOCK_SIZE] at h1 c ⊢
      omega
  · rw [if_neg c, if_neg c]
    obtain ⟨f1, f2⟩ := flush_metadata_sector_sizes dev k h
    generalize flush_metadata dev k BufferType.SECTOR = f at f1 f2 ⊢
    by_cases cf : f.1 ≠ 0
    · rw [if_pos cf]
      exact ⟨f1, rfl, fun _ => rfl⟩
    · rw [if_neg cf]
      have hz := f2 (not_not.1 cf)
      have hlen := f1.2.2.2.2.1
      refine ⟨?_, ?_, fun _ => rfl⟩
      · exact append_sector_sizes f.2.1 _ f1
          (by rw [memcpy_length _ _ _ _ (by rw [hz, hlen]; decide)]; exact hlen) (Or.inr hz)
      · dsimp only
        apply memcpy_drop _ _ _ _ _ (by rw [hz]; exact Nat.zero_le _)
        rw [hz]
        decide

theorem append_parity_sector_sizes (dev : entanglement_device) (k : kernel) (v : Nat)
    (h : buffer_sizes_in_range dev) :
    buffer_sizes_in_range (append_parity_sector dev k v).2.1 ∧
    (append_parity_sector dev k v).2.1.block_sector_buffer.drop (ENT_BLOCK_SIZE - SIZEOF_SECTOR_T) =
      (if dev.sector_buffer_size + SIZEOF_SECTOR_T < ENT_BLOCK_SIZE then dev
        else (flush_metadata dev k BufferType.SECTOR).2.1).block_sector_buffer.drop
          (ENT_BLOCK_SIZE - SIZEOF_SECTOR_T) ∧
    (ENT_BLOCK_SIZE ≤ dev.sector_buffer_size + SIZEOF_SECTOR_T →
      (append_parity_sector dev k v).2.2 = (flush_metadata dev k BufferType.SECTOR).2.2) := by
  have hh := id h
  obtain ⟨h1, h2, h3, h4, h5, h6⟩ := hh
  unfold append_parity_sector
  simp only []
  by_cases c : dev.sector_buffer_size + SIZEOF_SECTOR_T < ENT_BLOCK_SIZE
  · rw [if_pos c, if_pos c]
    have hle : dev.sector_buffer_size + SIZEOF_SECTOR_T ≤ dev.block_sector_buffer.length := by
      rw [h5]; exact h2
    refine ⟨?_, ?_, fun hc => absurd c (by omega)⟩
    · exact append_sector_sizes dev _ h (by rw [memcpy_length _ _ _ _ hle]; exact h5) (Or.inl c)
    · dsimp only
      apply memcpy_drop _ _ _ _ _ (by omega)
      simp only [SIZEOF_SECTOR_T, ENT_BLOCK_SIZE] at h1 c ⊢
      omega
  · rw [if_neg c, if_neg c]
    obtain ⟨f1, f2⟩ := flush_metadata_sector_sizes dev k h
    generalize flush_metadata dev k BufferType.SECTOR = f at f1 f2 ⊢
    by_cases cf : f.1 ≠ 0
    · rw [if_pos cf]
      exact ⟨f1, rfl, fun _ => rfl⟩
    · rw [if_neg cf]
      have hz := f2 (not_not.1 cf)
      have hlen := f1.2.2.2.2.1
      refine ⟨?_, ?_, fun _ => rfl⟩
      · exact append_sector_sizes f.2.1 _ f1
          (by rw [memcpy_length _ _ _ _ (by rw [hz, hlen]; decide)]; exact hlen) (Or.inr hz)
      · dsimp only
        apply memcpy_drop _ _ _ _ _ (by rw [hz]; exact Nat.zero_le _)
        rw [hz]
        decide

theorem append_data_checksum_sizes (dev : entanglement_device) (k : kernel) (v : Nat)
    (h : buffer_sizes_in_range dev) :
    buffer_sizes_in_range (append_data_checksum dev k v).2.1 ∧
    (append_data_checksum dev k v).2.1.block_checksum_buffer.drop (ENT_BLOCK_SIZE - SIZEOF_UINT) =
      (if dev.checksum_buffer_size + SIZEOF_UINT < ENT_BLOCK_SIZE then dev
        else (flush_metadata dev k BufferType.CHECKSUM).2.1).block_checksum_buffer.drop
          (ENT_BLOCK_SIZE - SIZEOF_UINT) ∧
    (ENT_BLOCK_SIZE ≤ dev.checksum_buffer_size + SIZEOF_UINT →
      (append_data_checksum dev k v).2.2 = (flush_metadata dev k BufferType.CHECKSUM).2.2) := by
  have hh := id h
  obtain ⟨h1, h2, h3, h4, h5, h6⟩ := hh
  unfold append_data_checksum
  simp only []
  by_cases c : dev.checksum_buffer_size + SIZEOF_UINT < ENT_BLOCK_SIZE
  · rw [if_pos c, if_pos c]
    have hle : dev.checksum_buffer_size + SIZEOF_UINT ≤ dev.block_checksum_buffer.length := by
      rw [h6]; exact h4
    refine ⟨?_, ?_, fun hc => absurd c (by omega)⟩
    · exact append_checksum_sizes dev _ h (by rw [memcpy_length _ _ _ _ hle]; exact h6) (Or.inl c)
    · dsimp only
      apply memcpy_drop _ _ _ _ _ (by omega)
      simp only [SIZEOF_UINT, ENT_BLOCK_SIZE] at h3 c ⊢
      omega
  · rw [if_neg c, if_neg c]
    obtain ⟨f1, f2⟩ := flush_metadata_checksum_sizes dev k h
    generalize flush_metadata dev k BufferType.CHECKSUM = f at f1 f2 ⊢
    by_cases cf : f.1 ≠ 0
    · rw [if_pos cf]
      exact ⟨f1, rfl, fun _ => rfl⟩
    · rw [if_neg cf]
      have hz := f2 (not_not.1 cf)
      have hlen := f1.2.2.2.2.2
      refine ⟨?_, ?_, fun _ => rfl⟩
      · exact append_checksum_sizes f.2.1 _ f1
          (by rw [memcpy_length _ _ _ _ (by rw [hz, hlen]; decide)]; exact hlen) (Or.inr hz)
      · dsimp only
        apply memcpy_drop _ _ _ _ _ (by rw [hz]; exact Nat.zero_le _)
        rw [hz]
        decide

theorem append_parity_checksum_sizes (dev : entanglement_device) (k : kernel) (v : Nat)
    (h : buffer_sizes_in_range dev) :
    buffer_sizes_in_range (append_parity_checksum dev k v).2.1 ∧
    (append_parity_checksum dev k v).2.1.block_checksum_buffer.drop (ENT_BLOCK_SIZE - SIZEOF_UINT) =
      (if dev.checksum_buffer_size + SIZEOF_UINT < ENT_BLOCK_SIZE then dev
        else (flush_metadata dev k BufferType.CHECKSUM).2.1).block_checksum_buffer.drop
          (ENT_BLOCK_SIZE - SIZEOF_UINT) ∧
    (ENT_BLOCK_SIZE ≤ dev.checksum_buffer_size + SIZEOF_UINT →
      (append_parity_checksum dev k v).2.2 = (flush_metadata dev k BufferType.CHECKSUM).2.2) := by
  have hh := id h
  obtain ⟨h1, h2, h3, h4, h5, h6⟩ := hh
  unfold append_parity_checksum
  simp only []
  by_cases c : dev.checksum_buffer_size + SIZEOF_UINT < ENT_BLOCK_SIZE
  · rw [if_pos c, if_pos c]
    have hle : dev.checksum_buffer_size + SIZEOF_UINT ≤ dev.block_checksum_buffer.length := by
      rw [h6]; exact h4
    refine ⟨?_, ?_, fun hc => absurd c (by omega)⟩
    · exact append_checksum_sizes dev _ h (by rw [memcpy_length _ _ _ _ hle]; exact h6) (Or.inl c)
    · dsimp only
      apply memcpy_drop _ _ _ _ _ (by omega)
      simp only [SIZEOF_UINT, ENT_BLOCK_SIZE] at h3 c ⊢
      omega
  · rw [if_neg c, if_neg c]
    obtain ⟨f1, f2⟩ := flush_metadata_checksum_sizes dev k h
    generalize flush_metadata dev k BufferType.CHECKSUM = f at f1 f2 ⊢
    by_cases cf : f.1 ≠ 0
    · rw [if_pos cf]
      exact ⟨f1, rfl, fun _ => rfl⟩
    · rw [if_neg cf]
      have hz := f2 (not_not.1 cf)
      have hlen := f1.2.2.2.2.2
      refine ⟨?_, ?_, fun _ => rfl⟩
      · exact append_checksum_sizes f.2.1 _ f1
          (by rw [memcpy_length _ _ _ _ (by rw [hz, hlen]; decide)]; exact hlen) (Or.inr hz)
      · dsimp only
        apply memcpy_drop _ _ _ _ _ (by rw [hz]; exact Nat.zero_le _)
        rw [hz]
        decide

theorem append_metadata_sizes (dev : entanglement_device) (k : kernel)
    (ds dc ps pc : Nat) (h : buffer_sizes_in_range dev) :
    buffer_sizes_in_range (append_metadata dev k ds dc ps pc).2.1 := by
  unfold append_metadata
  simp only []
  have h1 := (append_data_sector_sizes dev k ds h).1
  generalize append_data_sector dev k ds = a1 at h1 ⊢
  have h2 := (append_data_checksum_sizes a1.2.1 a1.2.2 dc h1).1
  generalize append_data_checksum a1.2.1 a1.2.2 dc = a2 at h2 ⊢
  have h3 := (append_parity_sector_sizes a2.2.1 a2.2.2 ps h2).1
  generalize append_parity_sector a2.2.1 a2.2.2 ps = a3 at h3 ⊢
  have h4 := (append_parity_checksum_sizes a3.2.1 a3.2.2 pc h3).1
  generalize append_parity_checksum a3.2.1 a3.2.2 pc = a4 at h4 ⊢
  split_ifs
  · exact h1
  · exact h2
  · exact h3
  · exact h4

theorem process_write_bio_sizes (ent_dev : entanglement_device) (k : kernel) (b : bio)
    (h : buffer_sizes_in_range ent_dev) :
    buffer_sizes_in_range (process_write_bio ent_dev k b).2.1 := by
  unfold process_write_bio
  simp only []
  by_cases c1 : k.outcome ≠ 0
  · rw [if_pos c1]; exact h
  rw [if_neg c1]
  by_cases c2 : k.tick.outcome ≠ 0
  · rw [if_pos c2]; exact h
  rw [if_neg c2]
  by_cases c3 : k.tick.tick.outcome ≠ 0
  · rw [if_pos c3]; exact h
  rw [if_neg c3]
  by_cases c4 : k.tick.tick.tick.outcome ≠ 0
  · rw [if_pos c4]; exact h
  rw [if_neg c4]
  by_cases c5 : k.tick.tick.tick.tick.outcome ≠ 0
  · rw [if_pos c5]; exact h
  rw [if_neg c5]
  by_cases c6 : k.tick.tick.tick.tick.tick.outcome ≠ 0
  · rw [if_pos c6]; exact h
  rw [if_neg c6]
  by_cases c7 : k.tick.tick.tick.tick.tick.tick.outcome ≠ 0
  · rw [if_pos c7]; exact h
  rw [if_neg c7]
  by_cases c8 : k.tick.tick.tick.tick.tick.tick.tick.outcome ≠ 0
  · rw [if_pos c8]; exact h
  rw [if_neg c8]
  have hm := append_metadata_sizes
    { ent_dev with
      entanglement := (ent_dev.entanglement ++ [⟨b.bi_sector, crc32b b.data⟩]) ++
        [⟨b.bi_sector + ent_dev.write_sector_scale,
          crc32b (parity_buffer_of b.data ent_dev.last_entangled_block)⟩] }
    k.tick.tick.tick.tick.tick.tick.tick.tick b.bi_sector (crc32b b.data)
    (b.bi_sector + ent_dev.write_sector_scale)
    (crc32b (parity_buffer_of b.data ent_dev.last_entangled_block)) h
  generalize append_metadata _ _ _ _ _ _ = m at hm ⊢
  by_cases c9 : m.1 ≠ 0
  · rw [if_pos c9]
    exact hm
  · rw [if_neg c9]
    exact hm

theorem process_write_bios_sizes (bios : List bio) :
    ∀ (ent_dev : entanglement_device) (k : kernel), buffer_sizes_in_range ent_dev →
      buffer_sizes_in_range (process_write_bios ent_dev k bios).1 := by
  induction bios with
  | nil => intro ent_dev k h; exact h
  | cons b rest ih =>
    intro ent_dev k h
    simp only [process_write_bios]
    exact ih _ _ (process_write_bio_sizes ent_dev k b h)

/-! ## Lemmas on the checked functions -/

theorem list_entry_checked_of_lt (ent_dev : entanglement_device) (k : kernel) (pos : Nat)
    (h : pos < ent_dev.entanglement.length) :
    list_entry_checked ent_dev pos = some (list_entry ent_dev k pos) := by
  unfold list_entry_checked list_entry
  rw [List.getD_eq_getElem?_getD, List.getElem?_eq_getElem h]
  rfl

theorem flush_metadata_end_returned (ent_dev : entanglement_device) (k : kernel)
    (type : BufferType) (err : Int) (dev : entanglement_device) (k1 : kernel)
    (h : flush_metadata_end ent_dev k type = flush_end.returned err dev k1) :
    flush_metadata ent_dev k type = (err, dev, k1) := by
  unfold flush_metadata_end at h
  unfold flush_metadata
  simp only [] at h ⊢
  by_cases c1 : k.outcome ≠ 0
  · rw [if_pos c1] at h ⊢
    cases h
    rfl
  rw [if_neg c1] at h ⊢
  by_cases c2 : (ent_dev_rwSector k.tick
      (memcpy k.fresh_page 0
        (if type = BufferType.SECTOR then ent_dev.block_sector_buffer
          else ent_dev.block_checksum_buffer) ENT_BLOCK_SIZE)
      (if type = BufferType.SECTOR then ent_dev.next_sector else ent_dev.next_checksum)
      rw_dir.WRITE).1 ≠ 0
  · rw [if_pos c2] at h ⊢
    cases h
    rfl
  · rw [if_neg c2] at h
    cases h

theorem repair_block_rec_end_parity (ent_dev : entanglement_device) (k : kernel) (m : Nat)
    (hlen : ent_dev.entanglement.length = 2 * m) :
    ∀ (fuel i : Nat) (irr : Nat → Bool) (direction : RepairDirection), 2 * i + 1 < 2 * m →
      repair_block_rec_end fuel ent_dev k (2 * i + 1) irr direction =
        rec_end_of_result (repair_block_rec fuel ent_dev k (2 * i + 1) irr direction) := by
  intro fuel
  induction fuel with
  | zero => intro i irr direction _; rfl
  | succ fuel ih =>
    intro i irr direction hp
    have hthis := list_entry_checked_of_lt ent_dev k (2 * i + 1) (by omega)
    cases direction with
    | LEFT =>
      have e1 : list_prev ent_dev (2 * i + 1) = 2 * i := by simp [list_prev]
      have hdata := list_entry_checked_of_lt ent_dev k (2 * i) (by omega)
      simp only [repair_block_rec_end, repair_block_rec, hthis, e1, hdata]
      by_cases c1 : test_bit (list_entry ent_dev k (2 * i)).block_sector
          ent_dev.corrupted_blocks = true
      · rw [if_pos c1, if_pos c1]
        rfl
      rw [if_neg c1, if_neg c1]
      by_cases c2 : list_prev ent_dev (2 * i) = list_head ent_dev
      · rw [if_pos c2, if_pos c2]
        rfl
      rw [if_neg c2, if_neg c2]
      obtain ⟨j, rfl⟩ : ∃ j, i = j + 1 := by
        cases i with
        | zero => exact absurd (by simp [list_prev]) c2
        | succ j => exact ⟨j, rfl⟩
      have e2 : list_prev ent_dev (2 * (j + 1)) = 2 * j + 1 := by
        simp only [list_prev]
        rw [if_neg (by omega)]
        omega
      have hpar := list_entry_checked_of_lt ent_dev k (2 * j + 1) (by omega)
      simp only [e2, hpar]
      by_cases c3 : test_bit (list_entry ent_dev k (2 * j + 1)).block_sector
          ent_dev.corrupted_blocks = true
      · rw [if_pos c3, if_pos c3, ih j irr RepairDirection.LEFT (by omega)]
        cases repair_block_rec fuel ent_dev k (2 * j + 1) irr RepairDirection.LEFT with
        | none => rfl
        | some r =>
          simp only [rec_end_of_result]
          split_ifs <;> rfl
      · rw [if_neg c3, if_neg c3]
        rfl
    | RIGHT =>
      have e1 : list_next ent_dev (2 * i + 1) = 2 * i + 2 := by
        simp only [list_next, list_head]
        rw [if_neg (by omega)]
      simp only [repair_block_rec_end, repair_block_rec, hthis, e1]
      by_cases c1 : 2 * i + 2 = list_head ent_dev
      · rw [if_pos c1, if_pos c1]
        rfl
      rw [if_neg c1, if_neg c1]
      have hlt : 2 * i + 3 < 2 * m := by
        simp only [list_head] at c1
        omega
      have hdata := list_entry_checked_of_lt ent_dev k (2 * i + 2) (by omega)
      have e2 : list_next ent_dev (2 * i + 2) = 2 * (i + 1) + 1 := by
        simp only [list_next, list_head]
        rw [if_neg (by omega)]
        omega
      have hpar := list_entry_checked_of_lt ent_dev k (2 * (i + 1) + 1) (by omega)
      simp only [hdata, e2, hpar]
      by_cases c2 : test_bit (list_entry ent_dev k (2 * i + 2)).block_sector
          ent_dev.corrupted_blocks = true
      · rw [if_pos c2, if_pos c2]
        rfl
      rw [if_neg c2, if_neg c2]
      by_cases c3 : test_bit (list_entry ent_dev k (2 * (i + 1) + 1)).block_sector
          ent_dev.corrupted_blocks = true
      · rw [if_pos c3, if_pos c3, ih (i + 1) irr RepairDirection.RIGHT (by omega)]
        cases repair_block_rec fuel ent_dev k (2 * (i + 1) + 1) irr RepairDirection.RIGHT with
        | none => rfl
        | some r =>
          simp only [rec_end_of_result]
          split_ifs <;> rfl
      · rw [if_neg c3, if_neg c3]
        rfl

/-! ## Lemmas on the first writes of a chain -/

theorem lead_block_length (v : Nat) : (lead_block v).length = ENT_BLOCK_SIZE := by
  unfold lead_block
  rw [List.length_cons, List.length_replicate]
  rfl

theorem parity_buffer_of_zero_data (d t : List Nat) (ht : t.length = ENT_BLOCK_SIZE)
    (hd : ∀ i, i < ENT_BLOCK_SIZE → d.getD i 0 = 0) : parity_buffer_of d t = t := by
  apply eq_of_getD_eq _ _ ENT_BLOCK_SIZE (parity_buffer_of_length d t) ht
  intro i h
  rw [parity_buffer_of_getD d t i h, hd i h, Nat.zero_xor]

theorem first_write_links (ent_dev : entanglement_device) (k : kernel) (b : bio)
    (hempty : ent_dev.entanglement = [])
    (hzero : ∀ i, i < ENT_BLOCK_SIZE → ent_dev.last_entangled_block.getD i 0 = 0)
    (hlen : b.data.length = ENT_BLOCK_SIZE) (c : Nat) (hc : crc32b b.data = c)
    (h : (process_write_bio ent_dev k b).1 = 0) :
    (process_write_bio ent_dev k b).2.1.entanglement =
      [⟨b.bi_sector, c⟩, ⟨b.bi_sector + ent_dev.write_sector_scale, c⟩] := by
  rw [(process_write_bio_success ent_dev k b h).1, hempty,
    parity_buffer_of_zero_tail b.data ent_dev.last_entangled_block hlen hzero, hc]
  rfl

theorem second_write_entry (ent_dev : entanglement_device) (k : kernel) (b1 b2 : bio)
    (t : List Nat) (hs : writes_succeed ent_dev k [b1, b2] = true)
    (hscale : ent_dev.write_sector_scale = 0)
    (h1 : parity_buffer_of b1.data ent_dev.last_entangled_block = t)
    (h2 : parity_buffer_of b2.data t = t) :
    (process_write_bios ent_dev k [b1, b2]).1.sector_checksum_map b2.bi_sector = crc32b t := by
  simp only [writes_succeed, Bool.and_eq_true, decide_eq_true_eq, and_true] at hs
  obtain ⟨hw1, hw2⟩ := hs
  obtain ⟨_, htail, hwss, _⟩ := process_write_bio_success ent_dev k b1 hw1
  simp only [process_write_bios]
  rw [process_write_bio_map _ _ _ hw2, hwss, hscale, htail, h1, h2]
  simp

/-! ## Lemmas on `crc32b` reading behind a buffer -/

theorem crc32b_loop_append (d : List Nat) :
    ∀ (crc : Nat) (rest : List Nat), (∀ x, x ∈ d → x ≠ 0) →
      crc32b_loop crc (d ++ rest) = crc32b_loop (crc32_register crc d) rest := by
  induction d with
  | nil => intro crc rest _; rfl
  | cons x xs ih =>
    intro crc rest hd
    simp only [List.cons_append, crc32b_loop, crc32_register]
    rw [if_neg (hd x (List.mem_cons_self _ _))]
    exact ih _ _ (fun y hy => hd y (List.mem_cons_of_mem _ hy))

theorem crc32b_behind (d rest : List Nat) (r v : Nat) (hd : ∀ x, x ∈ d → x ≠ 0)
    (hr : crc32_register_strict 0xFFFFFFFF d = r) (hv : 0xFFFFFFFF - crc32b_loop r rest = v) :
    crc32b (d ++ rest) = v := by
  unfold crc32b
  rw [crc32b_loop_append d _ _ hd, ← crc32_register_strict_eq, hr, hv]

theorem fill_block_ne_zero (v : Nat) (hv : v ≠ 0) : ∀ x, x ∈ fill_block v → x ≠ 0 := by
  intro x hx
  unfold fill_block at hx
  rw [List.eq_of_mem_replicate hx]
  exact hv

/-! ## Claims -/

/-- C1. In `process_write_bio`, for a 4096-byte data payload `d` and a cached chain tail
`t`, the parity buffer is `d` itself when the first 4096 bytes of `t` are all zero, and
otherwise it is 4096 bytes long with byte `i` equal to `d[i] ^ t[i]` for every `i`. -/
theorem C1_parity_buffer (d t : List Nat) (hd : d.length = ENT_BLOCK_SIZE) :
    ((∀ i, i < ENT_BLOCK_SIZE → t.getD i 0 = 0) → parity_buffer_of d t = d) ∧
    (¬ (∀ i, i < ENT_BLOCK_SIZE → t.getD i 0 = 0) →
      (parity_buffer_of d t).length = ENT_BLOCK_SIZE ∧
      ∀ i, i < ENT_BLOCK_SIZE →
        (parity_buffer_of d t).getD i 0 = d.getD i 0 ^^^ t.getD i 0) := by
  constructor
  · intro h
    exact parity_buffer_of_zero_tail d t hd h
  · intro h
    refine ⟨parity_buffer_of_length d t, ?_⟩
    intro i hi
    unfold parity_buffer_of
    rw [if_neg (fun hc => h ((is_buffer_empty_ne_zero_iff t ENT_BLOCK_SIZE).1 hc))]
    exact xor_bytes_getD d t ENT_BLOCK_SIZE i hi

/-- Witness of C1: a payload of 4096 bytes `0x11` against an all-zero tail and against
a tail of 4096 bytes `0x0F`. -/
theorem C1_parity_buffer_witness :
    parity_buffer_of (fill_block 0x11) (fill_block 0) = fill_block 0x11 ∧
    (parity_buffer_of (fill_block 0x11) (fill_block 0x0F)).getD 5 0 = 0x11 ^^^ 0x0F :=
  ⟨(C1_parity_buffer (fill_block 0x11) (fill_block 0) (fill_block_length _)).1
      (fun i hi => fill_block_getD 0 i hi),
   by
    have h := ((C1_parity_buffer (fill_block 0x11) (fill_block 0x0F)
      (fill_block_length _)).2
      (fun hc => absurd ((fill_block_getD 0x0F 0 (by decide)).symm.trans
        (hc 0 (by decide))) (by decide))).2 5 (by decide)
    rw [fill_block_getD 0x11 5 (by decide), fill_block_getD 0x0F 5 (by decide)] at h
    exact h⟩

/-- C2. In a sequence of writes, when the last one is successful the chain-tail cache
`last_entangled_block` after it is, byte for byte, the parity buffer computed for it
from its data and the chain-tail cache it found. -/
theorem C2_tail_cache_is_parity (ent_dev : entanglement_device) (k : kernel)
    (bios : List bio) (b : bio)
    (h : (process_write_bio (process_write_bios ent_dev k bios).1
            (process_write_bios ent_dev k bios).2 b).1 = 0) :
    (process_write_bios ent_dev k (bios ++ [b])).1.last_entangled_block =
      parity_buffer_of b.data (process_write_bios ent_dev k bios).1.last_entangled_block := by
  rw [process_write_bios_append]
  exact (process_write_bio_success _ _ b h).2.1

/-- Witness of C2: one write of a block on the device built for 1024 blocks. -/
theorem C2_tail_cache_is_parity_witness :
    (process_write_bios device_1024 quiet_kernel ([] ++ [⟨0, fill_block 0x22⟩])).1.last_entangled_block =
      parity_buffer_of (fill_block 0x22)
        (process_write_bios device_1024 quiet_kernel []).1.last_entangled_block :=
  C2_tail_cache_is_parity device_1024 quiet_kernel [] ⟨0, fill_block 0x22⟩ (by decide!)

/-- C3, at the failing input: on the device built for 1024 blocks, whose chain is empty,
the write of the block of 4096 zero bytes at sector 8 succeeds and appends the two links
`(8, 0)` and `(8 + write_sector_scale, 0)`: two links, in this order, at these addresses,
but with the checksum 0 that `crc32b` gives for a block that starts with a zero byte,
while the CRC-32 of the payload is `0xC71C0011`.  For a payload without a zero byte,
`fill_block 0x22`, `crc32b` reads on behind the 4096 bytes: it gives 2245600781 when a
zero byte follows in memory and 3677452928 when the bytes 1 and 0 follow, so the checksum
of a link is not a function of its payload. -/
theorem C3_links_carry_checksum_zero :
    device_1024.entanglement = [] ∧
    (process_write_bio device_1024 quiet_kernel ⟨8, fill_block 0⟩).1 = 0 ∧
    (process_write_bio device_1024 quiet_kernel ⟨8, fill_block 0⟩).2.1.entanglement =
      [⟨8, 0⟩, ⟨8 + device_1024.write_sector_scale, 0⟩] ∧
    crc32_standard (fill_block 0) = 0xC71C0011 ∧
    crc32b (fill_block 0x22 ++ [0]) = 2245600781 ∧
    crc32b (fill_block 0x22 ++ [1, 0]) = 3677452928 :=
  ⟨rfl, by decide!,
    first_write_links device_1024 quiet_kernel ⟨8, fill_block 0⟩ rfl
      (fun i hi => fill_block_getD 0 i hi) (fill_block_length 0) 0 (by decide!) (by decide!),
    crc32_standard_of_register (fill_block 0) 0x38E3FFEE 0xC71C0011 (by decide!) (by decide),
    crc32b_behind (fill_block 0x22) [0] 2049366514 2245600781
      (fill_block_ne_zero 0x22 (by decide)) (by decide!) (by decide),
    crc32b_behind (fill_block 0x22) [1, 0] 2049366514 3677452928
      (fill_block_ne_zero 0x22 (by decide)) (by decide!) (by decide)⟩

/-- C4, at the failing input: on the device built for 1024 blocks, with a zeroed stale
pool page, a write of 4096 bytes `0x11` at sector 8 succeeds and the payload submitted
last, at the parity sector 515, has byte 7 equal to `0x11` but byte 8 equal to `0`,
while byte 8 of the parity buffer is `0x11`: only `sizeof(char *)` bytes of the parity
buffer reach the parity page. -/
theorem C4_parity_page_holds_eight_bytes :
    (process_write_bio device_1024 quiet_kernel ⟨8, fill_block 0x11⟩).1 = 0 ∧
    ((process_write_bio device_1024 quiet_kernel ⟨8, fill_block 0x11⟩).2.2.wlog.getLast?).map
      (fun e => (e.1, e.2.getD 7 0, e.2.getD 8 0)) = some (515, 0x11, 0) ∧
    (parity_buffer_of (fill_block 0x11) device_1024.last_entangled_block).getD 8 0 = 0x11 := by
  have hs : (process_write_bio device_1024 quiet_kernel ⟨8, fill_block 0x11⟩).1 = 0 := by
    decide!
  have hp : parity_buffer_of (fill_block 0x11) device_1024.last_entangled_block =
      fill_block 0x11 :=
    (parity_buffer_of_zero_tail (fill_block 0x11) (fill_block 0) (fill_block_length _)
      (fun i hi => fill_block_getD 0 i hi))
  obtain ⟨w, hw⟩ := (process_write_bio_success device_1024 quiet_kernel _ hs).2.2.2
  refine ⟨hs, ?_, ?_⟩
  · rw [hw, List.getLast?_append, hp]
    simp only [List.getLast?_cons_cons, List.getLast?_singleton, Option.or, Option.map,
      parity_page_of_getD]
    rw [if_pos (by decide), if_neg (by decide), fill_block_getD 0x11 7 (by decide),
      fresh_page_getD _ 8 (by decide)]
    rfl
  · rw [hp]
    exact fill_block_getD 0x11 8 (by decide)

/-- C5, at the failing input: for the block of 4096 zero bytes `crc32b` returns 0, because
its loop ends at the first zero byte, while the standard CRC-32 of these 4096 bytes is
`0xC71C0011`. -/
theorem C5_crc32b_of_zero_block :
    crc32b (fill_block 0) = 0 ∧ crc32_standard (fill_block 0) = 0xC71C0011 :=
  ⟨by decide!,
   crc32_standard_of_register (fill_block 0) 0x38E3FFEE 0xC71C0011 (by decide!) (by decide)⟩

/-- C6, at the failing input: on the chain of two writes the data link at position 2
(sector 8, recorded checksum `crc32b (lead_block 0x22)`) is the only corrupted link and
both its neighbours (sectors 507 and 515) hold their written payloads.  `repair_block`
sends one write, to sector 8 (`bi_sector` 64), whose first byte is `0` and whose
`crc32b` is `0`, and clears the bit of sector 8; the payload written originally has the
first byte `0x22`, equal to the XOR of the first bytes of its neighbours, and the
recorded checksum is not `0`. -/
theorem C6_repair_block_writes_left_xor_left :
    (repair_block 4 device_two_writes kernel_two_writes 2 (fun _ => false)).map
      (fun r => (r.k.wlog.map (fun e => (e.1, e.2.getD 0 0, crc32b e.2)),
        r.ent_dev.corrupted_blocks 8)) =
      some ([(8 * ENT_DEV_SECTOR_SCALE, 0, 0)], false) ∧
    list_entry device_two_writes kernel_two_writes 2 = ⟨8, crc32b (lead_block 0x22)⟩ ∧
    (lead_block 0x22).getD 0 0 = 0x22 ∧
    (kernel_two_writes.read_disk (507 * ENT_DEV_SECTOR_SCALE)).getD 0 0 ^^^
      (kernel_two_writes.read_disk (515 * ENT_DEV_SECTOR_SCALE)).getD 0 0 = 0x22 ∧
    crc32b (lead_block 0x22) ≠ 0 := by
  decide!

/-- C7, at the failing input: on the chain of three writes the data links at the
positions 2 and 4 (sectors 8 and 16) and the parity link between them (sector 515) are
marked corrupted.  `repair_corrupted_blocks` calls `repair_block` on both data links;
for the first it sends a write to sector 8 (`bi_sector` 64), clears its bit in the
corrupted bitmap and does not mark it irrecoverable; only the second is marked
irrecoverable and keeps its bit. -/
theorem C7_adjacent_corrupted_data_links :
    (repair_corrupted_blocks 4 device_three_writes quiet_kernel).map
      (fun r => (r.repaired_positions, r.res.k.wlog.map Prod.fst,
        r.res.irrecoverable_blocks_bitmap 8, r.res.ent_dev.corrupted_blocks 8,
        r.res.irrecoverable_blocks_bitmap 16, r.res.ent_dev.corrupted_blocks 16)) =
      some ([2, 4], [8 * ENT_DEV_SECTOR_SCALE], false, false, true, true) := by
  decide!

/-- C8, at the failing input: on the chain of three writes with only the parity link at
position 1 (sector 507) marked corrupted, the next data link (sector 8) and the parity
link beyond it (sector 515) are uncorrupted and every service succeeds, yet
`repair_block_rec` towards the right returns `IRRECOVERABLE`, sends no write to the
device, leaves the bit of sector 507 set in the corrupted bitmap and sets it in the
irrecoverable bitmap. -/
theorem C8_rec_gives_up_on_sound_neighbours :
    (repair_block_rec 4 device_parity_corrupted quiet_kernel 1 (fun _ => false)
        RepairDirection.RIGHT).map
      (fun r => (r.1, r.2.k.wlog.map Prod.fst, r.2.ent_dev.corrupted_blocks 507,
        r.2.irrecoverable_blocks_bitmap 507)) =
      some (RepairState.IRRECOVERABLE, [], true, true) ∧
    device_parity_corrupted.corrupted_blocks 8 = false ∧
    device_parity_corrupted.corrupted_blocks 515 = false := by
  decide!

/-- C9. When `repair_block` has resolved the neighbours of a link and the state of the
left or of the right neighbour is `IRRECOVERABLE`, it returns with the bit of the link
set in the irrecoverable bitmap; nothing was written to the underlying device, so
nothing at the address of the link, and the corrupted bitmap is the one it was called
with, so the bit of the link is still set if it was. -/
theorem C9_irrecoverable_neighbour (fuel : Nat) (ent_dev : entanglement_device) (k : kernel)
    (block : Nat) (irrecoverable_blocks_bitmap : Nat → Bool) (n : neighbour_states)
    (hn : repair_block_neighbours fuel ent_dev k block irrecoverable_blocks_bitmap = some n)
    (h : n.left_state = RepairState.IRRECOVERABLE ∨
      n.right_state = RepairState.IRRECOVERABLE) :
    ∃ r, repair_block fuel ent_dev k block irrecoverable_blocks_bitmap = some r ∧
      test_bit (list_entry ent_dev k block).block_sector r.irrecoverable_blocks_bitmap = true ∧
      r.k.wlog = k.wlog ∧ r.k.disk = k.disk ∧
      r.ent_dev.corrupted_blocks = ent_dev.corrupted_blocks ∧
      (test_bit (list_entry ent_dev k block).block_sector ent_dev.corrupted_blocks = true →
        test_bit (list_entry ent_dev k block).block_sector r.ent_dev.corrupted_blocks = true) := by
  obtain ⟨e1, e2⟩ := repair_block_neighbours_frame fuel ent_dev k block _ n hn
  refine ⟨⟨n.res.ent_dev, n.res.k,
    bitmap_set n.res.irrecoverable_blocks_bitmap (list_entry ent_dev k block).block_sector⟩,
    ?_, ?_, ?_, ?_, ?_, ?_⟩
  · unfold repair_block
    rw [hn]
    simp only []
    rw [if_pos h]
  · simp [test_bit, bitmap_set]
  · simp [e2]
  · simp [e2]
  · simp [e1]
  · intro hc
    simpa [e1] using hc

/-- Witness of C9: the data link at position 4 of the chain of three writes, whose left
neighbour (sector 515) is corrupted and cannot be resolved. -/
theorem C9_irrecoverable_neighbour_witness :
    ∃ r, repair_block 4 device_three_writes quiet_kernel 4 (fun _ => false) = some r ∧
      test_bit (list_entry device_three_writes quiet_kernel 4).block_sector
        r.irrecoverable_blocks_bitmap = true ∧
      r.k.wlog = quiet_kernel.wlog ∧ r.k.disk = quiet_kernel.disk ∧
      r.ent_dev.corrupted_blocks = device_three_writes.corrupted_blocks ∧
      (test_bit (list_entry device_three_writes quiet_kernel 4).block_sector
          device_three_writes.corrupted_blocks = true →
        test_bit (list_entry device_three_writes quiet_kernel 4).block_sector
          r.ent_dev.corrupted_blocks = true) :=
  C9_irrecoverable_neighbour 4 device_three_writes quiet_kernel 4 (fun _ => false) _ rfl
    (Or.inl rfl)

/-- C10, at the failing input: on the device built for 2048 blocks the parity link of
the first write lies at the even sector 1022, at chain position 1.  When it is marked
corrupted, `repair_corrupted_blocks` calls `repair_block` on it. -/
theorem C10_repair_block_called_on_parity_link :
    (repair_corrupted_blocks 4 device_2048_one_write quiet_kernel).map
      (fun r => r.repaired_positions) = some [1] ∧
    list_entry device_2048_one_write quiet_kernel 1 =
      ⟨0 + device_2048_one_write.write_sector_scale, 3098726271⟩ := by
  decide!

/-- C11, at the failing input: on the device built for 1024 blocks (`metadata_size` 3)
the checksum map holds the checksum `crc32b (lead_block 0x22)` for sector 8 and the
block stored there has another `crc32b`.  The scan of `check_corruption` ends without a
read error and the bit of sector 8 is not set: the scan starts at sector 3 and advances
by two sectors, so it never visits sector 8. -/
theorem C11_scan_skips_sector :
    (check_corruption_before_repair device_before_scan kernel_two_writes).1 = 0 ∧
    (check_corruption_before_repair device_before_scan
      kernel_two_writes).2.1.corrupted_blocks 8 = false ∧
    8 < device_before_scan.dev_size ∧
    device_before_scan.sector_checksum_map 8 = crc32b (lead_block 0x22) ∧
    device_before_scan.sector_checksum_map 8 ≠ 0 ∧
    crc32b (kernel_two_writes.read_disk (8 * ENT_DEV_SECTOR_SCALE)) ≠
      device_before_scan.sector_checksum_map 8 := by
  decide!

/-- C12, at the failing input: on the device built for 1024 blocks, with every byte of
the underlying device `0xFF`, one write of `lead_block 0x22` at sector 8 succeeds and
leaves the two links with the addresses 8 and 515; `store_entanglement_and_checksums`
succeeds; `load_entanglement_and_checksums` on a fresh device of the same layout then
succeeds and yields a chain of 1024 links, not the 2 links that were written. -/
theorem C12_round_trip_restores_other_chain :
    (process_write_bio device_1024 kernel_sentinel ⟨8, lead_block 0x22⟩).1 = 0 ∧
    (process_write_bio device_1024 kernel_sentinel ⟨8, lead_block 0x22⟩).2.1.entanglement.map
      entangled_block.block_sector = [8, 515] ∧
    (store_entanglement_and_checksums
      (process_write_bio device_1024 kernel_sentinel ⟨8, lead_block 0x22⟩).2.1
      (process_write_bio device_1024 kernel_sentinel ⟨8, lead_block 0x22⟩).2.2).1 = 0 ∧
    (load_entanglement_and_checksums device_1024
      (store_entanglement_and_checksums
        (process_write_bio device_1024 kernel_sentinel ⟨8, lead_block 0x22⟩).2.1
        (process_write_bio device_1024 kernel_sentinel ⟨8, lead_block 0x22⟩).2.2).2.2).1 = 0 ∧
    (load_entanglement_and_checksums device_1024
      (store_entanglement_and_checksums
        (process_write_bio device_1024 kernel_sentinel ⟨8, lead_block 0x22⟩).2.1
        (process_write_bio device_1024 kernel_sentinel ⟨8, lead_block 0x22⟩).2.2).2.2
      ).2.1.entanglement.length = 1024 := by
  have hw : (process_write_bio device_1024 kernel_sentinel ⟨8, lead_block 0x22⟩).1 = 0 := by
    decide!
  have hl := load_spec device_1024
    (store_entanglement_and_checksums
      (process_write_bio device_1024 kernel_sentinel ⟨8, lead_block 0x22⟩).2.1
      (process_write_bio device_1024 kernel_sentinel ⟨8, lead_block 0x22⟩).2.2).2.2
  have h0 := hl.2.2.1 (fun n => rfl)
  refine ⟨hw, ?_, by decide!, h0, ?_⟩
  · rw [(process_write_bio_success _ _ _ hw).1]
    rfl
  · rw [(hl.2.2.2 h0).1]
    rfl

/-- C13, at the failing input: every byte of the journal is `0xFF`, so its first slot
holds the sentinel.  `load_entanglement_and_checksums` on the device built for 1024
blocks (two address-journal blocks) returns 0 and has appended 1024 links, the first of
them with the address 255 and the checksum 255: no slot ends the scan, and a link
carries one byte of its slot. -/
theorem C13_load_never_stops_at_sentinel :
    (load_entanglement_and_checksums device_1024 kernel_sentinel).1 = 0 ∧
    (load_entanglement_and_checksums device_1024 kernel_sentinel).2.1.entanglement.length =
      1024 ∧
    (load_entanglement_and_checksums device_1024 kernel_sentinel).2.1.entanglement.head? =
      some ⟨255, 255⟩ := by
  have hl := load_spec device_1024 kernel_sentinel
  have h0 := hl.2.2.1 (fun n => rfl)
  obtain ⟨hlen, _, hhead⟩ := hl.2.2.2 h0
  refine ⟨h0, ?_, ?_⟩
  · rw [hlen]
    rfl
  · rw [hhead rfl (by decide)]
    have e1 : u8_at (kernel_sentinel.read_disk
        (device_1024.metadata_start_sector * ENT_DEV_SECTOR_SCALE)) 0 = 255 := by decide!
    have e2 : u8_at (kernel_sentinel.read_disk
        (device_1024.metadata_sector_size * ENT_DEV_SECTOR_SCALE)) 0 = 255 := by decide!
    rw [e1, e2]

/-- C14, at the failing input: the same load as for C13 returns 0 and restores links
with the address 255 and the checksum 255, but the entry of the checksum map for the
address 255 is still 0: `load_entanglement_and_checksums` never writes to
`sector_checksum_map`. -/
theorem C14_load_leaves_checksum_map :
    (load_entanglement_and_checksums device_1024 kernel_sentinel).1 = 0 ∧
    (load_entanglement_and_checksums device_1024 kernel_sentinel).2.1.entanglement.head? =
      some ⟨255, 255⟩ ∧
    (load_entanglement_and_checksums device_1024 kernel_sentinel).2.1.sector_checksum_map 255 =
      0 := by
  have hl := load_spec device_1024 kernel_sentinel
  have h0 := hl.2.2.1 (fun n => rfl)
  obtain ⟨_, _, hhead⟩ := hl.2.2.2 h0
  refine ⟨h0, ?_, ?_⟩
  · rw [hhead rfl (by decide)]
    have e1 : u8_at (kernel_sentinel.read_disk
        (device_1024.metadata_start_sector * ENT_DEV_SECTOR_SCALE)) 0 = 255 := by decide!
    have e2 : u8_at (kernel_sentinel.read_disk
        (device_1024.metadata_sector_size * ENT_DEV_SECTOR_SCALE)) 0 = 255 := by decide!
    rw [e1, e2]
  · rw [hl.1]
    rfl

/-- C15. When `entanglement_tgt_ctr` succeeds for a `device_size` with
`device_size * 3 < 2^32`, the device it hands over has `metadata_size =
device_size * 3 / 1024`, `metadata_sector_size = metadata_size * 2 / 3` and
`metadata_checksum_size = metadata_size / 3` (integer divisions); for `device_size =
1024` the layout computed at lines 605-611 has the sizes 3, 2 and 1. -/
theorem C15_metadata_sizes (fuel : Nat) (k : kernel) (dev_path : String)
    (device_size : Nat) (redundancy_flag : Int) (r : Int × entanglement_device × kernel)
    (hd : device_size * 3 < 2 ^ 32)
    (h : entanglement_tgt_ctr fuel k 3 dev_path device_size redundancy_flag = some r)
    (h0 : r.1 = 0) :
    (r.2.1.metadata_size = device_size * 3 / 1024 ∧
      r.2.1.metadata_sector_size = r.2.1.metadata_size * 2 / 3 ∧
      r.2.1.metadata_checksum_size = r.2.1.metadata_size / 3) ∧
    ((entanglement_tgt_ctr_layout 1024).metadata_size = 3 ∧
      (entanglement_tgt_ctr_layout 1024).metadata_sector_size = 2 ∧
      (entanglement_tgt_ctr_layout 1024).metadata_checksum_size = 1) := by
  have hk := entanglement_tgt_ctr_layout_kept fuel k dev_path device_size redundancy_flag r h h0
  simp only [device_layout, Prod.mk.injEq] at hk
  obtain ⟨_, e1, e2, e3⟩ := entanglement_tgt_ctr_layout_small device_size hd
  refine ⟨⟨?_, ?_, ?_⟩, by decide⟩
  · rw [hk.2.1, e1]
  · rw [hk.2.2.1, hk.2.1, e2, e1]
  · rw [hk.2.2.2.1, hk.2.1, e3, e1]

/-- Witness of C15: the activation for 1024 blocks without the redundancy flag hands
over the sizes 3, 2 and 1. -/
theorem C15_metadata_sizes_witness :
    ∃ r, entanglement_tgt_ctr 4 quiet_kernel 3 "/dev/sdb" 1024 0 = some r ∧ r.1 = 0 ∧
      r.2.1.metadata_size = 3 ∧ r.2.1.metadata_sector_size = 2 ∧
      r.2.1.metadata_checksum_size = 1 := by
  refine ⟨_, rfl, rfl, ?_⟩
  obtain ⟨a, b, c⟩ :=
    (C15_metadata_sizes 4 quiet_kernel "/dev/sdb" 1024 0 _ (by decide) rfl rfl).1
  rw [a] at b c
  exact ⟨a.trans (by decide), b.trans (by decide), c.trans (by decide)⟩

/-- C16. For a `device_size` below 2^32, every successful `entanglement_tgt_ctr`,
whatever the device path, the redundancy flag and the kernel, hands over the same
`metadata_start_sector` and the same `write_sector_scale`: `metadata_start_sector` is
`8 * ((device_size - metadata_size) / 2 / 8)`, a multiple of 8 that lies at most 7
blocks below the midpoint `(device_size - metadata_size) / 2` of the region without the
metadata, and `write_sector_scale` is `metadata_start_sector + metadata_size`. -/
theorem C16_layout_from_device_size (fuel1 fuel2 : Nat) (k1 k2 : kernel)
    (dev_path1 dev_path2 : String) (device_size : Nat) (redundancy_flag1 redundancy_flag2 : Int)
    (r1 r2 : Int × entanglement_device × kernel)
    (hd : device_size < 2 ^ 32)
    (h1 : entanglement_tgt_ctr fuel1 k1 3 dev_path1 device_size redundancy_flag1 = some r1)
    (h01 : r1.1 = 0)
    (h2 : entanglement_tgt_ctr fuel2 k2 3 dev_path2 device_size redundancy_flag2 = some r2)
    (h02 : r2.1 = 0) :
    r1.2.1.metadata_start_sector = r2.2.1.metadata_start_sector ∧
    r1.2.1.write_sector_scale = r2.2.1.write_sector_scale ∧
    r1.2.1.metadata_size ≤ device_size ∧
    r1.2.1.metadata_start_sector = 8 * ((device_size - r1.2.1.metadata_size) / 2 / 8) ∧
    r1.2.1.metadata_start_sector % 8 = 0 ∧
    r1.2.1.metadata_start_sector ≤ (device_size - r1.2.1.metadata_size) / 2 ∧
    (device_size - r1.2.1.metadata_size) / 2 < r1.2.1.metadata_start_sector + 8 ∧
    r1.2.1.write_sector_scale = r1.2.1.metadata_start_sector + r1.2.1.metadata_size := by
  have hk1 := entanglement_tgt_ctr_layout_kept fuel1 k1 dev_path1 device_size redundancy_flag1
    r1 h1 h01
  have hk2 := entanglement_tgt_ctr_layout_kept fuel2 k2 dev_path2 device_size redundancy_flag2
    r2 h2 h02
  simp only [device_layout, Prod.mk.injEq] at hk1 hk2
  obtain ⟨e1, e2, e3⟩ := entanglement_tgt_ctr_layout_start device_size hd
  rw [← hk1.2.1] at e1 e2 e3
  rw [← hk1.2.2.2.2.1] at e2 e3
  rw [← hk1.2.2.2.2.2] at e3
  refine ⟨hk1.2.2.2.2.1.trans hk2.2.2.2.2.1.symm, hk1.2.2.2.2.2.trans hk2.2.2.2.2.2.symm,
    e1, e2, ?_, ?_, ?_, e3⟩ <;> omega

/-- Witness of C16: two activations for 1024 blocks, with different device paths and
kernels. -/
theorem C16_layout_from_device_size_witness :
    ∃ r1 r2, entanglement_tgt_ctr 4 quiet_kernel 3 "/dev/sdb" 1024 0 = some r1 ∧
      entanglement_tgt_ctr 2 kernel_sentinel 3 "/dev/loop0" 1024 0 = some r2 ∧
      r1.2.1.metadata_start_sector = r2.2.1.metadata_start_sector ∧
      r1.2.1.write_sector_scale = r2.2.1.write_sector_scale ∧
      r1.2.1.metadata_size ≤ 1024 ∧
      r1.2.1.metadata_start_sector = 8 * ((1024 - r1.2.1.metadata_size) / 2 / 8) ∧
      r1.2.1.metadata_start_sector % 8 = 0 ∧
      r1.2.1.metadata_start_sector ≤ (1024 - r1.2.1.metadata_size) / 2 ∧
      (1024 - r1.2.1.metadata_size) / 2 < r1.2.1.metadata_start_sector + 8 ∧
      r1.2.1.write_sector_scale = r1.2.1.metadata_start_sector + r1.2.1.metadata_size :=
  ⟨_, _, rfl, rfl,
    C16_layout_from_device_size 4 2 quiet_kernel kernel_sentinel "/dev/sdb" "/dev/loop0" 1024
      0 0 _ _ (by decide) rfl rfl rfl rfl⟩

/-- C17. When `entanglement_tgt_ctr` succeeds for a `device_size` with
`device_size * 3 < 2^32`, then for every data address `A` below `metadata_start_sector`
the parity address `A + write_sector_scale` that `process_write_bio` uses lies in
`[metadata_start_sector + metadata_size, device_size)`; so it is no data address below
`metadata_start_sector` and no journal block of
`[metadata_start_sector, metadata_start_sector + metadata_size)`. -/
theorem C17_parity_address_range (fuel : Nat) (k : kernel) (dev_path : String)
    (device_size : Nat) (redundancy_flag : Int) (r : Int × entanglement_device × kernel)
    (A : Nat) (hd : device_size * 3 < 2 ^ 32)
    (h : entanglement_tgt_ctr fuel k 3 dev_path device_size redundancy_flag = some r)
    (h0 : r.1 = 0) (hA : A < r.2.1.metadata_start_sector) :
    r.2.1.metadata_start_sector + r.2.1.metadata_size ≤ A + r.2.1.write_sector_scale ∧
    A + r.2.1.write_sector_scale < device_size ∧
    (∀ B, B < r.2.1.metadata_start_sector → A + r.2.1.write_sector_scale ≠ B) ∧
    (∀ J, r.2.1.metadata_start_sector ≤ J →
      J < r.2.1.metadata_start_sector + r.2.1.metadata_size →
      A + r.2.1.write_sector_scale ≠ J) := by
  have hk := entanglement_tgt_ctr_layout_kept fuel k dev_path device_size redundancy_flag r h h0
  simp only [device_layout, Prod.mk.injEq] at hk
  obtain ⟨e1, e2, e3⟩ := entanglement_tgt_ctr_layout_start device_size (by omega)
  rw [← hk.2.1] at e1 e2 e3
  rw [← hk.2.2.2.2.1] at e2 e3
  rw [← hk.2.2.2.2.2] at e3
  refine ⟨by omega, by omega, fun B hB => by omega, fun J h1 h2 => by omega⟩

/-- Witness of C17: the data address 8 on the device activated for 1024 blocks. -/
theorem C17_parity_address_range_witness :
    ∃ r, entanglement_tgt_ctr 4 quiet_kernel 3 "/dev/sdb" 1024 0 = some r ∧ r.1 = 0 ∧
      8 < r.2.1.metadata_start_sector ∧
      r.2.1.metadata_start_sector + r.2.1.metadata_size ≤ 8 + r.2.1.write_sector_scale ∧
      8 + r.2.1.write_sector_scale < 1024 ∧
      (∀ B, B < r.2.1.metadata_start_sector → 8 + r.2.1.write_sector_scale ≠ B) ∧
      (∀ J, r.2.1.metadata_start_sector ≤ J →
        J < r.2.1.metadata_start_sector + r.2.1.metadata_size →
        8 + r.2.1.write_sector_scale ≠ J) :=
  ⟨_, rfl, rfl, by decide,
    C17_parity_address_range 4 quiet_kernel "/dev/sdb" 1024 0 _ 8 (by decide) rfl rfl
      (by decide)⟩

/-- C18, at the failing input: on the device built for 1024 blocks with 4088 bytes
pending in the address buffer, every kernel service succeeding, `flush_metadata(SECTOR)`
writes the page at the old `next_sector` and then ends in the fault of the first `memcpy`
of its reset loop: it does not return, and the device is the one before the call, with
the address buffer not reset, `sector_buffer_size` still 4088 and `next_sector` not
advanced.  `flush_metadata(CHECKSUM)` ends in the same way on the device with 4092
bytes pending in the checksum buffer. -/
theorem C18_flush_faults_in_reset_loop :
    (∃ k1, flush_metadata_end device_sector_buffer_full quiet_kernel BufferType.SECTOR =
        flush_end.fault device_sector_buffer_full k1 ∧
      k1.wlog.map Prod.fst = [device_sector_buffer_full.next_sector * ENT_DEV_SECTOR_SCALE]) ∧
    device_sector_buffer_full.sector_buffer_size = 4088 ∧
    (∃ k1, flush_metadata_end device_checksum_buffer_full quiet_kernel BufferType.CHECKSUM =
        flush_end.fault device_checksum_buffer_full k1 ∧
      k1.wlog.map Prod.fst =
        [device_checksum_buffer_full.next_checksum * ENT_DEV_SECTOR_SCALE]) ∧
    device_checksum_buffer_full.checksum_buffer_size = 4092 :=
  ⟨⟨_, rfl, by decide!⟩, rfl, ⟨_, rfl, by decide!⟩, rfl⟩

/-- C19. Whenever `process_write_bio` returns a non-zero error, the chain is the chain
before the call, link for link, and the chain-tail cache and the checksum map are those
before the call. -/
theorem C19_failed_write_keeps_chain (ent_dev : entanglement_device) (k : kernel) (b : bio)
    (h : (process_write_bio ent_dev k b).1 ≠ 0) :
    (process_write_bio ent_dev k b).2.1.entanglement = ent_dev.entanglement ∧
    (process_write_bio ent_dev k b).2.1.last_entangled_block = ent_dev.last_entangled_block ∧
    (process_write_bio ent_dev k b).2.1.sector_checksum_map = ent_dev.sector_checksum_map := by
  unfold process_write_bio at h ⊢
  simp only [] at h ⊢
  by_cases c1 : k.outcome ≠ 0
  · rw [if_pos c1]; exact ⟨rfl, rfl, rfl⟩
  rw [if_neg c1] at h ⊢
  by_cases c2 : k.tick.outcome ≠ 0
  · rw [if_pos c2]; exact ⟨rfl, rfl, rfl⟩
  rw [if_neg c2] at h ⊢
  by_cases c3 : k.tick.tick.outcome ≠ 0
  · rw [if_pos c3]; exact ⟨rfl, rfl, rfl⟩
  rw [if_neg c3] at h ⊢
  by_cases c4 : k.tick.tick.tick.outcome ≠ 0
  · rw [if_pos c4]; exact ⟨rfl, rfl, rfl⟩
  rw [if_neg c4] at h ⊢
  by_cases c5 : k.tick.tick.tick.tick.outcome ≠ 0
  · rw [if_pos c5]; exact ⟨rfl, rfl, rfl⟩
  rw [if_neg c5] at h ⊢
  by_cases c6 : k.tick.tick.tick.tick.tick.outcome ≠ 0
  · rw [if_pos c6]; exact ⟨rfl, rfl, rfl⟩
  rw [if_neg c6] at h ⊢
  by_cases c7 : k.tick.tick.tick.tick.tick.tick.outcome ≠ 0
  · rw [if_pos c7]; exact ⟨rfl, rfl, rfl⟩
  rw [if_neg c7] at h ⊢
  by_cases c8 : k.tick.tick.tick.tick.tick.tick.tick.outcome ≠ 0
  · rw [if_pos c8]; exact ⟨rfl, rfl, rfl⟩
  rw [if_neg c8] at h ⊢
  have hm := append_metadata_chain
    { ent_dev with
      entanglement := (ent_dev.entanglement ++ [⟨b.bi_sector, crc32b b.data⟩]) ++
        [⟨b.bi_sector + ent_dev.write_sector_scale,
          crc32b (parity_buffer_of b.data ent_dev.last_entangled_block)⟩] }
    k.tick.tick.tick.tick.tick.tick.tick.tick b.bi_sector (crc32b b.data)
    (b.bi_sector + ent_dev.write_sector_scale)
    (crc32b (parity_buffer_of b.data ent_dev.last_entangled_block))
  have hc := append_metadata_cache
    { ent_dev with
      entanglement := (ent_dev.entanglement ++ [⟨b.bi_sector, crc32b b.data⟩]) ++
        [⟨b.bi_sector + ent_dev.write_sector_scale,
          crc32b (parity_buffer_of b.data ent_dev.last_entangled_block)⟩] }
    k.tick.tick.tick.tick.tick.tick.tick.tick b.bi_sector (crc32b b.data)
    (b.bi_sector + ent_dev.write_sector_scale)
    (crc32b (parity_buffer_of b.data ent_dev.last_entangled_block))
  generalize append_metadata _ _ _ _ _ _ = m at h hm hc ⊢
  by_cases c9 : m.1 ≠ 0
  · rw [if_pos c9]
    refine ⟨?_, hc.1, hc.2⟩
    simp only [err_metadata_flush]
    rw [hm.1]
    simp
  · rw [if_neg c9] at h
    exact absurd rfl h

/-- Witness of C19: the write whose checksum flush fails on the device with a full
checksum buffer. -/
theorem C19_failed_write_keeps_chain_witness :
    (process_write_bio device_checksum_buffer_full kernel_flush_write_fails
      ⟨8, lead_block 0x22⟩).2.1.entanglement = device_checksum_buffer_full.entanglement ∧
    (process_write_bio device_checksum_buffer_full kernel_flush_write_fails
      ⟨8, lead_block 0x22⟩).2.1.last_entangled_block =
        device_checksum_buffer_full.last_entangled_block ∧
    (process_write_bio device_checksum_buffer_full kernel_flush_write_fails
      ⟨8, lead_block 0x22⟩).2.1.sector_checksum_map =
        device_checksum_buffer_full.sector_checksum_map :=
  C19_failed_write_keeps_chain device_checksum_buffer_full kernel_flush_write_fails
    ⟨8, lead_block 0x22⟩ (by decide!)

/-- C20, at the failing input: on the device built for 1024 blocks with 16 bytes pending
in the address buffer and 4092 bytes pending in the checksum buffer, a write at sector 8
appends its data sector to the address buffer and then has to flush the checksum
buffer; the device write inside `flush_metadata` fails with the error -5.
`process_write_bio` returns this error and leaves `sector_buffer_size` at 24, with the
address 8 of the failed write in the address buffer: it stays pending. -/
theorem C20_failed_write_keeps_pending_address :
    (process_write_bio device_checksum_buffer_full kernel_flush_write_fails
      ⟨8, lead_block 0x22⟩).1 = -5 ∧
    device_checksum_buffer_full.sector_buffer_size = 16 ∧
    (process_write_bio device_checksum_buffer_full kernel_flush_write_fails
      ⟨8, lead_block 0x22⟩).2.1.sector_buffer_size = 24 ∧
    ((process_write_bio device_checksum_buffer_full kernel_flush_write_fails
      ⟨8, lead_block 0x22⟩).2.1.block_sector_buffer.drop 16).take 8 =
        le_bytes 8 SIZEOF_SECTOR_T := by
  decide!

/-- C21, at the failing input: `entanglement_tgt_ctr` for 1024 blocks without the
redundancy flag returns 0 and hands over `next_sector = 0` and `next_checksum = 0`, while
the address journal starts at `metadata_start_sector = 504`; the first
`flush_metadata(SECTOR)` in that state writes at the block 0 of the device, a data
address.  With the journal loaded (as the redundancy flag asks for), `next_sector` is
`metadata_start_sector + metadata_sector_size = 506`, the first block behind the address
journal. -/
theorem C21_journal_pointers_outside_journal :
    ((entanglement_tgt_ctr 4 quiet_kernel 3 "/dev/sdb" 1024 0).map
      (fun r => (r.1, r.2.1.next_sector, r.2.1.next_checksum, r.2.1.metadata_start_sector,
        r.2.1.metadata_sector_size, r.2.1.metadata_checksum_size))) =
      some (0, 0, 0, 504, 2, 1) ∧
    ((entanglement_tgt_ctr 4 quiet_kernel 3 "/dev/sdb" 1024 0).map
      (fun r => ((flush_metadata r.2.1 r.2.2 BufferType.SECTOR).1,
        (flush_metadata r.2.1 r.2.2 BufferType.SECTOR).2.2.wlog.map Prod.fst))) =
      some (0, [0 * ENT_DEV_SECTOR_SCALE]) ∧
    (load_entanglement_and_checksums device_1024 kernel_sentinel).1 = 0 ∧
    (load_entanglement_and_checksums device_1024 kernel_sentinel).2.1.next_sector = 506 := by
  have hl := load_spec device_1024 kernel_sentinel
  have h0 := hl.2.2.1 (fun n => rfl)
  refine ⟨by decide, by decide!, h0, ?_⟩
  rw [(hl.2.2.2 h0).2.1]
  rfl

/-- C22. When `process_read_bio` gets its clone, it returns 0 and submits the clone at
the address `a` of the request when `a` is even and at `a - 1` when `a` is odd; whenever
a request is submitted, its address is even and not greater than `a`. -/
theorem C22_read_forwarded_to_even_address (ent_dev : entanglement_device) (k : kernel)
    (b : bio) :
    (k.outcome = 0 →
      (process_read_bio ent_dev k b).1 = 0 ∧
      (process_read_bio ent_dev k b).2.1 =
        some (if b.bi_sector % 2 = 0 then b.bi_sector else b.bi_sector - 1)) ∧
    (∀ f, (process_read_bio ent_dev k b).2.1 = some f → f % 2 = 0 ∧ f ≤ b.bi_sector) := by
  unfold process_read_bio
  constructor
  · intro h
    rw [if_neg (by simp [h])]
    by_cases c : b.bi_sector % 2 = 0 <;> simp [c]
  · intro f hf
    by_cases c0 : k.outcome ≠ 0
    · rw [if_pos c0] at hf
      simp at hf
    · rw [if_neg c0] at hf
      simp only [Option.some.injEq] at hf
      subst hf
      by_cases c : b.bi_sector % 2 = 0
      · simp [c]
      · simp only [ne_eq, c, not_false_eq_true, if_true]
        omega

/-- Witness of C22: the reads at the addresses 8 and 9 are both submitted at 8. -/
theorem C22_read_forwarded_to_even_address_witness :
    (process_read_bio device_1024 quiet_kernel ⟨8, []⟩).2.1 = some 8 ∧
    (process_read_bio device_1024 quiet_kernel ⟨9, []⟩).2.1 = some 8 ∧
    (∀ f, (process_read_bio device_1024 quiet_kernel ⟨9, []⟩).2.1 = some f →
      f % 2 = 0 ∧ f ≤ 9) :=
  ⟨((C22_read_forwarded_to_even_address device_1024 quiet_kernel ⟨8, []⟩).1 rfl).2,
    ((C22_read_forwarded_to_even_address device_1024 quiet_kernel ⟨9, []⟩).1 rfl).2,
    (C22_read_forwarded_to_even_address device_1024 quiet_kernel ⟨9, []⟩).2⟩

/-- C23. In a chain of `2 * m` links (data links at the even positions, parity links at
the odd ones), for every corrupted bitmap and every parity link, at the position
`2 * i + 1`: `repair_block_rec` returns in the direction `LEFT` when it is allowed `i`
recursive calls, the number of parity links on the left of the link, and in the
direction `RIGHT` when it is allowed `m - 1 - i` recursive calls, the number of parity
links on its right.  (The fuel is the number of nested calls allowed, the first one
included.) -/
theorem C23_parity_walk_returns (ent_dev : entanglement_device) (k : kernel)
    (irr : Nat → Bool) (m i : Nat) (hlen : ent_dev.entanglement.length = 2 * m)
    (hp : 2 * i + 1 < 2 * m) :
    (∃ r, repair_block_rec (i + 1) ent_dev k (2 * i + 1) irr RepairDirection.LEFT = some r) ∧
    (∃ r, repair_block_rec (m - 1 - i + 1) ent_dev k (2 * i + 1) irr RepairDirection.RIGHT =
      some r) := by
  constructor
  · apply Option.isSome_iff_exists.1
    apply repair_block_rec_left_returns ent_dev k m hlen _ _ irr hp
    unfold left_calls_bound
    split_ifs <;> omega
  · apply Option.isSome_iff_exists.1
    apply repair_block_rec_right_returns ent_dev k m hlen _ _ irr (by omega)
    unfold right_calls_bound
    split_ifs <;> omega

/-- Witness of C23: the parity link at position 3 of the six links of
`device_three_writes`, which has one parity link on each side. -/
theorem C23_parity_walk_returns_witness :
    (∃ r, repair_block_rec (1 + 1) device_three_writes quiet_kernel (2 * 1 + 1)
      (fun _ => false) RepairDirection.LEFT = some r) ∧
    (∃ r, repair_block_rec (3 - 1 - 1 + 1) device_three_writes quiet_kernel (2 * 1 + 1)
      (fun _ => false) RepairDirection.RIGHT = some r) :=
  C23_parity_walk_returns device_three_writes quiet_kernel (fun _ => false) 3 1 rfl
    (by decide)

/-- C24. For a data payload `d` and a chain-tail content `t` of `ENT_BLOCK_SIZE` bytes,
with `p` the parity that `process_write_bio` computes: the XOR of `t` and `p` (the loop
of the repair functions applied to the two neighbours of the data block) is `d`, the XOR
of `d` and `p` is `t`, the XOR of `d` and `t` is `p`, and `p` is `d` when `t` is
all-zero. -/
theorem C24_xor_round_trip (d t : List Nat) (hd : d.length = ENT_BLOCK_SIZE)
    (ht : t.length = ENT_BLOCK_SIZE) :
    xor_bytes t (parity_buffer_of d t) ENT_BLOCK_SIZE = d ∧
    xor_bytes d (parity_buffer_of d t) ENT_BLOCK_SIZE = t ∧
    xor_bytes d t ENT_BLOCK_SIZE = parity_buffer_of d t ∧
    (is_buffer_empty t ENT_BLOCK_SIZE ≠ 0 → parity_buffer_of d t = d) := by
  refine ⟨?_, ?_, (parity_buffer_of_eq_xor d t).symm, ?_⟩
  · apply eq_of_getD_eq _ _ ENT_BLOCK_SIZE (xor_bytes_length _ _ _) hd
    intro i h
    rw [xor_bytes_getD _ _ _ _ h, parity_buffer_of_getD d t i h, Nat.xor_comm (d.getD i 0),
      ← Nat.xor_assoc, Nat.xor_self, Nat.zero_xor]
  · apply eq_of_getD_eq _ _ ENT_BLOCK_SIZE (xor_bytes_length _ _ _) ht
    intro i h
    rw [xor_bytes_getD _ _ _ _ h, parity_buffer_of_getD d t i h, ← Nat.xor_assoc,
      Nat.xor_self, Nat.zero_xor]
  · intro hz
    exact parity_buffer_of_zero_tail d t hd ((is_buffer_empty_ne_zero_iff t ENT_BLOCK_SIZE).1 hz)

/-- Witness of C24: the payload `fill_block 0x22` on the chain tail `fill_block 0x11`. -/
theorem C24_xor_round_trip_witness :
    xor_bytes (fill_block 0x11) (parity_buffer_of (fill_block 0x22) (fill_block 0x11))
      ENT_BLOCK_SIZE = fill_block 0x22 ∧
    xor_bytes (fill_block 0x22) (parity_buffer_of (fill_block 0x22) (fill_block 0x11))
      ENT_BLOCK_SIZE = fill_block 0x11 ∧
    xor_bytes (fill_block 0x22) (fill_block 0x11) ENT_BLOCK_SIZE =
      parity_buffer_of (fill_block 0x22) (fill_block 0x11) ∧
    (is_buffer_empty (fill_block 0x11) ENT_BLOCK_SIZE ≠ 0 →
      parity_buffer_of (fill_block 0x22) (fill_block 0x11) = fill_block 0x22) :=
  C24_xor_round_trip (fill_block 0x22) (fill_block 0x11) (fill_block_length _)
    (fill_block_length _)

/-- C25, at the failing input: for a disk of 1024 blocks the command `init` hands the
block index 4080 to `ent_disk_writeSector`, which lies behind the last block of the disk,
while `entanglement_tgt_ctr` computes `metadata_start_sector = 504` for the same size. -/
theorem C25_init_marker_misses_journal :
    main_init_sector 1024 = 4080 ∧
    ent_disk_writeSector_offset (main_init_sector 1024) = 4080 * 4096 ∧
    (entanglement_tgt_ctr_layout 1024).metadata_start_sector = 504 ∧
    ((entanglement_tgt_ctr 4 quiet_kernel 3 "/dev/sdb" 1024 0).map
      (fun r => (r.1, r.2.1.metadata_start_sector))) = some (0, 504) ∧
    1024 ≤ main_init_sector 1024 := by
  decide

/-- C26. In every state reached by `process_write_bio` calls, successful or not, from a
state whose two journal buffers have 4096 bytes and the sizes 0, `sector_buffer_size` is
a multiple of 8 that is at most 4088 and `checksum_buffer_size` is a multiple of 4 that
is at most 4092.  In a state with these bounds each of the four appends of
`process_write_bio` keeps the bounds and the 4096 bytes of the buffers, leaves the last
slot of its buffer as it was before the append (or as its flush left it), and goes
through `flush_metadata` whenever the pending bytes and the new entry do not stay below
4096 bytes. -/
theorem C26_buffer_sizes_stay_in_range (ent_dev : entanglement_device) (k : kernel)
    (bios : List bio) (hs : ent_dev.sector_buffer_size = 0)
    (hc : ent_dev.checksum_buffer_size = 0)
    (hl1 : ent_dev.block_sector_buffer.length = ENT_BLOCK_SIZE)
    (hl2 : ent_dev.block_checksum_buffer.length = ENT_BLOCK_SIZE) :
    ((process_write_bios ent_dev k bios).1.sector_buffer_size % 8 = 0 ∧
      (process_write_bios ent_dev k bios).1.sector_buffer_size ≤ 4088 ∧
      (process_write_bios ent_dev k bios).1.checksum_buffer_size % 4 = 0 ∧
      (process_write_bios ent_dev k bios).1.checksum_buffer_size ≤ 4092 ∧
      buffer_sizes_in_range (process_write_bios ent_dev k bios).1) ∧
    (∀ (dev : entanglement_device) (k1 : kernel) (v : Nat), buffer_sizes_in_range dev →
      (buffer_sizes_in_range (append_data_sector dev k1 v).2.1 ∧
        (append_data_sector dev k1 v).2.1.block_sector_buffer.drop
            (ENT_BLOCK_SIZE - SIZEOF_SECTOR_T) =
          (if dev.sector_buffer_size + SIZEOF_SECTOR_T < ENT_BLOCK_SIZE then dev
            else (flush_metadata dev k1 BufferType.SECTOR).2.1).block_sector_buffer.drop
              (ENT_BLOCK_SIZE - SIZEOF_SECTOR_T) ∧
        (ENT_BLOCK_SIZE ≤ dev.sector_buffer_size + SIZEOF_SECTOR_T →
          (append_data_sector dev k1 v).2.2 =
            (flush_metadata dev k1 BufferType.SECTOR).2.2)) ∧
      (buffer_sizes_in_range (append_data_checksum dev k1 v).2.1 ∧
        (append_data_checksum dev k1 v).2.1.block_checksum_buffer.drop
            (ENT_BLOCK_SIZE - SIZEOF_UINT) =
          (if dev.checksum_buffer_size + SIZEOF_UINT < ENT_BLOCK_SIZE then dev
            else (flush_metadata dev k1 BufferType.CHECKSUM).2.1).block_checksum_buffer.drop
              (ENT_BLOCK_SIZE - SIZEOF_UINT) ∧
        (ENT_BLOCK_SIZE ≤ dev.checksum_buffer_size + SIZEOF_UINT →
          (append_data_checksum dev k1 v).2.2 =
            (flush_metadata dev k1 BufferType.CHECKSUM).2.2)) ∧
      (buffer_sizes_in_range (append_parity_sector dev k1 v).2.1 ∧
        (append_parity_sector dev k1 v).2.1.block_sector_buffer.drop
            (ENT_BLOCK_SIZE - SIZEOF_SECTOR_T) =
          (if dev.sector_buffer_size + SIZEOF_SECTOR_T < ENT_BLOCK_SIZE then dev
            else (flush_metadata dev k1 BufferType.SECTOR).2.1).block_sector_buffer.drop
              (ENT_BLOCK_SIZE - SIZEOF_SECTOR_T) ∧
        (ENT_BLOCK_SIZE ≤ dev.sector_buffer_size + SIZEOF_SECTOR_T →
          (append_parity_sector dev k1 v).2.2 =
            (flush_metadata dev k1 BufferType.SECTOR).2.2)) ∧
      (buffer_sizes_in_range (append_parity_checksum dev k1 v).2.1 ∧
        (append_parity_checksum dev k1 v).2.1.block_checksum_buffer.drop
            (ENT_BLOCK_SIZE - SIZEOF_UINT) =
          (if dev.checksum_buffer_size + SIZEOF_UINT < ENT_BLOCK_SIZE then dev
            else (flush_metadata dev k1 BufferType.CHECKSUM).2.1).block_checksum_buffer.drop
              (ENT_BLOCK_SIZE - SIZEOF_UINT) ∧
        (ENT_BLOCK_SIZE ≤ dev.checksum_buffer_size + SIZEOF_UINT →
          (append_parity_checksum dev k1 v).2.2 =
            (flush_metadata dev k1 BufferType.CHECKSUM).2.2))) := by
  have h0 : buffer_sizes_in_range ent_dev := by
    refine ⟨?_, ?_, ?_, ?_, hl1, hl2⟩
    · rw [hs]; rfl
    · rw [hs]; decide
    · rw [hc]; rfl
    · rw [hc]; decide
  have hr := process_write_bios_sizes bios ent_dev k h0
  refine ⟨?_, fun dev k1 v h =>
    ⟨append_data_sector_sizes dev k1 v h, append_data_checksum_sizes dev k1 v h,
      append_parity_sector_sizes dev k1 v h, append_parity_checksum_sizes dev k1 v h⟩⟩
  obtain ⟨h1, h2, h3, h4, _, _⟩ := id hr
  simp only [SIZEOF_SECTOR_T, SIZEOF_UINT, ENT_BLOCK_SIZE] at h1 h2 h3 h4
  exact ⟨h1, by omega, h3, by omega, hr⟩

/-- Witness of C26: one write on the device built for 1024 blocks. -/
theorem C26_buffer_sizes_stay_in_range_witness :
    (process_write_bios device_1024 quiet_kernel
      [⟨8, lead_block 0x22⟩]).1.sector_buffer_size % 8 = 0 ∧
    (process_write_bios device_1024 quiet_kernel
      [⟨8, lead_block 0x22⟩]).1.sector_buffer_size ≤ 4088 ∧
    (process_write_bios device_1024 quiet_kernel
      [⟨8, lead_block 0x22⟩]).1.checksum_buffer_size % 4 = 0 ∧
    (process_write_bios device_1024 quiet_kernel
      [⟨8, lead_block 0x22⟩]).1.checksum_buffer_size ≤ 4092 ∧
    buffer_sizes_in_range (process_write_bios device_1024 quiet_kernel
      [⟨8, lead_block 0x22⟩]).1 :=
  (C26_buffer_sizes_stay_in_range device_1024 quiet_kernel [⟨8, lead_block 0x22⟩] rfl rfl
    (fill_block_length 0) (fill_block_length 0)).1

/-- C27, counterexample: on the device built for 1024 blocks, which has an empty chain
and an all-zero tail cache, the two writes of the same payload `lead_block 0x22` at the
sectors 8 and 16 succeed; afterwards the chain has four links and the tail cache is
all-zero again. -/
theorem C27_zero_tail_on_chain_of_four_links :
    device_1024.entanglement = [] ∧
    is_buffer_empty device_1024.last_entangled_block ENT_BLOCK_SIZE ≠ 0 ∧
    writes_succeed device_1024 quiet_kernel
      [⟨8, lead_block 0x22⟩, ⟨16, lead_block 0x22⟩] = true ∧
    (process_write_bios device_1024 quiet_kernel
      [⟨8, lead_block 0x22⟩, ⟨16, lead_block 0x22⟩]).1.entanglement.length = 4 ∧
    is_buffer_empty (process_write_bios device_1024 quiet_kernel
      [⟨8, lead_block 0x22⟩, ⟨16, lead_block 0x22⟩]).1.last_entangled_block
      ENT_BLOCK_SIZE ≠ 0 := by
  have hs : writes_succeed device_1024 quiet_kernel
      [⟨8, lead_block 0x22⟩, ⟨16, lead_block 0x22⟩] = true := by decide!
  obtain ⟨L, hL, hlen, _⟩ := writes_chain _ device_1024 quiet_kernel hs
  refine ⟨rfl, ?_, hs, ?_, ?_⟩
  · exact (is_buffer_empty_ne_zero_iff _ _).2 (fun i hi => fill_block_getD 0 i hi)
  · rw [hL, List.length_append, hlen]
    rfl
  · exact writes_same_payload_twice device_1024 quiet_kernel _ _ hs rfl
      (fun i hi => fill_block_getD 0 i hi)

/-- C27, amended. In every state reached from an empty chain with a zeroed tail cache by
successful writes, the tail cache is all-zero when the chain is empty, and it is all-zero
exactly when the byte-wise XOR of the payloads written so far is all-zero. -/
theorem C27_tail_zero_iff_payloads_cancel (ent_dev : entanglement_device) (k : kernel)
    (bios : List bio) (hempty : ent_dev.entanglement = [])
    (ht : ent_dev.last_entangled_block = List.replicate ENT_BLOCK_SIZE 0)
    (hs : writes_succeed ent_dev k bios = true) :
    ((process_write_bios ent_dev k bios).1.entanglement = [] →
      is_buffer_empty (process_write_bios ent_dev k bios).1.last_entangled_block
        ENT_BLOCK_SIZE ≠ 0) ∧
    (is_buffer_empty (process_write_bios ent_dev k bios).1.last_entangled_block
        ENT_BLOCK_SIZE ≠ 0 ↔
      ∀ i, i < ENT_BLOCK_SIZE → (xor_of_payloads (bios.map bio.data)).getD i 0 = 0) := by
  have htail : (process_write_bios ent_dev k bios).1.last_entangled_block =
      xor_of_payloads (bios.map bio.data) := by
    rw [writes_tail bios ent_dev k hs, ht]
    rfl
  constructor
  · intro hnil
    obtain ⟨L, hL, hlen, _⟩ := writes_chain bios ent_dev k hs
    rw [hL, hempty, List.nil_append] at hnil
    have hb : bios = [] := by
      rw [hnil] at hlen
      simp only [List.length_nil] at hlen
      exact List.length_eq_zero.1 (by omega)
    subst hb
    refine (is_buffer_empty_ne_zero_iff _ _).2 (fun i _ => ?_)
    simp only [process_write_bios]
    rw [ht]
    exact replicate_zero_getD _ _
  · rw [htail]
    exact is_buffer_empty_ne_zero_iff _ _

/-- Witness of C27 (amended): one write of `lead_block 0x22` on the device built for
1024 blocks. -/
theorem C27_tail_zero_iff_payloads_cancel_witness :
    ((process_write_bios device_1024 quiet_kernel
        [⟨8, lead_block 0x22⟩]).1.entanglement = [] →
      is_buffer_empty (process_write_bios device_1024 quiet_kernel
        [⟨8, lead_block 0x22⟩]).1.last_entangled_block ENT_BLOCK_SIZE ≠ 0) ∧
    (is_buffer_empty (process_write_bios device_1024 quiet_kernel
        [⟨8, lead_block 0x22⟩]).1.last_entangled_block ENT_BLOCK_SIZE ≠ 0 ↔
      ∀ i, i < ENT_BLOCK_SIZE →
        (xor_of_payloads ([(⟨8, lead_block 0x22⟩ : bio)].map bio.data)).getD i 0 = 0) :=
  C27_tail_zero_iff_payloads_cancel device_1024 quiet_kernel [⟨8, lead_block 0x22⟩] rfl rfl
    (by decide!)

/-- C28. For every data payload `d` and tail `t`, the parity buffer of `process_write_bio`
is the byte-wise XOR of `d` and `t`, whichever branch computes it; and after a sequence
of successful writes that starts from a zeroed tail cache, the tail cache is the
byte-wise XOR of the payloads written. -/
theorem C28_parity_is_xor_in_both_branches :
    (∀ d t : List Nat, parity_buffer_of d t = xor_bytes d t ENT_BLOCK_SIZE) ∧
    (∀ (ent_dev : entanglement_device) (k : kernel) (bios : List bio),
      ent_dev.last_entangled_block = List.replicate ENT_BLOCK_SIZE 0 →
      writes_succeed ent_dev k bios = true →
      (process_write_bios ent_dev k bios).1.last_entangled_block =
        xor_of_payloads (bios.map bio.data)) := by
  refine ⟨parity_buffer_of_eq_xor, ?_⟩
  intro ent_dev k bios ht hs
  rw [writes_tail bios ent_dev k hs, ht]
  rfl

/-- Witness of C28: the writes of `lead_block 0x11` and `lead_block 0x22` on the device
built for 1024 blocks. -/
theorem C28_parity_is_xor_in_both_branches_witness :
    parity_buffer_of (lead_block 0x22) (lead_block 0x11) =
      xor_bytes (lead_block 0x22) (lead_block 0x11) ENT_BLOCK_SIZE ∧
    (process_write_bios device_1024 quiet_kernel
      [⟨0, lead_block 0x11⟩, ⟨8, lead_block 0x22⟩]).1.last_entangled_block =
      xor_of_payloads ([(⟨0, lead_block 0x11⟩ : bio), ⟨8, lead_block 0x22⟩].map bio.data) :=
  ⟨C28_parity_is_xor_in_both_branches.1 _ _,
    C28_parity_is_xor_in_both_branches.2 device_1024 quiet_kernel
      [⟨0, lead_block 0x11⟩, ⟨8, lead_block 0x22⟩] rfl (by decide!)⟩

/-- C29, counterexample: in the chain of six links of `device_three_writes`, the call of
`repair_block_rec` for the data link at position 0 in the direction `LEFT`, and the call
for the data link at position 4 in the direction `RIGHT`, read `block_sector` through
`list_entry` of the list head: neither returns `IRRECOVERABLE` from the chain and the
bitmap alone. -/
theorem C29_data_link_reads_list_head :
    device_three_writes.entanglement.length = 2 * 3 ∧
    repair_block_rec_end 7 device_three_writes quiet_kernel 0 (fun _ => false)
      RepairDirection.LEFT = rec_end.head_read ∧
    repair_block_rec_end 7 device_three_writes quiet_kernel 4 (fun _ => false)
      RepairDirection.RIGHT = rec_end.head_read :=
  ⟨rfl, rfl, rfl⟩

/-- C29, amended. In a chain of `2 * m` links, for every corrupted bitmap, every parity
link (at a position `2 * i + 1` of the chain) and both directions, `repair_block_rec`
reads no list head and returns as soon as it is allowed `m` nested calls; it returns
`IRRECOVERABLE`, the bit of the link is set in the irrecoverable bitmap, the kernel is
the one before the call (nothing was written to the device) and the device is the one
before the call (no bit of the corrupted bitmap was cleared). -/
theorem C29_parity_link_returns_irrecoverable (ent_dev : entanglement_device) (k : kernel)
    (irr : Nat → Bool) (m i fuel : Nat) (direction : RepairDirection)
    (hlen : ent_dev.entanglement.length = 2 * m) (hp : 2 * i + 1 < 2 * m)
    (hfuel : m ≤ fuel) :
    ∃ r, repair_block_rec_end fuel ent_dev k (2 * i + 1) irr direction = rec_end.returned r ∧
      r.1 = RepairState.IRRECOVERABLE ∧
      r.2.irrecoverable_blocks_bitmap (list_entry ent_dev k (2 * i + 1)).block_sector = true ∧
      r.2.k = k ∧ r.2.ent_dev = ent_dev := by
  have hsome : (repair_block_rec fuel ent_dev k (2 * i + 1) irr direction).isSome = true := by
    cases direction with
    | LEFT =>
      apply repair_block_rec_left_returns ent_dev k m hlen _ _ irr hp
      unfold left_calls_bound
      split_ifs <;> omega
    | RIGHT =>
      apply repair_block_rec_right_returns ent_dev k m hlen _ _ irr (by omega)
      unfold right_calls_bound
      split_ifs <;> omega
  obtain ⟨r, hr⟩ := Option.isSome_iff_exists.1 hsome
  obtain ⟨e1, e2, e3⟩ := repair_block_rec_irrecoverable _ _ _ _ _ _ _ hr
  refine ⟨r, ?_, e1, repair_block_rec_sets_bit _ _ _ _ _ _ _ hr, e3, e2⟩
  rw [repair_block_rec_end_parity ent_dev k m hlen fuel i irr direction hp, hr]
  rfl

/-- Witness of C29 (amended): the parity link at position 3 of `device_three_writes`
(sector 515), in the direction `RIGHT`. -/
theorem C29_parity_link_returns_irrecoverable_witness :
    ∃ r, repair_block_rec_end 3 device_three_writes quiet_kernel (2 * 1 + 1) (fun _ => false)
        RepairDirection.RIGHT = rec_end.returned r ∧
      r.1 = RepairState.IRRECOVERABLE ∧
      r.2.irrecoverable_blocks_bitmap
        (list_entry device_three_writes quiet_kernel (2 * 1 + 1)).block_sector = true ∧
      r.2.k = quiet_kernel ∧ r.2.ent_dev = device_three_writes :=
  C29_parity_link_returns_irrecoverable device_three_writes quiet_kernel (fun _ => false) 3 1 3
    RepairDirection.RIGHT rfl (by decide) (by decide)

/-- C30, counterexample: `entanglement_tgt_ctr` accepts `dev_size = 8` and builds the
layout of `device_8`, in which `write_sector_scale` is 0.  On that device the write of
`lead_block 0x33` at sector 0 and the write of the all-zero block at sector 1 succeed;
the second block starts with a zero byte, and the entry of the checksum map for its
address 1 is then 1842515611, the checksum of its parity, not 0. -/
theorem C30_entry_overwritten_when_scale_is_zero :
    ((entanglement_tgt_ctr 4 quiet_kernel 3 "/dev/sdb" 8 0).map
      (fun r => (r.1, r.2.1.dev_size, r.2.1.metadata_size, r.2.1.metadata_start_sector,
        r.2.1.write_sector_scale))) =
      some (0, device_8.dev_size, device_8.metadata_size, device_8.metadata_start_sector,
        device_8.write_sector_scale) ∧
    device_8.write_sector_scale = 0 ∧
    writes_succeed device_8 quiet_kernel [⟨0, lead_block 0x33⟩, ⟨1, fill_block 0⟩] = true ∧
    (fill_block 0).head? = some 0 ∧
    (process_write_bios device_8 quiet_kernel
      [⟨0, lead_block 0x33⟩, ⟨1, fill_block 0⟩]).1.sector_checksum_map 1 = 1842515611 := by
  have hs : writes_succeed device_8 quiet_kernel
      [⟨0, lead_block 0x33⟩, ⟨1, fill_block 0⟩] = true := by decide!
  have hc : crc32b (lead_block 0x33) = 1842515611 := by decide!
  refine ⟨by decide, rfl, hs, rfl, ?_⟩
  exact (second_write_entry device_8 quiet_kernel ⟨0, lead_block 0x33⟩ ⟨1, fill_block 0⟩
    (lead_block 0x33) hs rfl
    (parity_buffer_of_zero_tail _ _ (lead_block_length 0x33)
      (fun i hi => fill_block_getD 0 i hi))
    (parity_buffer_of_zero_data _ _ (lead_block_length 0x33)
      (fun i hi => fill_block_getD 0 i hi))).trans hc

/-- C30, amended. `crc32b` returns 0 for every block whose first byte is 0, and gives the
same checksum to two blocks that agree up to a zero byte.  A successful write of a block
whose first byte is 0, at an address whose parity address is another address of the
device (`write_sector_scale` is not 0 and the parity address is below `dev_size`),
records 0 for it in the checksum map; and the scan of `check_corruption` leaves the
corrupted bit of every address of the device whose entry is 0 as it found it. -/
theorem C30_zero_first_byte_recorded_as_zero :
    (∀ rest : List Nat, crc32b (0 :: rest) = 0) ∧
    (∀ pre r1 r2 : List Nat, crc32b (pre ++ 0 :: r1) = crc32b (pre ++ 0 :: r2)) ∧
    (∀ (ent_dev : entanglement_device) (k : kernel) (b : bio),
      b.data.head? = some 0 → 0 < ent_dev.write_sector_scale →
      b.bi_sector + ent_dev.write_sector_scale < ent_dev.dev_size →
      (process_write_bio ent_dev k b).1 = 0 →
      (process_write_bio ent_dev k b).2.1.sector_checksum_map b.bi_sector = 0) ∧
    (∀ (ent_dev : entanglement_device) (k : kernel) (s : Nat),
      s < ent_dev.dev_size → ent_dev.sector_checksum_map s = 0 →
      (check_corruption_before_repair ent_dev k).2.1.corrupted_blocks s =
        ent_dev.corrupted_blocks s) := by
  have h0 : ∀ rest : List Nat, crc32b (0 :: rest) = 0 := by
    intro rest
    simp [crc32b, crc32b_loop]
  refine ⟨h0, ?_, ?_, ?_⟩
  · intro pre r1 r2
    unfold crc32b
    rw [crc32b_loop_until_zero pre _ r1 r2]
  · intro ent_dev k b hb hw _ h
    rw [process_write_bio_map ent_dev k b h]
    simp only []
    rw [if_neg (by omega)]
    simp only [if_true]
    cases hd : b.data with
    | nil => rw [hd] at hb; simp at hb
    | cons x rest =>
      rw [hd] at hb
      simp only [List.head?_cons, Option.some.injEq] at hb
      rw [hb]
      exact h0 rest
  · intro ent_dev k s _ hs
    exact check_corruption_before_repair_zero_entry ent_dev k s hs

/-- Witness of C30 (amended): the write of the all-zero block at sector 8 of the device
built for 1024 blocks, and the scan of the state it leaves, in which the stored block was
damaged. -/
theorem C30_zero_first_byte_recorded_as_zero_witness :
    (process_write_bio device_1024 quiet_kernel ⟨8, fill_block 0⟩).2.1.sector_checksum_map 8
      = 0 ∧
    (check_corruption_before_repair
      (process_write_bio device_1024 quiet_kernel ⟨8, fill_block 0⟩).2.1
      kernel_two_writes).2.1.corrupted_blocks 8 =
      (process_write_bio device_1024 quiet_kernel ⟨8, fill_block 0⟩).2.1.corrupted_blocks 8 :=
  have h := C30_zero_first_byte_recorded_as_zero.2.2.1 device_1024 quiet_kernel
    ⟨8, fill_block 0⟩ rfl (by decide) (by decide) (by decide!)
  ⟨h, C30_zero_first_byte_recorded_as_zero.2.2.2 _ kernel_two_writes 8 (by decide!) h⟩

end DmEnt
